import Mathlib

/-! # joypad-to-obs: binding matcher, store, action executor and listeners

A shallow embedding of `JoypadConfigStore::FindMatchingBindings`, of the loading and editing
of the store (`src/joypad-config.cpp`), of the data they work on (`src/joypad-config.h`), of
the volume cases of `JoypadActionEngine::Execute` (`src/joypad-actions.cpp`) and of the
listener registration and dispatch of `JoypadInputManager` (`src/joypad-input.cpp`).

Conventions of the embedding:

* C++ `double` is an arbitrary linearly ordered field `α` (exact arithmetic, no rounding,
  no NaN); the theorems that need `std::pow` instantiate `α` with `ℝ` and `std::pow` with the
  real power, the concrete runs instantiate `α` with `ℚ`.  `std::pow` is a parameter `pow`
  of the definitions, so they stay executable.
* C++ `int` is `Int` (the matcher only compares and prints these numbers); the casts of
  the loader from the 64-bit integers of the persisted file are `to_int`.
* `std::string` is `String`; `std::vector` is `List`.
* `std::unordered_map<std::string, bool>` is an association list with unique keys; the
  matcher never iterates over it, so the order of the entries carries no meaning.
* The mutable member `axis_active_` is threaded through explicitly: `FindMatchingBindings`
  returns the matches together with the latch table it leaves behind.
-/

namespace Joypad

/-! ## Data model (`joypad-config.h`) -/

/-- The enum class `JoypadActionType`. -/
inductive JoypadActionType where
  | SwitchScene
  | ToggleSourceVisibility
  | SetSourceVisibility
  | ToggleSourceMute
  | SetSourceMute
  | SetSourceVolume
  | MediaPlayPause
  | MediaRestart
  | MediaStop
  | ToggleFilterEnabled
  | SetFilterEnabled
  | AdjustSourceVolume
  | SetSourceVolumePercent
deriving DecidableEq, Repr

/-- The enum class `JoypadInputType`. -/
inductive JoypadInputType where
  | Button
  | Axis
deriving DecidableEq, Repr

/-- The enum class `JoypadAxisDirection` (`Both = 0`, `Negative = -1`, `Positive = 1`). -/
inductive JoypadAxisDirection where
  | Both
  | Negative
  | Positive
deriving DecidableEq, Repr

/-- The cast `(int)direction`. -/
def JoypadAxisDirection.toInt : JoypadAxisDirection → Int
  | .Both => 0
  | .Negative => -1
  | .Positive => 1

/-- The struct `JoypadBinding`, with `double` read as `α`. -/
structure JoypadBinding (α : Type) where
  device_id : String
  device_name : String
  button : Int
  input_type : JoypadInputType
  axis_index : Int
  axis_direction : JoypadAxisDirection
  axis_threshold : α
  axis_interval_ms : Int
  axis_min_value : α
  axis_max_value : α
  action : JoypadActionType
  use_current_scene : Bool
  scene_name : String
  source_name : String
  filter_name : String
  bool_value : Bool
  allow_above_unity : Bool
  volume_value : α
  slider_gamma : α
  enabled : Bool
deriving DecidableEq, Repr

/-- The struct `JoypadEvent`, with `double` read as `α`. -/
structure JoypadEvent (α : Type) where
  device_id : String
  device_name : String
  button : Int
  is_axis : Bool
  axis_index : Int
  axis_value : α
  axis_raw_value : α
deriving DecidableEq, Repr

section Defaults

variable {α : Type} [LinearOrderedField α]

/-- A default-constructed `JoypadBinding` (the member initialisers of the struct). -/
def JoypadBinding.default : JoypadBinding α where
  device_id := ""
  device_name := ""
  button := -1
  input_type := .Button
  axis_index := -1
  axis_direction := .Positive
  axis_threshold := 0.5
  axis_interval_ms := 150
  axis_min_value := 0
  axis_max_value := 1024
  action := .SwitchScene
  use_current_scene := false
  scene_name := ""
  source_name := ""
  filter_name := ""
  bool_value := false
  allow_above_unity := false
  volume_value := 1
  slider_gamma := 0.6
  enabled := true

/-- A default-constructed `JoypadEvent` (the member initialisers of the struct). -/
def JoypadEvent.default : JoypadEvent α where
  device_id := ""
  device_name := ""
  button := -1
  is_axis := false
  axis_index := -1
  axis_value := 0
  axis_raw_value := 0

end Defaults

/-! ## The latch table `axis_active_` -/

/-- The member `axis_active_`, a `std::unordered_map<std::string, bool>`. -/
abbrev AxisActive := List (String × Bool)

/-- Lookup in the table; a key without an entry reads as the value-initialised `false`. -/
def AxisActive.get : AxisActive → String → Bool
  | [], _ => false
  | (k, v) :: rest, key => if k = key then v else AxisActive.get rest key

/-- The assignment `axis_active_[key] = v`: overwrite the entry of `key`, or add one. -/
def AxisActive.set : AxisActive → String → Bool → AxisActive
  | [], key, v => [(key, v)]
  | (k, w) :: rest, key, v =>
    if k = key then (key, v) :: rest else (k, w) :: AxisActive.set rest key v

/-- The read `axis_active_[key]` through `operator[]`: the value found, and the table, in
which a missing key has been inserted with the value `false`. -/
def AxisActive.index (m : AxisActive) (key : String) : Bool × AxisActive :=
  (m.get key, m.set key (m.get key))

/-! ## `FindMatchingBindings` (`joypad-config.cpp`, lines 309-410) -/

section Matcher

variable {α : Type} [LinearOrderedField α]

/-- The function `std::clamp(v, lo, hi)`. -/
def clamp (v lo hi : α) : α :=
  if v < lo then lo else if hi < v then hi else v

/-- Lines 330-356: the percent value of a `SetSourceVolumePercent` axis binding for the raw
axis value `raw`; `pow` is `std::pow`. -/
def percentAxisVolume (pow : α → α → α) (binding : JoypadBinding α) (raw : α) : α :=
  let minv0 := binding.axis_min_value
  let maxv0 := binding.axis_max_value
  let minv := if maxv0 ≤ minv0 then 0 else minv0
  let maxv := if maxv0 ≤ minv0 then 1024 else maxv0
  let percent := ((raw - minv) / (maxv - minv)) * 100
  let percent :=
    if binding.axis_direction = JoypadAxisDirection.Negative then 100 - percent else percent
  let percent := if percent < 0 then 0 else percent
  let percent := if percent > 100 then 100 else percent
  let base := percent / 100
  let base := clamp base 0 1
  let gamma := if binding.slider_gamma > 0 then binding.slider_gamma else 0.6
  let gamma := clamp gamma 0.1 50
  let curved := pow base gamma
  clamp (curved * 100) 0 100

/-- Lines 371-375: the key of the latch table, built from the event's device, the binding's
axis index and the binding's direction as an `int`. -/
def axisKey (event : JoypadEvent α) (binding : JoypadBinding α) : String :=
  event.device_id ++ ":" ++ toString binding.axis_index ++ ":" ++
    toString binding.axis_direction.toInt

/-- Lines 376-389: the hysteresis gate.  Returns whether the binding goes on (`false` is
the `continue` of the loop) and the table afterwards. -/
def hysteresisGate (axis_active : AxisActive) (axis_key : String)
    (abs_value threshold_on threshold_off : α) : Bool × AxisActive :=
  let active := (axis_active.index axis_key).1
  let axis_active := (axis_active.index axis_key).2
  if !active then
    if abs_value < threshold_on then (false, axis_active)
    else (true, axis_active.set axis_key true)
  else
    if abs_value < threshold_off then (false, axis_active.set axis_key false)
    else (true, axis_active)

/-- Lines 390-397: the volume of an `AdjustSourceVolume` axis binding for the axis value
`value`. -/
def adjustVolume (binding : JoypadBinding α) (value : α) : α :=
  let abs_value := |value|
  let sign : α := if value ≥ 0 then 1 else -1
  let intensity := clamp abs_value 0 1
  |binding.volume_value| * intensity * sign

/-- Lines 315-407: the body of the loop for one stored binding.  Returns the binding that
is pushed to `matches` (`none` when the body ends in `continue`) and the latch table
afterwards. -/
def matchBinding (pow : α → α → α) (event : JoypadEvent α) (axis_active : AxisActive)
    (binding_ref : JoypadBinding α) : Option (JoypadBinding α) × AxisActive :=
  let binding := binding_ref
  if !binding.enabled then (none, axis_active)
  else if binding.input_type = JoypadInputType.Axis then
    if !event.is_axis || binding.axis_index ≠ event.axis_index then (none, axis_active)
    else
      let is_percent_axis : Bool := binding.action = JoypadActionType.SetSourceVolumePercent
      let binding :=
        if binding.action = JoypadActionType.SetSourceVolumePercent then
          { binding with volume_value := percentAxisVolume pow binding event.axis_raw_value }
        else binding
      let value := event.axis_value
      let abs_value := |value|
      let dir : Int := if value ≥ 0 then 1 else -1
      if !is_percent_axis && binding.axis_direction ≠ JoypadAxisDirection.Both &&
          dir ≠ binding.axis_direction.toInt then (none, axis_active)
      else
        let threshold_on := binding.axis_threshold
        let threshold_off := binding.axis_threshold * 0.4
        let axis_key := axisKey event binding
        let gate :=
          if !is_percent_axis then
            hysteresisGate axis_active axis_key abs_value threshold_on threshold_off
          else (true, axis_active)
        let axis_active := gate.2
        if !gate.1 then (none, axis_active)
        else
          let binding :=
            if binding.action = JoypadActionType.AdjustSourceVolume then
              { binding with volume_value := adjustVolume binding value }
            else binding
          if binding.device_id ≠ "" && binding.device_id ≠ event.device_id then
            (none, axis_active)
          else (some binding, axis_active)
  else
    if event.is_axis || binding.button ≠ event.button then (none, axis_active)
    else if binding.device_id ≠ "" && binding.device_id ≠ event.device_id then
      (none, axis_active)
    else (some binding, axis_active)

/-- The method `JoypadConfigStore::FindMatchingBindings`: the loop over `bindings_`, in
order.  Returns the vector `matches` and the latch table `axis_active_` after the call. -/
def FindMatchingBindings (pow : α → α → α) :
    List (JoypadBinding α) → AxisActive → JoypadEvent α → List (JoypadBinding α) × AxisActive
  | [], axis_active, _ => ([], axis_active)
  | binding_ref :: rest, axis_active, event =>
    let step := matchBinding pow event axis_active binding_ref
    let tail := FindMatchingBindings pow rest step.2 event
    (step.1.toList ++ tail.1, tail.2)

/-- A sequence of calls of `FindMatchingBindings` on one store, one per event, in order:
the list of results and the latch table after the last call. -/
def processEvents (pow : α → α → α) (bindings : List (JoypadBinding α)) :
    AxisActive → List (JoypadEvent α) → List (List (JoypadBinding α)) × AxisActive
  | axis_active, [] => ([], axis_active)
  | axis_active, event :: events =>
    let call := FindMatchingBindings pow bindings axis_active event
    let later := processEvents pow bindings call.2 events
    (call.1 :: later.1, later.2)

end Matcher


/-! ## Auxiliary definitions used to state the properties -/

section Aux

variable {α : Type} [LinearOrderedField α]

/-- Every field of `b` but `volume_value` agrees with `r`. -/
def SameButVolume (r b : JoypadBinding α) : Prop :=
  r = { b with volume_value := r.volume_value }

/-- The device filter of lines 403-406 passes. -/
def deviceOk (e : JoypadEvent α) (b : JoypadBinding α) : Bool :=
  b.device_id = "" || b.device_id = e.device_id

/-- Lines 363-364: the sign of the axis value as the `int` `dir`. -/
def axisDir (value : α) : Int := if value ≥ 0 then 1 else -1

/-- The binding as pushed by the axis branch when its action is not
`SetSourceVolumePercent`: lines 390-397 rewrite the volume of `AdjustSourceVolume`. -/
def adjusted (b : JoypadBinding α) (value : α) : JoypadBinding α :=
  if b.action = JoypadActionType.AdjustSourceVolume then
    { b with volume_value := adjustVolume b value }
  else b

/-- The test a stored binding has to pass to be returned for a button event. -/
def buttonMatch (e : JoypadEvent α) (b : JoypadBinding α) : Bool :=
  b.enabled && decide (b.input_type = JoypadInputType.Button) &&
    decide (b.button = e.button) && deviceOk e b

/-- The copy of the stored binding `b` that the loop body pushes for the event `e`, when it
pushes one: a button binding as stored, a `SetSourceVolumePercent` axis binding with the
percent value of lines 330-356, any other axis binding as `adjusted`. -/
def pushed (pow : α → α → α) (e : JoypadEvent α) (b : JoypadBinding α) : JoypadBinding α :=
  if b.input_type = JoypadInputType.Axis then
    if b.action = JoypadActionType.SetSourceVolumePercent then
      { b with volume_value := percentAxisVolume pow b e.axis_raw_value }
    else adjusted b e.axis_value
  else b

/-- The linear percent in the words of the specification: `(raw - min) / (max - min) * 100`,
replaced by 100 minus itself when the direction is `Negative`, then clamped to `[0, 100]`. -/
def linearPercent (b : JoypadBinding α) (raw : α) : α :=
  let q := (raw - b.axis_min_value) / (b.axis_max_value - b.axis_min_value) * 100
  clamp (if b.axis_direction = JoypadAxisDirection.Negative then 100 - q else q) 0 100

/-- The exponent that lines 350-353 use: `slider_gamma` clamped to `[0.1, 50]` when it is
positive, and 0.6 when it is not. -/
def effectiveGamma (b : JoypadBinding α) : α :=
  if b.slider_gamma > 0 then clamp b.slider_gamma 0.1 50 else 0.6

/-- The latch rule in the words of the specification: an inactive latch turns active on a
sample with `|value| >= t`, an active latch turns inactive on a sample with
`|value| < 0.4 * t`, and it keeps its state otherwise. -/
def latchNext (t : α) (active : Bool) (value : α) : Bool :=
  if active then !decide (|value| < 0.4 * t) else decide (|value| ≥ t)

/-- The states of the specified latch after each sample of a sequence, from the state
`active`. -/
def latchTrace (t : α) : Bool → List α → List Bool
  | _, [] => []
  | active, value :: values =>
    latchNext t active value :: latchTrace t (latchNext t active value) values

end Aux

/-! ## Concrete slider bindings (over any field) -/

section Sliders

variable {α : Type} [LinearOrderedField α]

/-- A slider binding: axis 0 of any device drives `SetSourceVolumePercent` over the raw
range 0..1024 with the exponent `gamma`. -/
def faderBinding (gamma : α) : JoypadBinding α :=
  { (JoypadBinding.default : JoypadBinding α) with
    input_type := .Axis, axis_index := 0, axis_direction := .Positive,
    axis_min_value := 0, axis_max_value := 1024,
    action := .SetSourceVolumePercent, source_name := "Mic",
    volume_value := 0, slider_gamma := gamma }

/-- An axis event of device `"pad"` on axis 0 with the raw value `raw` and the normalized
value `value`. -/
def faderEvent (raw value : α) : JoypadEvent α :=
  { (JoypadEvent.default : JoypadEvent α) with
    device_id := "pad", device_name := "Pad", is_axis := true, axis_index := 0,
    axis_value := value, axis_raw_value := raw }

end Sliders

/-! ## Concrete stores and events (over `ℚ`) -/

/-- An axis event of device `"pad"` on axis 0 with the normalized value `value`. -/
def stickEvent (value : ℚ) : JoypadEvent ℚ :=
  { (JoypadEvent.default : JoypadEvent ℚ) with
    device_id := "pad", device_name := "Pad", is_axis := true, axis_index := 0,
    axis_value := value }

/-- A binding on axis 0, both directions, threshold 0.5, any device, switching scenes. -/
def stickBinding : JoypadBinding ℚ :=
  { (JoypadBinding.default : JoypadBinding ℚ) with
    input_type := .Axis, axis_index := 0, axis_direction := .Both, axis_threshold := 0.5 }

/-- A button event of device `"pad"` for the button `n`. -/
def buttonEvent (n : Int) : JoypadEvent ℚ :=
  { (JoypadEvent.default : JoypadEvent ℚ) with
    device_id := "pad", device_name := "Pad", button := n }

/-- A binding of button 3 of any device, switching to the scene `"Live"`. -/
def sceneButton : JoypadBinding ℚ :=
  { (JoypadBinding.default : JoypadBinding ℚ) with button := 3, scene_name := "Live" }

/-- A binding on axis 0, both directions, with the threshold 0.0 that the editor offers as
"Any", switching to the scene `"Wide"`. -/
def anyPushBinding : JoypadBinding ℚ :=
  { (JoypadBinding.default : JoypadBinding ℚ) with
    input_type := .Axis, axis_index := 0, axis_direction := .Both, axis_threshold := 0.0,
    scene_name := "Wide" }

/-- A binding on axis 0 for the positive direction only, threshold 0.5. -/
def pushUpBinding : JoypadBinding ℚ :=
  { (JoypadBinding.default : JoypadBinding ℚ) with
    input_type := .Axis, axis_index := 0, axis_direction := .Positive, axis_threshold := 0.5 }

/-- A binding on axis 0, both directions, threshold 0.5, that adjusts the volume of a source
by the configured amount `amount`. -/
def nudgeBinding (amount : ℚ) : JoypadBinding ℚ :=
  { (JoypadBinding.default : JoypadBinding ℚ) with
    input_type := .Axis, axis_index := 0, axis_direction := .Both, axis_threshold := 0.5,
    action := .AdjustSourceVolume, source_name := "Mic", volume_value := amount }

/-- The sample sequence of the hysteresis scenario. -/
def hysteresisSamples : List ℚ := [0.3, 0.45, 0.5, 0.3, 0.2, 0.19, 0.45, 0.5]

/-! ## The stored bindings behind a result -/

section Kept

variable {α : Type} [LinearOrderedField α]

/-- The stored bindings of which the loop of `FindMatchingBindings` pushes a copy, in the
order of the store; the latch table is threaded through the loop as in
`FindMatchingBindings`. -/
def matchedBindings (pow : α → α → α) :
    List (JoypadBinding α) → AxisActive → JoypadEvent α → List (JoypadBinding α)
  | [], _, _ => []
  | binding_ref :: rest, axis_active, event =>
    let step := matchBinding pow event axis_active binding_ref
    (if step.1.isSome then [binding_ref] else []) ++ matchedBindings pow rest step.2 event

end Kept

/-! ## The Action Executor (`joypad-actions.cpp`) -/

section Actions

variable {α : Type} [LinearOrderedField α]

/-- The constant `kMinDb`. -/
def kMinDb : α := -60

/-- The constant `kMaxDb`. -/
def kMaxDb : α := 50

/-- The function `db_to_mul`; `pow` is `std::pow`. -/
def db_to_mul (pow : α → α → α) (db : α) : α :=
  pow 10 (db / 20)

/-- The function `mul_to_db`; `log10` is `std::log10`. -/
def mul_to_db (log10 : α → α) (mul : α) : α :=
  if mul ≤ 0.000001 then -100 else 20 * log10 mul

/-- Lines 163-172 of `Execute`, case `SetSourceVolume`: the value of `target_db` that is
handed to `db_to_mul`. -/
def SetSourceVolume_target_db (binding : JoypadBinding α) : α :=
  let target_db := binding.volume_value
  let target_db := if !binding.allow_above_unity && target_db > 0 then 0 else target_db
  let target_db := if target_db < kMinDb then kMinDb else target_db
  let target_db := if target_db > kMaxDb then kMaxDb else target_db
  target_db

/-- Lines 186-199 of `Execute`, case `SetSourceVolumePercent`: the value of `target_db` that
is handed to `db_to_mul`. -/
def SetSourceVolumePercent_target_db (binding : JoypadBinding α) : α :=
  let percent := binding.volume_value
  let percent := if percent < 0 then 0 else percent
  let percent := if percent > 100 then 100 else percent
  let target_db := kMinDb + (percent / 100) * (0 - kMinDb)
  let target_db := if target_db < kMinDb then kMinDb else target_db
  let target_db := if target_db > 0 then 0 else target_db
  target_db

/-- Lines 213-228 of `Execute`, case `AdjustSourceVolume`: the value of `next_mul` that is
handed to `obs_source_set_volume`, where `current_mul` is what `obs_source_get_volume`
returned. -/
def AdjustSourceVolume_next_mul (pow : α → α → α) (binding : JoypadBinding α)
    (current_mul : α) : α :=
  let next_mul := current_mul + binding.volume_value
  let next_mul := if next_mul < 0 then 0 else next_mul
  let next_mul := if !binding.allow_above_unity && next_mul > 1 then 1 else next_mul
  let min_mul := db_to_mul pow kMinDb
  let max_mul := db_to_mul pow kMaxDb
  let next_mul := if next_mul < min_mul then min_mul else next_mul
  let next_mul := if next_mul > max_mul then max_mul else next_mul
  next_mul

/-- The volume cases of `JoypadActionEngine::Execute`: the multiplier that the call ends
up passing to `obs_source_set_volume`, or `none` when it returns without that call.  The
host application is represented by `source_found` (whether `obs_get_source_by_name` finds
the source named by the binding) and `current_mul` (what `obs_source_get_volume` returns for
it). -/
def Execute_set_volume (pow : α → α → α) (binding : JoypadBinding α) (source_found : Bool)
    (current_mul : α) : Option α :=
  match binding.action with
  | .SetSourceVolume =>
    if binding.source_name = "" then none
    else if !source_found then none
    else some (db_to_mul pow (SetSourceVolume_target_db binding))
  | .SetSourceVolumePercent =>
    if binding.source_name = "" then none
    else if !source_found then none
    else some (db_to_mul pow (SetSourceVolumePercent_target_db binding))
  | .AdjustSourceVolume =>
    if binding.source_name = "" then none
    else if !source_found then none
    else some (AdjustSourceVolume_next_mul pow binding current_mul)
  | _ => none

/-- A binding that adjusts the volume of the source `"Mic"` by `amount`. -/
def volumeStep (amount : α) (allow_above_unity : Bool) : JoypadBinding α :=
  { (JoypadBinding.default : JoypadBinding α) with
    button := 1, action := .AdjustSourceVolume, source_name := "Mic",
    allow_above_unity := allow_above_unity, volume_value := amount }

/-- A binding that sets the volume of the source `"Mic"` to `db` decibels. -/
def volumeSet (db : α) (allow_above_unity : Bool) : JoypadBinding α :=
  { (JoypadBinding.default : JoypadBinding α) with
    button := 2, action := .SetSourceVolume, source_name := "Mic",
    allow_above_unity := allow_above_unity, volume_value := db }

end Actions

/-! ## Loading and editing the store (`joypad-config.cpp`) -/

section Store

variable {α : Type} [LinearOrderedField α]

/-- The conversion `(int)v` of a 64-bit integer `v` (the result type of `obs_data_get_int`
is `long long`): the integer of `[-2^31, 2^31)` that is congruent to `v` modulo `2^32`.
The same conversion is the first step of a cast to an enum class, whose underlying type is
`int`. -/
def to_int (v : Int) : Int :=
  (v + 2 ^ 31) % 2 ^ 32 - 2 ^ 31

/-- The cast `(int)input_type`. -/
def JoypadInputType.toInt : JoypadInputType → Int
  | .Button => 0
  | .Axis => 1

/-- The enumerators of `JoypadInputType`. -/
def JoypadInputType.all : List JoypadInputType :=
  [.Button, .Axis]

/-- The enumerator of `JoypadInputType` that an `int` names, if any. -/
def JoypadInputType.ofInt (code : Int) : Option JoypadInputType :=
  JoypadInputType.all.find? fun t => decide (t.toInt = code)

/-- The cast `(int)action`. -/
def JoypadActionType.toInt : JoypadActionType → Int
  | .SwitchScene => 0
  | .ToggleSourceVisibility => 1
  | .SetSourceVisibility => 2
  | .ToggleSourceMute => 3
  | .SetSourceMute => 4
  | .SetSourceVolume => 5
  | .MediaPlayPause => 6
  | .MediaRestart => 7
  | .MediaStop => 8
  | .ToggleFilterEnabled => 9
  | .SetFilterEnabled => 10
  | .AdjustSourceVolume => 11
  | .SetSourceVolumePercent => 12

/-- The enumerators of `JoypadActionType`. -/
def JoypadActionType.all : List JoypadActionType :=
  [.SwitchScene, .ToggleSourceVisibility, .SetSourceVisibility, .ToggleSourceMute,
    .SetSourceMute, .SetSourceVolume, .MediaPlayPause, .MediaRestart, .MediaStop,
    .ToggleFilterEnabled, .SetFilterEnabled, .AdjustSourceVolume, .SetSourceVolumePercent]

/-- The enumerator of `JoypadActionType` that an `int` names, if any. -/
def JoypadActionType.ofInt (code : Int) : Option JoypadActionType :=
  JoypadActionType.all.find? fun a => decide (a.toInt = code)

/-- The method `JoypadConfigStore::AddBinding`.  Returns `bindings_` and whether `Save()` is
called. -/
def AddBinding (bindings : List (JoypadBinding α)) (binding : JoypadBinding α) :
    List (JoypadBinding α) × Bool :=
  (bindings ++ [binding], true)

/-- The method `JoypadConfigStore::RemoveBinding`.  Returns `bindings_` and whether `Save()`
is called. -/
def RemoveBinding (bindings : List (JoypadBinding α)) (index : Nat) :
    List (JoypadBinding α) × Bool :=
  if index ≥ bindings.length then (bindings, false)
  else (bindings.eraseIdx index, true)

/-- The method `JoypadConfigStore::UpdateBinding`.  Returns `bindings_` and whether `Save()`
is called. -/
def UpdateBinding (bindings : List (JoypadBinding α)) (index : Nat)
    (binding : JoypadBinding α) : List (JoypadBinding α) × Bool :=
  if index ≥ bindings.length then (bindings, false)
  else (bindings.set index binding, true)

end Store

/-! ## Listener registration and dispatch (`joypad-input.cpp`) -/

namespace JoypadInputManager

/-- The struct `AxisHandlerEntry`.  A `std::function` is an `Option H`: `none` is the empty
function object, `some h` holds the callable `h`. -/
structure AxisHandlerEntry (H : Type) where
  id : Int
  handler : Option H
deriving DecidableEq, Repr

/-- The members of `JoypadInputManager` that are guarded by `handler_mutex_` and used by
registration and dispatch.  The counter `next_axis_handler_id_` is an unbounded integer: the
overflow of the C++ `int` after 2^31 - 1 registrations is undefined behaviour and stays
outside the model. -/
structure Handlers (H : Type) where
  on_button_pressed : Option H
  learn_handler : Option H
  next_axis_handler_id : Int
  axis_handlers : List (AxisHandlerEntry H)
deriving DecidableEq, Repr

/-- The member initialisers: no listener, and the counter at 1. -/
def Handlers.initial {H : Type} : Handlers H :=
  { on_button_pressed := none, learn_handler := none, next_axis_handler_id := 1,
    axis_handlers := [] }

/-- One invocation of a listener by a dispatch: which slot was called, the callable and the
event handed to it. -/
inductive Call (H E : Type) where
  | learn (h : H) (event : E)
  | axis (h : H) (event : E)
  | button (h : H) (event : E)
deriving DecidableEq, Repr

section Operations

variable {H : Type} {α : Type}

/-- The method `SetOnButtonPressed`. -/
def SetOnButtonPressed (s : Handlers H) (handler : Option H) : Handlers H :=
  { s with on_button_pressed := handler }

/-- The method `SetOnAxisChanged`: clears the list and, for a non-empty handler, registers it
under the id 0. -/
def SetOnAxisChanged (s : Handlers H) (handler : Option H) : Handlers H :=
  match handler with
  | some h => { s with axis_handlers := [{ id := 0, handler := some h }] }
  | none => { s with axis_handlers := [] }

/-- The method `AddOnAxisChanged`.  Returns the handle and the state afterwards. -/
def AddOnAxisChanged (s : Handlers H) (handler : Option H) : Int × Handlers H :=
  match handler with
  | none => (0, s)
  | some h =>
    let entry : AxisHandlerEntry H := { id := s.next_axis_handler_id, handler := some h }
    (entry.id,
      { s with
        next_axis_handler_id := s.next_axis_handler_id + 1
        axis_handlers := s.axis_handlers ++ [entry] })

/-- The method `RemoveOnAxisChanged`: `std::remove_if` on the id, then `erase`. -/
def RemoveOnAxisChanged (s : Handlers H) (handler_id : Int) : Handlers H :=
  if handler_id ≤ 0 then s
  else
    { s with
      axis_handlers := s.axis_handlers.filter fun entry => decide (entry.id ≠ handler_id) }

/-- The method `BeginLearn`.  Returns the result and the state afterwards. -/
def BeginLearn (s : Handlers H) (handler : Option H) : Bool × Handlers H :=
  if s.learn_handler.isSome then (false, s)
  else (true, { s with learn_handler := handler })

/-- The method `CancelLearn`. -/
def CancelLearn (s : Handlers H) : Handlers H :=
  { s with learn_handler := none }

/-- The method `DispatchEvent`: the listeners are copied and the learn callback is cleared
under the lock, then the copies are invoked.  Returns the invocations, in order, and the
state afterwards.  The listeners are opaque: what a callback does, a call back into the
manager included, is not part of the model. -/
def DispatchEvent (s : Handlers H) (event : JoypadEvent α) :
    List (Call H (JoypadEvent α)) × Handlers H :=
  let button_handler := s.on_button_pressed
  let learn_handler := s.learn_handler
  let axis_handlers := s.axis_handlers.map fun entry => entry.handler
  let s := if s.learn_handler.isSome then { s with learn_handler := none } else s
  let learn_calls :=
    match learn_handler with
    | some h => [Call.learn h event]
    | none => []
  let axis_calls :=
    if event.is_axis then
      axis_handlers.filterMap fun handler => handler.map fun h => Call.axis h event
    else []
  let button_calls :=
    if !event.is_axis then
      match button_handler with
      | some h => [Call.button h event]
      | none => []
    else []
  (learn_calls ++ axis_calls ++ button_calls, s)

/-- The method `DispatchAxisAbsolute`: as `DispatchEvent`, without the button listener and
without the test of `is_axis`. -/
def DispatchAxisAbsolute (s : Handlers H) (event : JoypadEvent α) :
    List (Call H (JoypadEvent α)) × Handlers H :=
  let learn_handler := s.learn_handler
  let axis_handlers := s.axis_handlers.map fun entry => entry.handler
  let s := if s.learn_handler.isSome then { s with learn_handler := none } else s
  let learn_calls :=
    match learn_handler with
    | some h => [Call.learn h event]
    | none => []
  let axis_calls :=
    axis_handlers.filterMap fun handler => handler.map fun h => Call.axis h event
  (learn_calls ++ axis_calls, s)

/-- One dispatch of the poll loop: through `DispatchEvent` or through
`DispatchAxisAbsolute`. -/
inductive Dispatch (α : Type) where
  | event (e : JoypadEvent α)
  | axisAbsolute (e : JoypadEvent α)

/-- The event that a dispatch carries. -/
def Dispatch.payload : Dispatch α → JoypadEvent α
  | .event e => e
  | .axisAbsolute e => e

/-- One dispatch on the state `s`. -/
def dispatchOne (s : Handlers H) : Dispatch α → List (Call H (JoypadEvent α)) × Handlers H
  | .event e => DispatchEvent s e
  | .axisAbsolute e => DispatchAxisAbsolute s e

/-- A sequence of dispatches, in order, with no other operation in between: all the
invocations and the state afterwards. -/
def dispatchAll : Handlers H → List (Dispatch α) → List (Call H (JoypadEvent α)) × Handlers H
  | s, [] => ([], s)
  | s, d :: ds =>
    let first := dispatchOne s d
    let later := dispatchAll first.2 ds
    (first.1 ++ later.1, later.2)

/-- Whether an invocation is one of the learn callback. -/
def Call.isLearn {E : Type} : Call H E → Bool
  | .learn _ _ => true
  | _ => false

/-- Whether an invocation is one of an axis listener. -/
def Call.isAxis {E : Type} : Call H E → Bool
  | .axis _ _ => true
  | _ => false

/-- Whether an invocation is one of the button listener. -/
def Call.isButton {E : Type} : Call H E → Bool
  | .button _ _ => true
  | _ => false

/-- A call of the registration interface. -/
inductive Op (H : Type) where
  | setOnButtonPressed (handler : Option H)
  | setOnAxisChanged (handler : Option H)
  | addOnAxisChanged (handler : Option H)
  | removeOnAxisChanged (handler_id : Int)
  | beginLearn (handler : Option H)
  | cancelLearn

/-- The state after one call of the registration interface. -/
def Op.apply (s : Handlers H) : Op H → Handlers H
  | .setOnButtonPressed handler => SetOnButtonPressed s handler
  | .setOnAxisChanged handler => SetOnAxisChanged s handler
  | .addOnAxisChanged handler => (AddOnAxisChanged s handler).2
  | .removeOnAxisChanged handler_id => RemoveOnAxisChanged s handler_id
  | .beginLearn handler => (BeginLearn s handler).2
  | .cancelLearn => CancelLearn s

/-- The handles that the calls of `AddOnAxisChanged` with a non-empty handler return, in
order, along a sequence of calls of the registration interface from the state `s`. -/
def handlesReturned : Handlers H → List (Op H) → List Int
  | _, [] => []
  | s, Op.addOnAxisChanged (some h) :: ops =>
    (AddOnAxisChanged s (some h)).1 ::
      handlesReturned (AddOnAxisChanged s (some h)).2 ops
  | s, op :: ops => handlesReturned (Op.apply s op) ops

/-- The state in which every registered id is below the counter, the counter is positive
and no id is registered twice. -/
def Handlers.WellFormed (s : Handlers H) : Prop :=
  0 < s.next_axis_handler_id ∧
    (∀ entry ∈ s.axis_handlers, entry.id < s.next_axis_handler_id) ∧
    (s.axis_handlers.map fun entry => entry.id).Nodup

end Operations

end JoypadInputManager

/-! ## The plugin entry points (`joypad-plugin.cpp`) -/

section Plugin

variable {α : Type} [LinearOrderedField α]

/-- The function `MapRawToPercentWithGamma` (lines 55-75); `pow` is `std::pow`. -/
def MapRawToPercentWithGamma (pow : α → α → α) (binding : JoypadBinding α) (raw : α) : α :=
  let minv0 := binding.axis_min_value
  let maxv0 := binding.axis_max_value
  let minv := if maxv0 ≤ minv0 then 0 else minv0
  let maxv := if maxv0 ≤ minv0 then 1024 else maxv0
  let percent := ((raw - minv) / (maxv - minv)) * 100
  let percent :=
    if binding.axis_direction = JoypadAxisDirection.Negative then 100 - percent else percent
  let percent := clamp percent 0 100
  let base := percent / 100
  let base := clamp base 0 1
  let gamma := if binding.slider_gamma > 0 then binding.slider_gamma else 0.6
  let gamma := clamp gamma 0.1 50
  let curved := pow base gamma
  clamp (curved * 100) 0 100

/-- The lower end of the range that the percent mapping works with: 0 when the binding has
`axis_max_value <= axis_min_value`. -/
def effectiveMin (b : JoypadBinding α) : α :=
  if b.axis_max_value ≤ b.axis_min_value then 0 else b.axis_min_value

/-- The upper end of the range that the percent mapping works with: 1024 when the binding
has `axis_max_value <= axis_min_value`. -/
def effectiveMax (b : JoypadBinding α) : α :=
  if b.axis_max_value ≤ b.axis_min_value then 1024 else b.axis_max_value

end Plugin

/-! ## Device state, polling and enumeration (`joypad-input.cpp`, `joypad-input.h`) -/

namespace JoypadInputManager

/-- The struct `JoypadDeviceInfo`. -/
structure JoypadDeviceInfo where
  id : String
  name : String
deriving DecidableEq, Repr

/-- The struct `DeviceState`, with the members of all platforms.  The arrays `last_axes` and
`axis_initialized` (capacity 8) and `axis_min`, `axis_max` (capacity 6) are lists; an access
outside a list is an access outside the array. -/
structure DeviceState (α : Type) where
  id : String
  name : String
  last_buttons : Nat
  last_axes : List α
  axis_initialized : List Bool
  connected : Bool
  winmm_id : Int
  is_xinput : Bool
  xinput_id : Nat
  axis_min : List Int
  axis_max : List Int
  fd : Int
deriving DecidableEq, Repr

/-- The member `axis_last_trigger_`, a map from keys to time points; a time point is an
integer number of milliseconds of the steady clock. -/
abbrev AxisLastTrigger := List (String × Int)

/-- The lookup `axis_last_trigger_.find(key)`: `none` is `end()`. -/
def AxisLastTrigger.find : AxisLastTrigger → String → Option Int
  | [], _ => none
  | (k, t) :: rest, key => if k = key then some t else AxisLastTrigger.find rest key

/-- The assignment `axis_last_trigger_[key] = now`. -/
def AxisLastTrigger.set : AxisLastTrigger → String → Int → AxisLastTrigger
  | [], key, now => [(key, now)]
  | (k, t) :: rest, key, now =>
    if k = key then (key, now) :: rest else (k, t) :: AxisLastTrigger.set rest key now

/-- The members of `JoypadInputManager` that `devices_mutex_` guards, and the flag
`running_`. -/
structure Devices (α : Type) where
  running : Bool
  devices : List JoypadDeviceInfo
  device_states : List (DeviceState α)
deriving DecidableEq, Repr

/-- The reading `XINPUT_STATE::Gamepad`: `wButtons` is a 16-bit word, the triggers are
bytes, the thumbsticks 16-bit signed. -/
structure XINPUT_GAMEPAD where
  wButtons : Nat
  bLeftTrigger : Nat
  bRightTrigger : Nat
  sThumbLX : Int
  sThumbLY : Int
  sThumbRX : Int
  sThumbRY : Int
deriving DecidableEq, Repr

/-- The reading `JOYINFOEX`: the button mask and the six positions, all 32-bit unsigned. -/
structure JOYINFOEX where
  dwButtons : Nat
  dwXpos : Nat
  dwYpos : Nat
  dwZpos : Nat
  dwRpos : Nat
  dwUpos : Nat
  dwVpos : Nat
deriving DecidableEq, Repr

/-- The record `js_event` that the device file hands out: `value` is 16-bit signed, `type`
and `number` are bytes. -/
structure js_event where
  value : Int
  type : Nat
  number : Nat
deriving DecidableEq, Repr

/-- The constant `JS_EVENT_BUTTON` of `linux/joystick.h`. -/
def JS_EVENT_BUTTON : Nat := 1

/-- The constant `JS_EVENT_AXIS` of `linux/joystick.h`. -/
def JS_EVENT_AXIS : Nat := 2

/-- The constant `JS_EVENT_INIT` of `linux/joystick.h`. -/
def JS_EVENT_INIT : Nat := 128

section Polling

variable {α : Type} [LinearOrderedField α]

/-- A default-constructed `DeviceState` (the member initialisers of the struct). -/
def DeviceState.default : DeviceState α where
  id := ""
  name := ""
  last_buttons := 0
  last_axes := List.replicate 8 0
  axis_initialized := List.replicate 8 false
  connected := false
  winmm_id := -1
  is_xinput := false
  xinput_id := 0
  axis_min := List.replicate 6 0
  axis_max := List.replicate 6 0
  fd := -1

/-- The method `GetDevices`. -/
def GetDevices (m : Devices α) : List JoypadDeviceInfo :=
  m.devices

/-- The button event that the poll loops build for the button number `button`. -/
def buttonEventOf (state : DeviceState α) (button : Int) : JoypadEvent α :=
  { (JoypadEvent.default : JoypadEvent α) with
    device_id := state.id, device_name := state.name, button := button }

/-- Lines 486-507 (XInput, `bits = 16`) and 669-682 (WinMM, `bits = 32`): the button block
of the poll loop for the new mask `buttons`.  `~state.last_buttons` on 32 bits is the
exclusive or with `2^32 - 1`.  Returns the events handed to `DispatchEvent`, in order, and
the state afterwards. -/
def pollButtons (bits : Nat) (state : DeviceState α) (buttons : Nat) :
    List (JoypadEvent α) × DeviceState α :=
  let changed := buttons &&& (state.last_buttons ^^^ (2 ^ 32 - 1))
  let events :=
    if changed ≠ 0 then
      (List.range bits).filterMap fun bit =>
        if changed &&& (1 <<< bit) ≠ 0 then some (buttonEventOf state ((bit : Int) + 1))
        else none
    else []
  (events, { state with last_buttons := buttons })

/-- The lambda `norm_thumb` (lines 559-568); `v` is a 16-bit signed value. -/
def norm_thumb (v : Int) : α :=
  let out : α := if v ≥ 0 then (v : α) / 32767 else (v : α) / 32768
  clamp out (-1) 1

/-- The lambda `norm_trigger` (lines 569-572); `v` is a byte. -/
def norm_trigger (v : Nat) : α :=
  clamp ((v : α) / 255) 0 1

/-- The lambda `norm_axis` (lines 684-696) of the state `state`; `val` is a 32-bit unsigned
value. -/
def norm_axis (state : DeviceState α) (idx : Nat) (val : Nat) : α :=
  let minv := state.axis_min.getD idx 0
  let maxv := state.axis_max.getD idx 0
  if maxv ≤ minv then 0
  else
    let out : α := ((val : α) - (minv : α)) / ((maxv - minv : Int) : α) * 2 - 1
    clamp out (-1) 1

/-- Lines 791-799: the normalized value of a device-file record; `value` is 16-bit
signed. -/
def linux_axis_value (value : Int) : α :=
  let v : α := (value : α) / 32767
  let v := if v < -1 then -1 else v
  let v := if v > 1 then 1 else v
  v

/-- Lines 1026-1035: the normalized value of the HID callback, from the calibrated value
and the logical minimum and maximum of the element. -/
def hid_norm (scaled : α) (min max : Int) : α :=
  let norm : α :=
    if max > min then (scaled - (min : α)) / ((max - min : Int) : α) * 2 - 1 else 0
  clamp norm (-1) 1

/-- The axis event that the poll loops build. -/
def axisEventOf (state : DeviceState α) (axis_index : Nat) (value raw : α) : JoypadEvent α :=
  { (JoypadEvent.default : JoypadEvent α) with
    device_id := state.id, device_name := state.name, is_axis := true,
    axis_index := (axis_index : Int), axis_value := value, axis_raw_value := raw }

/-- The handling of one axis sample, as written three times in the poll loop (lines 597-632
in `push_axis_raw`, 733-764 in the WinMM loop, 804-839 in the device-file loop): `key` is
the key of `axis_last_trigger_` built before it, `now` the reading of the clock.  Returns
the event handed to `DispatchAxisAbsolute` (if any), the state and the trigger times
afterwards; `none` when `axis_index` lies outside the arrays `axis_initialized` and
`last_axes`. -/
def axisSample (default_interval_ms : Int) (state : DeviceState α)
    (axis_last_trigger : AxisLastTrigger) (now : Int) (key : String) (axis_index : Nat)
    (value raw : α) : Option (Option (JoypadEvent α) × DeviceState α × AxisLastTrigger) :=
  let it := axis_last_trigger.find key
  match state.axis_initialized.get? axis_index, state.last_axes.get? axis_index with
  | some initialized, some prev_raw =>
    if !initialized then
      some (none,
        { state with
          last_axes := state.last_axes.set axis_index raw
          axis_initialized := state.axis_initialized.set axis_index true },
        axis_last_trigger)
    else if raw = prev_raw then some (none, state, axis_last_trigger)
    else if
        (match it with
          | some last => decide (now - last < default_interval_ms)
          | none => false) then
      some (none, { state with last_axes := state.last_axes.set axis_index raw },
        axis_last_trigger)
    else
      some (some (axisEventOf state axis_index value raw),
        { state with last_axes := state.last_axes.set axis_index raw },
        axis_last_trigger.set key now)
  | _, _ => none

/-- The lambda `push_axis_raw` (lines 586-633): the key carries the sign of `raw`. -/
def push_axis_raw (default_interval_ms : Int) (state : DeviceState α)
    (axis_last_trigger : AxisLastTrigger) (now : Int) (axis_index : Nat) (norm raw : α) :
    Option (Option (JoypadEvent α) × DeviceState α × AxisLastTrigger) :=
  let key := state.id ++ ":" ++ toString axis_index ++ (if raw ≥ 0 then "+" else "-")
  axisSample default_interval_ms state axis_last_trigger now key axis_index norm raw

/-- Lines 706-765: the body of the WinMM axis loop for the axis `i`, whose normalized value
is `norm_axis(i, raw)`. -/
def winmmAxis (default_interval_ms : Int) (state : DeviceState α)
    (axis_last_trigger : AxisLastTrigger) (now : Int) (i : Nat) (raw : Nat) :
    Option (Option (JoypadEvent α) × DeviceState α × AxisLastTrigger) :=
  let value : α := norm_axis state i raw
  let key := state.id ++ ":" ++ toString i ++ (if (raw : α) ≥ 0 then "+" else "-")
  axisSample default_interval_ms state axis_last_trigger now key i value (raw : α)

/-- Lines 776-841: the body of the device-file loop for one record read from the device.
Returns the dispatches, in order, the state and the trigger times afterwards; `none` when
the axis number lies outside the arrays of the state. -/
def linuxRecord (default_interval_ms : Int) (state : DeviceState α)
    (axis_last_trigger : AxisLastTrigger) (now : Int) (e : js_event) :
    Option (List (Dispatch α) × DeviceState α × AxisLastTrigger) :=
  if e.type &&& JS_EVENT_INIT ≠ 0 then some ([], state, axis_last_trigger)
  else
    let button_calls : List (Dispatch α) :=
      if e.type &&& JS_EVENT_BUTTON ≠ 0 ∧ e.value ≠ 0 then
        [Dispatch.event (buttonEventOf state ((e.number : Int) + 1))]
      else []
    if e.type &&& JS_EVENT_AXIS ≠ 0 then
      let value : α := linux_axis_value e.value
      let raw : α := (e.value : α)
      let key := state.id ++ ":" ++ toString e.number ++ (if value ≥ 0 then "+" else "-")
      match axisSample default_interval_ms state axis_last_trigger now key e.number value
          raw with
      | none => none
      | some (event, state, axis_last_trigger) =>
        some (button_calls ++ (event.toList.map Dispatch.axisAbsolute), state,
          axis_last_trigger)
    else some (button_calls, state, axis_last_trigger)

/-- Lines 772-842 for one device: the records that `read` hands out are handled in order,
unless the descriptor of the state is negative, in which case the device is skipped.  All
records of one pass are taken at the clock reading `now`. -/
def linuxPollDevice (default_interval_ms : Int) (state : DeviceState α)
    (axis_last_trigger : AxisLastTrigger) (now : Int) (records : List js_event) :
    Option (List (Dispatch α) × DeviceState α × AxisLastTrigger) :=
  if state.fd < 0 then some ([], state, axis_last_trigger)
  else
    records.foldl
      (fun acc e =>
        match acc with
        | none => none
        | some (calls, state, axis_last_trigger) =>
          match linuxRecord default_interval_ms state axis_last_trigger now e with
          | none => none
          | some (more, state, axis_last_trigger) =>
            some (calls ++ more, state, axis_last_trigger))
      (some ([], state, axis_last_trigger))

/-- A sequence of samples of one axis through `push_axis_raw`, each with its clock reading,
normalized and raw value: the event of each sample (if any), the state and the trigger
times afterwards. -/
def pushAxisSamples (default_interval_ms : Int) (axis_index : Nat) :
    DeviceState α → AxisLastTrigger → List (Int × α × α) →
      Option (List (Option (JoypadEvent α)) × DeviceState α × AxisLastTrigger)
  | state, axis_last_trigger, [] => some ([], state, axis_last_trigger)
  | state, axis_last_trigger, (now, norm, raw) :: samples =>
    match push_axis_raw default_interval_ms state axis_last_trigger now axis_index norm
        raw with
    | none => none
    | some (event, state, axis_last_trigger) =>
      match pushAxisSamples default_interval_ms axis_index state axis_last_trigger
          samples with
      | none => none
      | some (events, state, axis_last_trigger) =>
        some (event :: events, state, axis_last_trigger)

/-- The events that the specification expects from a sequence of raw samples of one axis:
none for a sample without predecessor (`prev = none`) or equal to its predecessor, one
carrying the normalized and the raw value otherwise. -/
def expectedAxisEvents (state : DeviceState α) (axis_index : Nat) :
    Option α → List (Int × α × α) → List (Option (JoypadEvent α))
  | _, [] => []
  | prev, (_, norm, raw) :: samples =>
    (match prev with
      | none => none
      | some p => if raw = p then none else some (axisEventOf state axis_index norm raw)) ::
      expectedAxisEvents state axis_index (some raw) samples

/-- The state that the specification expects after a sequence of samples of one axis whose
last raw value is `last` (`none` for the empty sequence): the slot of the axis holds that
value and is marked as seen, and nothing else has changed. -/
def expectedAxisState (state : DeviceState α) (axis_index : Nat) :
    Option α → DeviceState α
  | none => state
  | some raw =>
    { state with
      last_axes := state.last_axes.set axis_index raw
      axis_initialized := state.axis_initialized.set axis_index true }

/-- A sequence of positions of the axis `i` through the body of the WinMM axis loop (lines
706-765), each with its clock reading: the event of each position (if any), the state and
the trigger times afterwards. -/
def winmmAxisSamples (default_interval_ms : Int) (i : Nat) :
    DeviceState α → AxisLastTrigger → List (Int × Nat) →
      Option (List (Option (JoypadEvent α)) × DeviceState α × AxisLastTrigger)
  | state, axis_last_trigger, [] => some ([], state, axis_last_trigger)
  | state, axis_last_trigger, (now, raw) :: samples =>
    match winmmAxis default_interval_ms state axis_last_trigger now i raw with
    | none => none
    | some (event, state, axis_last_trigger) =>
      match winmmAxisSamples default_interval_ms i state axis_last_trigger samples with
      | none => none
      | some (events, state, axis_last_trigger) =>
        some (event :: events, state, axis_last_trigger)

/-- A sequence of axis records of the axis `number` through the body of the device-file
loop (lines 776-841), each with its clock reading and its 16-bit value: the dispatches of
each record, the state and the trigger times afterwards. -/
def linuxAxisSamples (default_interval_ms : Int) (number : Nat) :
    DeviceState α → AxisLastTrigger → List (Int × Int) →
      Option (List (List (Dispatch α)) × DeviceState α × AxisLastTrigger)
  | state, axis_last_trigger, [] => some ([], state, axis_last_trigger)
  | state, axis_last_trigger, (now, value) :: samples =>
    match linuxRecord default_interval_ms state axis_last_trigger now
        { value := value, type := JS_EVENT_AXIS, number := number } with
    | none => none
    | some (calls, state, axis_last_trigger) =>
      match linuxAxisSamples default_interval_ms number state axis_last_trigger samples with
      | none => none
      | some (more, state, axis_last_trigger) =>
        some (calls :: more, state, axis_last_trigger)

end Polling

end JoypadInputManager

/-! ## Auxiliary definitions for the poll loop -/

namespace JoypadInputManager

/-- Every stored trigger time is at or before the clock reading `now`: what a clock that
never runs backwards guarantees. -/
def AxisLastTrigger.AllLE (axis_last_trigger : AxisLastTrigger) (now : Int) : Prop :=
  ∀ key t, axis_last_trigger.find key = some t → t ≤ now

/-- The state of the first XInput controller as `RefreshDevices` creates it. -/
def padState : DeviceState ℚ :=
  { (DeviceState.default : DeviceState ℚ) with
    id := "xinput:0", name := "Xbox Controller 1", connected := true, is_xinput := true }

/-- The state of a device file as `RefreshDevices` creates it, with the descriptor `fd`. -/
def jsState (fd : Int) : DeviceState ℚ :=
  { (DeviceState.default : DeviceState ℚ) with
    id := "js:js0", name := "Gamepad", connected := true, fd := fd }

end JoypadInputManager

/-! ## One pass of the poll loop over a device -/

namespace JoypadInputManager

section DevicePass

variable {α : Type} [LinearOrderedField α]

/-- Consecutive calls of `push_axis_raw`, one per entry `(axis_index, norm, raw)`, all at
the clock reading `now`: the events handed to `DispatchAxisAbsolute`, in order, the state
and the trigger times afterwards. -/
def pushAxes (default_interval_ms : Int) (now : Int) :
    DeviceState α → AxisLastTrigger → List (Nat × α × α) →
      Option (List (JoypadEvent α) × DeviceState α × AxisLastTrigger)
  | state, axis_last_trigger, [] => some ([], state, axis_last_trigger)
  | state, axis_last_trigger, (axis_index, norm, raw) :: rest =>
    match push_axis_raw default_interval_ms state axis_last_trigger now axis_index norm
        raw with
    | none => none
    | some (event, state, axis_last_trigger) =>
      match pushAxes default_interval_ms now state axis_last_trigger rest with
      | none => none
      | some (events, state, axis_last_trigger) =>
        some (event.toList ++ events, state, axis_last_trigger)

/-- Lines 635-652: the six calls of `push_axis_raw` of a pass over an XInput controller. -/
def pollXInputAxes (default_interval_ms : Int) (state : DeviceState α)
    (axis_last_trigger : AxisLastTrigger) (now : Int) (pad : XINPUT_GAMEPAD) :
    Option (List (JoypadEvent α) × DeviceState α × AxisLastTrigger) :=
  pushAxes default_interval_ms now state axis_last_trigger
    [(0, norm_thumb pad.sThumbLX, (pad.sThumbLX : α)),
      (1, norm_thumb pad.sThumbLY, (pad.sThumbLY : α)),
      (2, norm_thumb pad.sThumbRX, (pad.sThumbRX : α)),
      (3, norm_thumb pad.sThumbRY, (pad.sThumbRY : α)),
      (4, norm_trigger pad.bLeftTrigger, (pad.bLeftTrigger : α)),
      (5, norm_trigger pad.bRightTrigger, (pad.bRightTrigger : α))]

/-- Lines 706-765: the WinMM axis loop over the positions `raws` of the axes `i`, `i + 1`,
and so on, all at the clock reading `now`. -/
def winmmAxes (default_interval_ms : Int) (now : Int) :
    DeviceState α → AxisLastTrigger → Nat → List Nat →
      Option (List (JoypadEvent α) × DeviceState α × AxisLastTrigger)
  | state, axis_last_trigger, _, [] => some ([], state, axis_last_trigger)
  | state, axis_last_trigger, i, raw :: rest =>
    match winmmAxis default_interval_ms state axis_last_trigger now i raw with
    | none => none
    | some (event, state, axis_last_trigger) =>
      match winmmAxes default_interval_ms now state axis_last_trigger (i + 1) rest with
      | none => none
      | some (events, state, axis_last_trigger) =>
        some (event.toList ++ events, state, axis_last_trigger)

/-- Lines 477-654: one pass of the poll loop over an XInput controller; `reading` is `none`
when `XInputGetState` fails.  Returns the dispatches, in order, the state and the trigger
times afterwards. -/
def pollXInput (default_interval_ms : Int) (state : DeviceState α)
    (axis_last_trigger : AxisLastTrigger) (now : Int) (reading : Option XINPUT_GAMEPAD) :
    Option (List (Dispatch α) × DeviceState α × AxisLastTrigger) :=
  match reading with
  | none => some ([], { state with connected := false }, axis_last_trigger)
  | some pad =>
    let pressed := pollButtons 16 { state with connected := true } pad.wButtons
    match pollXInputAxes default_interval_ms pressed.2 axis_last_trigger now pad with
    | none => none
    | some (events, state, axis_last_trigger) =>
      some (pressed.1.map Dispatch.event ++ events.map Dispatch.axisAbsolute, state,
        axis_last_trigger)

/-- Lines 655-766: one pass of the poll loop over a WinMM device; `reading` is `none` when
`joyGetPosEx` fails. -/
def pollWinMM (default_interval_ms : Int) (state : DeviceState α)
    (axis_last_trigger : AxisLastTrigger) (now : Int) (reading : Option JOYINFOEX) :
    Option (List (Dispatch α) × DeviceState α × AxisLastTrigger) :=
  match reading with
  | none => some ([], { state with connected := false }, axis_last_trigger)
  | some info =>
    let pressed := pollButtons 32 { state with connected := true } info.dwButtons
    match winmmAxes default_interval_ms now pressed.2 axis_last_trigger 0
        [info.dwXpos, info.dwYpos, info.dwZpos, info.dwRpos, info.dwUpos, info.dwVpos] with
    | none => none
    | some (events, state, axis_last_trigger) =>
      some (pressed.1.map Dispatch.event ++ events.map Dispatch.axisAbsolute, state,
        axis_last_trigger)

end DevicePass

end JoypadInputManager

/-! ## Enumeration of the devices: `RefreshDevices`, `Start`, `Stop` (`joypad-input.cpp`) -/

namespace JoypadInputManager

deriving instance DecidableEq for Dispatch

/-- One entry that `readdir` hands out for `/dev/input`, together with what the system
calls of the loop body return for it: `open_fd` is the result of `open` on its path
(negative on failure), `ioctl_name` the name that `ioctl(fd, JSIOCGNAME, ...)` writes
(`none` when the call fails). -/
structure DirEntry where
  d_name : String
  open_fd : Int
  ioctl_name : Option String
deriving DecidableEq, Repr

/-- The members of `JOYCAPS` that `RefreshDevices` reads: the product name and the ranges
of the six axes. -/
structure JOYCAPS where
  szPname : String
  wXmin : Nat
  wXmax : Nat
  wYmin : Nat
  wYmax : Nat
  wZmin : Nat
  wZmax : Nat
  wRmin : Nat
  wRmax : Nat
  wUmin : Nat
  wUmax : Nat
  wVmin : Nat
  wVmax : Nat
deriving DecidableEq, Repr

/-- What the system reports for one WinMM device id: the result of `joyGetDevCaps` and the
result of the registry lookups of `get_joy_friendly_name` (empty when none is found). -/
structure JoyDevice where
  caps : JOYCAPS
  friendly : String
deriving DecidableEq, Repr

section Enumeration

variable {α : Type} [LinearOrderedField α]

/-- The `JoypadDeviceInfo` that the loops of `RefreshDevices` build from a state. -/
def DeviceState.info (state : DeviceState α) : JoypadDeviceInfo :=
  { id := state.id, name := state.name }

/-- The lambda `find_existing` (lines 113-120): the first state of `device_states_` with
the id `id`; `none` is `nullptr`. -/
def find_existing (device_states : List (DeviceState α)) (id : String) :
    Option (DeviceState α) :=
  device_states.find? fun state => decide (state.id = id)

/-- The two `push_back` calls that end the loop bodies of `RefreshDevices`, on the pair of
`next_devices` and `next_states`. -/
def pushDevice (next : List JoypadDeviceInfo × List (DeviceState α))
    (state : DeviceState α) : List JoypadDeviceInfo × List (DeviceState α) :=
  (next.1 ++ [{ id := state.id, name := state.name }], next.2 ++ [state])

/-- A loop of `RefreshDevices` over the items `items`, whose body either ends in `continue`
(`body` gives `none`) or pushes a state. -/
def enumerateLoop {β : Type} (body : β → Option (DeviceState α)) (items : List β)
    (next : List JoypadDeviceInfo × List (DeviceState α)) :
    List JoypadDeviceInfo × List (DeviceState α) :=
  items.foldl
    (fun next item =>
      match body item with
      | none => next
      | some state => pushDevice next state)
    next

/-- The state `state'` carries what the state `state` knew of the device: its id, its
name, the last button mask, the last raw axis values and the flags of the axes seen. -/
def Preserved (state state' : DeviceState α) : Prop :=
  state'.id = state.id ∧ state'.name = state.name ∧
    state'.last_buttons = state.last_buttons ∧ state'.last_axes = state.last_axes ∧
    state'.axis_initialized = state.axis_initialized

end Enumeration

namespace Linux

section LinuxEnumeration

variable {α : Type} [LinearOrderedField α]

/-- Lines 321-357: the body of the `readdir` loop for one entry.  The test
`strncmp(ent->d_name, "js", 2) != 0` compares the first two characters.  The name is cut to
the 127 bytes of the buffer in the code; the model keeps it whole. -/
def enumerateEntry (device_states : List (DeviceState α)) (ent : DirEntry) :
    Option (DeviceState α) :=
  if ent.d_name.data.take 2 ≠ "js".data then none
  else
    let id := "js:" ++ ent.d_name
    match find_existing device_states id with
    | some existing => some existing
    | none =>
      let fd := ent.open_fd
      if fd < 0 then none
      else
        let name := ent.ioctl_name.getD ("Joystick " ++ ent.d_name)
        some { (DeviceState.default : DeviceState α) with
          fd := fd, id := id, name := name, connected := true,
          axis_initialized := List.replicate 8 false }

/-- The method `RefreshDevices` on the device-file backend (lines 107-120, 315-379); `dir`
is what `opendir` and `readdir` hand out, `none` when `opendir` fails.  The descriptors of
the states that are dropped are closed; the model does not record this. -/
def RefreshDevices (m : Devices α) (dir : Option (List DirEntry)) : Devices α :=
  match dir with
  | none => m
  | some entries =>
    let next := enumerateLoop (enumerateEntry m.device_states) entries ([], [])
    { m with devices := next.1, device_states := next.2 }

/-- The method `Stop` on the device-file backend (lines 64-99): the poll thread is joined,
every open descriptor closed and set to -1. -/
def Stop (m : Devices α) : Devices α :=
  if !m.running then m
  else
    { m with
      running := false
      device_states := m.device_states.map fun state =>
        if state.fd ≥ 0 then { state with fd := -1 } else state }

/-- The method `Start` (lines 49-62); `dir` is what the call of `RefreshDevices` finds. -/
def Start (m : Devices α) (dir : Option (List DirEntry)) : Devices α :=
  if m.running then m
  else RefreshDevices { m with running := true } dir

end LinuxEnumeration

end Linux

namespace Win32

/-- The constant `XUSER_MAX_COUNT` of `Xinput.h`. -/
def XUSER_MAX_COUNT : Nat := 4

/-- The lambda `xinput_name_for_index` (lines 211-224). -/
def xinput_name_for_index (index : Nat) : String :=
  match index with
  | 0 => "Xbox Controller 1"
  | 1 => "Xbox Controller 2"
  | 2 => "Xbox Controller 3"
  | 3 => "Xbox Controller 4"
  | _ => "Xbox Controller"

/-- The test `text.find(pattern) != std::string::npos`. -/
def found (pattern text : List Char) : Bool :=
  text.tails.any fun tail => pattern.isPrefixOf tail

/-- The lambda `is_xinput_like` (lines 256-264). -/
def is_xinput_like (name : String) : Bool :=
  let lower := name.data.map Char.toLower
  found "xinput".data lower || found "xbox".data lower

section Win32Enumeration

variable {α : Type} [LinearOrderedField α]

/-- Lines 227-254: the body of the XInput loop for the index `i`; `xinput_ok i` tells
whether `XInputGetState(i, ...)` succeeds. -/
def xinputEntry (device_states : List (DeviceState α)) (xinput_ok : Nat → Bool) (i : Nat) :
    Option (DeviceState α) :=
  if !xinput_ok i then none
  else
    let id := "xinput:" ++ toString i
    match find_existing device_states id with
    | some existing => some existing
    | none =>
      some { (DeviceState.default : DeviceState α) with
        is_xinput := true, xinput_id := i, id := id, name := xinput_name_for_index i,
        connected := true, axis_initialized := List.replicate 8 false }

/-- Lines 267-314: the body of the WinMM loop for the device id `id`; `joy id` is `none`
when `joyGetDevCaps` fails.  The ranges of `JOYCAPS` are stored as they are; the
conversion of a value above `2^31 - 1` to `int` stays outside the model. -/
def winmmEntry (device_states : List (DeviceState α)) (xinput_present : Bool)
    (joy : Nat → Option JoyDevice) (id : Nat) : Option (DeviceState α) :=
  match joy id with
  | none => none
  | some dev =>
    let caps := dev.caps
    let dev_id := "winmm:" ++ toString id
    let state : DeviceState α :=
      match find_existing device_states dev_id with
      | some existing => existing
      | none =>
        { (DeviceState.default : DeviceState α) with
          winmm_id := (id : Int), id := dev_id,
          name := if dev.friendly ≠ "" then dev.friendly else caps.szPname,
          connected := true, axis_initialized := List.replicate 8 false }
    let state : DeviceState α :=
      { state with
        axis_min := (((((state.axis_min.set 0 (caps.wXmin : Int)).set 1
          (caps.wYmin : Int)).set 2 (caps.wZmin : Int)).set 3 (caps.wRmin : Int)).set 4
          (caps.wUmin : Int)).set 5 (caps.wVmin : Int)
        axis_max := (((((state.axis_max.set 0 (caps.wXmax : Int)).set 1
          (caps.wYmax : Int)).set 2 (caps.wZmax : Int)).set 3 (caps.wRmax : Int)).set 4
          (caps.wUmax : Int)).set 5 (caps.wVmax : Int) }
    if xinput_present && is_xinput_like state.name then none else some state

/-- The method `RefreshDevices` on Windows (lines 107-314, 378-379): `xinput_ok` and `joy`
are what `XInputGetState` and `joyGetDevCaps` report, `count` is `joyGetNumDevs()`. -/
def RefreshDevices (m : Devices α) (xinput_ok : Nat → Bool) (count : Nat)
    (joy : Nat → Option JoyDevice) : Devices α :=
  let xinput_present := (List.range XUSER_MAX_COUNT).any xinput_ok
  let next := enumerateLoop (xinputEntry m.device_states xinput_ok)
    (List.range XUSER_MAX_COUNT) ([], [])
  let next := enumerateLoop (winmmEntry m.device_states xinput_present joy)
    (List.range count) next
  { m with devices := next.1, device_states := next.2 }

end Win32Enumeration

end Win32

namespace Apple

/-- The method `RefreshDevices` on macOS (lines 107-120, 372-379): the lists are assigned
to themselves. -/
def RefreshDevices {α : Type} (m : Devices α) : Devices α :=
  let next_devices := m.devices
  let next_states := m.device_states
  { m with devices := next_devices, device_states := next_states }

end Apple

/-- A table with the one device file `js0`, open on the descriptor 3, while the poll
thread runs. -/
def jsTable : Devices ℚ :=
  { running := true, devices := [{ id := "js:js0", name := "Gamepad" }],
    device_states := [jsState 3] }

/-- The directory `/dev/input` with the one device file `js0`, which `open` would open on
the descriptor 4. -/
def jsDir : List DirEntry :=
  [{ d_name := "js0", open_fd := 4, ioctl_name := some "Gamepad" }]

/-- The record of a press of the first button. -/
def pressRecord : js_event :=
  { value := 1, type := JS_EVENT_BUTTON, number := 0 }

end JoypadInputManager

/-! ## Basic facts about the loop body -/

section Lemmas

variable {α : Type} [LinearOrderedField α]

/-! ### The latch table -/

theorem AxisActive.get_set_self (m : AxisActive) (key : String) (v : Bool) :
    (m.set key v).get key = v := by
  induction m with
  | nil => simp [AxisActive.set, AxisActive.get]
  | cons p rest ih =>
    obtain ⟨k, w⟩ := p
    by_cases hk : k = key
    · simp [AxisActive.set, AxisActive.get, hk]
    · simp [AxisActive.set, AxisActive.get, hk, ih]

theorem AxisActive.get_set_of_ne (m : AxisActive) (key other : String) (v : Bool)
    (h : other ≠ key) : (m.set key v).get other = m.get other := by
  induction m with
  | nil => simp [AxisActive.set, AxisActive.get, Ne.symm h]
  | cons p rest ih =>
    obtain ⟨k, w⟩ := p
    by_cases hk : k = key
    · subst hk
      simp [AxisActive.set, AxisActive.get, Ne.symm h]
    · by_cases hk2 : k = other
      · subst hk2
        simp [AxisActive.set, AxisActive.get, hk]
      · simp [AxisActive.set, AxisActive.get, hk, hk2, ih]

theorem AxisActive.get_set_set (m : AxisActive) (key : String) (v w : Bool) (other : String) :
    ((m.set key v).set key w).get other = (m.set key w).get other := by
  by_cases h : other = key
  · subst h
    rw [AxisActive.get_set_self, AxisActive.get_set_self]
  · rw [AxisActive.get_set_of_ne _ _ _ _ h, AxisActive.get_set_of_ne _ _ _ _ h,
      AxisActive.get_set_of_ne _ _ _ _ h]

/-- The gate lets a binding through exactly when the specified latch is active after the
sample. -/
theorem hysteresisGate_fst (m : AxisActive) (key : String) (x t : α) :
    (hysteresisGate m key x t (t * 0.4)).1 =
      if m.get key then !decide (x < 0.4 * t) else decide (x ≥ t) := by
  unfold hysteresisGate AxisActive.index
  rw [mul_comm t 0.4]
  cases m.get key <;> by_cases h1 : x < t <;> by_cases h2 : x < 0.4 * t <;>
    simp [h1, h2, not_lt.1, le_of_lt]

/-- After the gate the table holds the state of the specified latch under the key. -/
theorem hysteresisGate_snd_get (m : AxisActive) (key : String) (x t : α) :
    (hysteresisGate m key x t (t * 0.4)).2.get key =
      if m.get key then !decide (x < 0.4 * t) else decide (x ≥ t) := by
  unfold hysteresisGate AxisActive.index
  rw [mul_comm t 0.4]
  cases hg : m.get key <;> by_cases h1 : x < t <;> by_cases h2 : x < 0.4 * t <;>
    simp [h1, h2, not_lt.1, le_of_lt, AxisActive.get_set_self]

/-- The gate leaves the other keys of the table as they were. -/
theorem hysteresisGate_snd_get_of_ne (m : AxisActive) (key other : String) (x t u : α)
    (h : other ≠ key) : (hysteresisGate m key x t u).2.get other = m.get other := by
  unfold hysteresisGate AxisActive.index
  cases hg : m.get key <;> by_cases h1 : x < t <;> by_cases h2 : x < u <;>
    simp [h1, h2, AxisActive.get_set_of_ne _ _ _ _ h]

/-! ### The loop body, case by case -/

theorem matchBinding_disabled (pow : α → α → α) (e : JoypadEvent α) (m : AxisActive)
    (b : JoypadBinding α) (h : b.enabled = false) : matchBinding pow e m b = (none, m) := by
  simp [matchBinding, h]

theorem matchBinding_button (pow : α → α → α) (e : JoypadEvent α) (m : AxisActive)
    (b : JoypadBinding α) (hen : b.enabled = true)
    (hty : b.input_type = JoypadInputType.Button) :
    matchBinding pow e m b =
      (if e.is_axis = false ∧ b.button = e.button ∧ deviceOk e b = true then some b else none,
        m) := by
  by_cases h1 : e.is_axis = true <;> by_cases h2 : b.button = e.button <;>
    by_cases h3 : b.device_id = "" <;> by_cases h4 : b.device_id = e.device_id <;>
    simp [matchBinding, hen, hty, deviceOk, h1, h2, h3, h4]

theorem matchBinding_axis_skip (pow : α → α → α) (e : JoypadEvent α) (m : AxisActive)
    (b : JoypadBinding α) (hty : b.input_type = JoypadInputType.Axis)
    (h : e.is_axis = false ∨ b.axis_index ≠ e.axis_index) :
    matchBinding pow e m b = (none, m) := by
  cases hen : b.enabled
  · exact matchBinding_disabled pow e m b hen
  · rcases h with h | h <;> simp [matchBinding, hen, hty, h]

theorem matchBinding_percent (pow : α → α → α) (e : JoypadEvent α) (m : AxisActive)
    (b : JoypadBinding α) (hen : b.enabled = true)
    (hty : b.input_type = JoypadInputType.Axis)
    (hact : b.action = JoypadActionType.SetSourceVolumePercent)
    (hax : e.is_axis = true) (hidx : b.axis_index = e.axis_index) :
    matchBinding pow e m b =
      (if deviceOk e b = true then
          some { b with volume_value := percentAxisVolume pow b e.axis_raw_value }
        else none, m) := by
  by_cases h3 : b.device_id = "" <;> by_cases h4 : b.device_id = e.device_id <;>
    simp [matchBinding, hen, hty, hact, hax, hidx, deviceOk, h3, h4]

theorem matchBinding_gated (pow : α → α → α) (e : JoypadEvent α) (m : AxisActive)
    (b : JoypadBinding α) (hen : b.enabled = true)
    (hty : b.input_type = JoypadInputType.Axis)
    (hact : b.action ≠ JoypadActionType.SetSourceVolumePercent)
    (hax : e.is_axis = true) (hidx : b.axis_index = e.axis_index) :
    matchBinding pow e m b =
      if b.axis_direction ≠ JoypadAxisDirection.Both ∧
          axisDir e.axis_value ≠ b.axis_direction.toInt then (none, m)
      else
        ((if (hysteresisGate m (axisKey e b) |e.axis_value| b.axis_threshold
                (b.axis_threshold * 0.4)).1 = true ∧ deviceOk e b = true then
            some (adjusted b e.axis_value)
          else none),
          (hysteresisGate m (axisKey e b) |e.axis_value| b.axis_threshold
            (b.axis_threshold * 0.4)).2) := by
  by_cases h3 : b.device_id = "" <;> by_cases h4 : b.device_id = e.device_id <;>
    by_cases h5 : b.axis_direction = JoypadAxisDirection.Both <;>
    by_cases h6 : axisDir e.axis_value = b.axis_direction.toInt <;>
    by_cases h7 : (hysteresisGate m (axisKey e b) |e.axis_value| b.axis_threshold
                (b.axis_threshold * 0.4)).1 = true <;>
    by_cases h8 : b.action = JoypadActionType.AdjustSourceVolume <;>
    simp [matchBinding, hen, hty, hact, hax, hidx, deviceOk, adjusted, axisDir,
      h3, h4, h5, h6, h7, h8]

omit [LinearOrderedField α] in
theorem deviceOk_iff (e : JoypadEvent α) (b : JoypadBinding α) :
    deviceOk e b = true ↔ b.device_id = "" ∨ b.device_id = e.device_id := by
  simp [deviceOk]

theorem sameButVolume_adjusted (b : JoypadBinding α) (value : α) :
    SameButVolume (adjusted b value) b := by
  unfold SameButVolume adjusted
  split_ifs <;> rfl

/-- What the loop body guarantees about a binding it pushes. -/
theorem matchBinding_some (pow : α → α → α) (e : JoypadEvent α) (m : AxisActive)
    (b r : JoypadBinding α) (h : (matchBinding pow e m b).1 = some r) :
    b.enabled = true ∧ (b.device_id = "" ∨ b.device_id = e.device_id) ∧
      (b.input_type = JoypadInputType.Button →
        e.is_axis = false ∧ b.button = e.button ∧ r = b) ∧
      (b.input_type = JoypadInputType.Axis →
        e.is_axis = true ∧ b.axis_index = e.axis_index) ∧
      SameButVolume r b := by
  cases hen : b.enabled
  · rw [matchBinding_disabled pow e m b hen] at h
    simp at h
  cases hty : b.input_type
  · rw [matchBinding_button pow e m b hen hty] at h
    simp only [] at h
    split_ifs at h with hc
    obtain ⟨h1, h2, h3⟩ := hc
    have hr : r = b := by simpa using h.symm
    refine ⟨rfl, (deviceOk_iff e b).1 h3, fun _ => ⟨h1, h2, hr⟩, fun hh => absurd hh (by decide), ?_⟩
    subst hr
    rfl
  · by_cases hskip : e.is_axis = false ∨ b.axis_index ≠ e.axis_index
    · rw [matchBinding_axis_skip pow e m b hty hskip] at h
      simp at h
    have hax : e.is_axis = true := by
      cases hh : e.is_axis
      · exact absurd (Or.inl hh) hskip
      · rfl
    have hidx : b.axis_index = e.axis_index := by
      by_contra hh
      exact hskip (Or.inr hh)
    by_cases hact : b.action = JoypadActionType.SetSourceVolumePercent
    · rw [matchBinding_percent pow e m b hen hty hact hax hidx] at h
      simp only [] at h
      split_ifs at h with hc
      have hr : r = { b with volume_value := percentAxisVolume pow b e.axis_raw_value } := by
        simpa using h.symm
      refine ⟨rfl, (deviceOk_iff e b).1 hc, fun hh => absurd hh (by decide), fun _ => ⟨hax, hidx⟩, ?_⟩
      subst hr
      rfl
    · rw [matchBinding_gated pow e m b hen hty hact hax hidx] at h
      split_ifs at h with hd hc
      have hr : r = adjusted b e.axis_value := by simpa using h.symm
      refine ⟨rfl, (deviceOk_iff e b).1 hc.2, fun hh => absurd hh (by decide),
        fun _ => ⟨hax, hidx⟩, ?_⟩
      subst hr
      exact sameButVolume_adjusted b e.axis_value

/-- A binding pushed by the loop body is the copy `pushed`. -/
theorem matchBinding_some_eq (pow : α → α → α) (e : JoypadEvent α) (m : AxisActive)
    (b r : JoypadBinding α) (h : (matchBinding pow e m b).1 = some r) :
    r = pushed pow e b := by
  obtain ⟨hen, -, hb, ha, -⟩ := matchBinding_some pow e m b r h
  cases hty : b.input_type
  · rw [(hb hty).2.2]
    simp [pushed, hty]
  · obtain ⟨hax, hidx⟩ := ha hty
    by_cases hact : b.action = JoypadActionType.SetSourceVolumePercent
    · rw [matchBinding_percent pow e m b hen hty hact hax hidx] at h
      simp only [] at h
      split_ifs at h with hc
      unfold pushed
      rw [if_pos hty, if_pos hact]
      simpa using h.symm
    · rw [matchBinding_gated pow e m b hen hty hact hax hidx] at h
      split_ifs at h with hd hc
      unfold pushed
      rw [if_pos hty, if_neg hact]
      simpa using h.symm

/-- A gated binding pushed by the loop body passed the direction filter of lines 360-367. -/
theorem matchBinding_some_dir (pow : α → α → α) (e : JoypadEvent α) (m : AxisActive)
    (b r : JoypadBinding α) (h : (matchBinding pow e m b).1 = some r)
    (hty : b.input_type = JoypadInputType.Axis)
    (hact : b.action ≠ JoypadActionType.SetSourceVolumePercent)
    (hdir : b.axis_direction ≠ JoypadAxisDirection.Both) :
    axisDir e.axis_value = b.axis_direction.toInt := by
  obtain ⟨hen, -, -, ha, -⟩ := matchBinding_some pow e m b r h
  obtain ⟨hax, hidx⟩ := ha hty
  rw [matchBinding_gated pow e m b hen hty hact hax hidx] at h
  by_contra hne
  rw [if_pos ⟨hdir, hne⟩] at h
  simp at h

/-- Every binding returned by `FindMatchingBindings` was pushed by the loop body for some
stored binding, at some state of the latch table. -/
theorem FindMatchingBindings_mem (pow : α → α → α) (e : JoypadEvent α)
    (bs : List (JoypadBinding α)) (m : AxisActive) (r : JoypadBinding α)
    (h : r ∈ (FindMatchingBindings pow bs m e).1) :
    ∃ b ∈ bs, ∃ m0, (matchBinding pow e m0 b).1 = some r := by
  induction bs generalizing m with
  | nil => simp [FindMatchingBindings] at h
  | cons b rest ih =>
    simp only [FindMatchingBindings, List.mem_append, Option.mem_toList,
      Option.mem_def] at h
    rcases h with h | h
    · exact ⟨b, List.mem_cons_self _ _, m, h⟩
    · obtain ⟨b', hb', m0, hm0⟩ := ih _ h
      exact ⟨b', List.mem_cons_of_mem _ hb', m0, hm0⟩

/-- The loop body on a button (non-axis) event. -/
theorem matchBinding_of_button_event (pow : α → α → α) (e : JoypadEvent α) (m : AxisActive)
    (b : JoypadBinding α) (he : e.is_axis = false) :
    matchBinding pow e m b = (if buttonMatch e b = true then some b else none, m) := by
  cases hen : b.enabled
  · rw [matchBinding_disabled pow e m b hen]
    simp [buttonMatch, hen]
  cases hty : b.input_type
  · rw [matchBinding_button pow e m b hen hty]
    simp [buttonMatch, hen, hty, he]
  · rw [matchBinding_axis_skip pow e m b hty (Or.inl he)]
    simp [buttonMatch, hty]

theorem FindMatchingBindings_of_button_event (pow : α → α → α) (e : JoypadEvent α)
    (bs : List (JoypadBinding α)) (m : AxisActive) (he : e.is_axis = false) :
    FindMatchingBindings pow bs m e = (bs.filter (buttonMatch e), m) := by
  induction bs with
  | nil => rfl
  | cons b rest ih =>
    simp only [FindMatchingBindings, matchBinding_of_button_event pow e m b he, ih,
      List.filter_cons]
    cases buttonMatch e b <;> simp

/-! ### A store with one gated binding -/

/-- One call on a store that holds a single gated binding open to every device and both
directions: the binding is returned exactly when the specified latch is active after the
sample, and the table then holds that state. -/
theorem FindMatchingBindings_single_gated (pow : α → α → α) (b : JoypadBinding α)
    (m : AxisActive) (e : JoypadEvent α) (hen : b.enabled = true)
    (hty : b.input_type = JoypadInputType.Axis)
    (hact : b.action ≠ JoypadActionType.SetSourceVolumePercent)
    (hdir : b.axis_direction = JoypadAxisDirection.Both) (hdev : b.device_id = "")
    (hax : e.is_axis = true) (hidx : e.axis_index = b.axis_index) :
    (FindMatchingBindings pow [b] m e).1 =
        (if latchNext b.axis_threshold (m.get (axisKey e b)) e.axis_value = true then
          [adjusted b e.axis_value] else []) ∧
      (FindMatchingBindings pow [b] m e).2.get (axisKey e b) =
        latchNext b.axis_threshold (m.get (axisKey e b)) e.axis_value := by
  have hgate := hysteresisGate_fst m (axisKey e b) |e.axis_value| b.axis_threshold
  have hget := hysteresisGate_snd_get m (axisKey e b) |e.axis_value| b.axis_threshold
  have hlatch : latchNext b.axis_threshold (m.get (axisKey e b)) e.axis_value =
      if m.get (axisKey e b) then !decide (|e.axis_value| < 0.4 * b.axis_threshold)
      else decide (|e.axis_value| ≥ b.axis_threshold) := rfl
  simp only [FindMatchingBindings, matchBinding_gated pow e m b hen hty hact hax hidx.symm]
  rw [if_neg (fun h => h.1 hdir)]
  simp only [hgate, hget, ← hlatch, List.append_nil]
  refine ⟨?_, trivial⟩
  cases latchNext b.axis_threshold (m.get (axisKey e b)) e.axis_value <;>
    simp [deviceOk, hdev]

/-- A run of events of one device on the axis of a single gated binding, from any state of
its latch. -/
theorem processEvents_single_gated (pow : α → α → α) (b : JoypadBinding α) (dev : String)
    (hen : b.enabled = true) (hty : b.input_type = JoypadInputType.Axis)
    (hact : b.action ≠ JoypadActionType.SetSourceVolumePercent)
    (hdir : b.axis_direction = JoypadAxisDirection.Both) (hdev : b.device_id = "")
    (events : List (JoypadEvent α)) (m : AxisActive)
    (hev : ∀ e ∈ events,
      e.is_axis = true ∧ e.axis_index = b.axis_index ∧ e.device_id = dev) :
    (processEvents pow [b] m events).1 =
      List.zipWith (fun e latch => if latch = true then [adjusted b e.axis_value] else [])
        events
        (latchTrace b.axis_threshold
          (m.get (dev ++ ":" ++ toString b.axis_index ++ ":" ++
            toString b.axis_direction.toInt))
          (events.map fun e => e.axis_value)) := by
  induction events generalizing m with
  | nil => rfl
  | cons e rest ih =>
    obtain ⟨hax, hidx, hd⟩ := hev e (List.mem_cons_self _ _)
    have hkey : axisKey e b =
        dev ++ ":" ++ toString b.axis_index ++ ":" ++ toString b.axis_direction.toInt := by
      simp [axisKey, hd]
    obtain ⟨h1, h2⟩ :=
      FindMatchingBindings_single_gated pow b m e hen hty hact hdir hdev hax hidx
    rw [hkey] at h1 h2
    simp only [processEvents, List.map_cons, latchTrace, List.zipWith_cons_cons]
    rw [ih _ (fun e' he' => hev e' (List.mem_cons_of_mem _ he')), h1, h2]

/-- A stored binding that the loop body pushes at every state of the latch table is among
the bindings returned. -/
theorem FindMatchingBindings_mem_of_forall (pow : α → α → α) (e : JoypadEvent α)
    (bs : List (JoypadBinding α)) (m : AxisActive) (b r : JoypadBinding α) (hb : b ∈ bs)
    (h : ∀ m0, (matchBinding pow e m0 b).1 = some r) :
    r ∈ (FindMatchingBindings pow bs m e).1 := by
  induction bs generalizing m with
  | nil => simp at hb
  | cons b' rest ih =>
    simp only [FindMatchingBindings, List.mem_append, Option.mem_toList, Option.mem_def]
    rcases List.mem_cons.1 hb with hb | hb
    · subst hb
      exact Or.inl (h m)
    · exact Or.inr (ih _ hb)

/-- A store whose bindings all leave the latch table alone leaves it alone. -/
theorem FindMatchingBindings_snd_of_forall (pow : α → α → α) (e : JoypadEvent α)
    (bs : List (JoypadBinding α)) (m : AxisActive)
    (h : ∀ b ∈ bs, ∀ m0, (matchBinding pow e m0 b).2 = m0) :
    (FindMatchingBindings pow bs m e).2 = m := by
  induction bs generalizing m with
  | nil => rfl
  | cons b rest ih =>
    simp only [FindMatchingBindings]
    rw [h b (List.mem_cons_self _ _) m]
    exact ih m (fun b' hb' => h b' (List.mem_cons_of_mem _ hb'))

/-- The loop body never touches the latch table for a `SetSourceVolumePercent` binding. -/
theorem matchBinding_snd_of_percent (pow : α → α → α) (e : JoypadEvent α) (m : AxisActive)
    (b : JoypadBinding α) (hact : b.action = JoypadActionType.SetSourceVolumePercent) :
    (matchBinding pow e m b).2 = m := by
  cases hen : b.enabled
  · rw [matchBinding_disabled pow e m b hen]
  cases hty : b.input_type
  · rw [matchBinding_button pow e m b hen hty]
  · by_cases hskip : e.is_axis = false ∨ b.axis_index ≠ e.axis_index
    · rw [matchBinding_axis_skip pow e m b hty hskip]
    · have hax : e.is_axis = true := by
        cases hh : e.is_axis
        · exact absurd (Or.inl hh) hskip
        · rfl
      have hidx : b.axis_index = e.axis_index := by
        by_contra hh
        exact hskip (Or.inr hh)
      rw [matchBinding_percent pow e m b hen hty hact hax hidx]

/-- The loop body treats a sample and its negation alike for a binding with direction
`Both`: the same decision to push, the same latch table. -/
theorem matchBinding_neg_of_both (pow : α → α → α) (e : JoypadEvent α) (m : AxisActive)
    (b : JoypadBinding α) (hdir : b.axis_direction = JoypadAxisDirection.Both) :
    (matchBinding pow { e with axis_value := -e.axis_value } m b).1.isSome =
        (matchBinding pow e m b).1.isSome ∧
      (matchBinding pow { e with axis_value := -e.axis_value } m b).2 =
        (matchBinding pow e m b).2 := by
  obtain ⟨e', he'⟩ : ∃ e' : JoypadEvent α, e' = { e with axis_value := -e.axis_value } :=
    ⟨_, rfl⟩
  rw [← he']
  have h1 : e'.is_axis = e.is_axis := by rw [he']
  have h2 : e'.axis_index = e.axis_index := by rw [he']
  have h3 : e'.device_id = e.device_id := by rw [he']
  have h4 : e'.button = e.button := by rw [he']
  have h5 : e'.axis_value = -e.axis_value := by rw [he']
  have hdev : deviceOk e' b = deviceOk e b := by simp [deviceOk, h3]
  cases hen : b.enabled
  · rw [matchBinding_disabled pow e m b hen, matchBinding_disabled pow e' m b hen]
    exact ⟨rfl, rfl⟩
  cases hty : b.input_type
  · rw [matchBinding_button pow e m b hen hty, matchBinding_button pow e' m b hen hty,
      h1, h4, hdev]
    exact ⟨rfl, rfl⟩
  · by_cases hskip : e.is_axis = false ∨ b.axis_index ≠ e.axis_index
    · rw [matchBinding_axis_skip pow e m b hty hskip,
        matchBinding_axis_skip pow e' m b hty (by rw [h1, h2]; exact hskip)]
      exact ⟨rfl, rfl⟩
    have hax : e.is_axis = true := by
      cases hh : e.is_axis
      · exact absurd (Or.inl hh) hskip
      · rfl
    have hidx : b.axis_index = e.axis_index := by
      by_contra hh
      exact hskip (Or.inr hh)
    by_cases hact : b.action = JoypadActionType.SetSourceVolumePercent
    · rw [matchBinding_percent pow e m b hen hty hact hax hidx,
        matchBinding_percent pow e' m b hen hty hact (h1.trans hax) (hidx.trans h2.symm),
        hdev]
      refine ⟨?_, rfl⟩
      simp only []
      split_ifs <;> rfl
    · rw [matchBinding_gated pow e m b hen hty hact hax hidx,
        matchBinding_gated pow e' m b hen hty hact (h1.trans hax) (hidx.trans h2.symm)]
      have hk : axisKey e' b = axisKey e b := by simp [axisKey, h3]
      have hno : ∀ v : α, ¬ (b.axis_direction ≠ JoypadAxisDirection.Both ∧
          axisDir v ≠ b.axis_direction.toInt) := fun _ h => h.1 hdir
      rw [if_neg (hno _), if_neg (hno _), hdev, h5, abs_neg, hk]
      refine ⟨?_, rfl⟩
      simp only []
      split_ifs <;> rfl

/-- The loop body pushes an enabled `SetSourceVolumePercent` axis binding for every axis
event on its axis that passes its device filter, at every state of the latch table. -/
theorem matchBinding_percent_some (pow : α → α → α) (e : JoypadEvent α) (m : AxisActive)
    (b : JoypadBinding α) (hen : b.enabled = true)
    (hty : b.input_type = JoypadInputType.Axis)
    (hact : b.action = JoypadActionType.SetSourceVolumePercent)
    (hax : e.is_axis = true) (hidx : b.axis_index = e.axis_index)
    (hdev : b.device_id = "" ∨ b.device_id = e.device_id) :
    (matchBinding pow e m b).1 =
      some { b with volume_value := percentAxisVolume pow b e.axis_raw_value } := by
  rw [matchBinding_percent pow e m b hen hty hact hax hidx,
    if_pos ((deviceOk_iff e b).2 hdev)]

/-! ### The percent value -/

theorem clamp_of_mem (v lo hi : α) (h1 : lo ≤ v) (h2 : v ≤ hi) : clamp v lo hi = v := by
  unfold clamp
  rw [if_neg (not_lt.2 h1), if_neg (not_lt.2 h2)]

theorem clamp_mem (v lo hi : α) (h : lo ≤ hi) : lo ≤ clamp v lo hi ∧ clamp v lo hi ≤ hi := by
  unfold clamp
  split_ifs with h1 h2
  · exact ⟨le_refl _, h⟩
  · exact ⟨h, le_refl _⟩
  · exact ⟨not_lt.1 h1, not_lt.1 h2⟩

theorem linearPercent_mem (b : JoypadBinding α) (raw : α) :
    0 ≤ linearPercent b raw ∧ linearPercent b raw ≤ 100 :=
  clamp_mem _ 0 100 (by norm_num)

theorem effectiveGamma_eq (b : JoypadBinding α) :
    clamp (if b.slider_gamma > 0 then b.slider_gamma else 0.6) 0.1 50 = effectiveGamma b := by
  unfold effectiveGamma
  split_ifs with h
  · rfl
  · exact clamp_of_mem _ _ _ (by norm_num) (by norm_num)

theorem effectiveGamma_pos (b : JoypadBinding α) : 0 < effectiveGamma b := by
  unfold effectiveGamma
  split_ifs with h
  · exact lt_of_lt_of_le (by norm_num) (clamp_mem b.slider_gamma 0.1 50 (by norm_num)).1
  · norm_num

/-- Lines 342-347: the two tests on `percent` are a clamp to `[0, 100]`. -/
theorem percent_tests_eq_clamp (q : α) :
    (if (if q < 0 then 0 else q) > 100 then 100 else (if q < 0 then 0 else q)) =
      clamp q 0 100 := by
  unfold clamp
  split_ifs <;> first | rfl | (exfalso; linarith)

/-- Lines 330-356 with a proper range: the curve applied to the linear percent. -/
theorem percentAxisVolume_eq (pow : α → α → α) (b : JoypadBinding α) (raw : α)
    (h : b.axis_min_value < b.axis_max_value) :
    percentAxisVolume pow b raw =
      clamp (pow (linearPercent b raw / 100) (effectiveGamma b) * 100) 0 100 := by
  have hp := linearPercent_mem b raw
  have hbase : clamp (linearPercent b raw / 100) 0 1 = linearPercent b raw / 100 :=
    clamp_of_mem _ _ _ (div_nonneg hp.1 (by norm_num))
      ((div_le_one (by norm_num)).2 hp.2)
  unfold percentAxisVolume
  simp only [if_neg (not_le.2 h), percent_tests_eq_clamp, effectiveGamma_eq]
  rw [← hbase]
  rfl

/-! ### The percent value over the reals, with the real power for `std::pow` -/

/-- Over the reals the last clamp of line 356 is the identity: the percent value is the
curve applied to the linear percent, and it lies in `[0, 100]`. -/
theorem percentAxisVolume_real (b : JoypadBinding ℝ) (raw : ℝ)
    (h : b.axis_min_value < b.axis_max_value) :
    percentAxisVolume (fun x y : ℝ => x ^ y) b raw =
        100 * (linearPercent b raw / 100) ^ effectiveGamma b ∧
      0 ≤ 100 * (linearPercent b raw / 100) ^ effectiveGamma b ∧
      100 * (linearPercent b raw / 100) ^ effectiveGamma b ≤ 100 := by
  have hp := linearPercent_mem b raw
  have h0 : 0 ≤ linearPercent b raw / 100 := div_nonneg hp.1 (by norm_num)
  have h1 : linearPercent b raw / 100 ≤ 1 := (div_le_one (by norm_num)).2 hp.2
  have hc0 : 0 ≤ (linearPercent b raw / 100) ^ effectiveGamma b := Real.rpow_nonneg h0 _
  have hc1 : (linearPercent b raw / 100) ^ effectiveGamma b ≤ 1 :=
    Real.rpow_le_one h0 h1 (le_of_lt (effectiveGamma_pos b))
  refine ⟨?_, by linarith, by linarith⟩
  rw [percentAxisVolume_eq _ b raw h]
  rw [clamp_of_mem _ _ _ (by linarith) (by linarith)]
  ring

/-- The linear percent of the slider binding at the raw value 512 is 50. -/
theorem linearPercent_fader_half (gamma : ℝ) :
    linearPercent (faderBinding gamma) 512 = 50 := by
  norm_num [linearPercent, faderBinding, clamp]

/-- The value of `0.5 ^ 0.6` to two decimals of a percent. -/
theorem half_rpow_bounds :
    (0.6597 : ℝ) < (1 / 2 : ℝ) ^ (0.6 : ℝ) ∧ (1 / 2 : ℝ) ^ (0.6 : ℝ) < 0.6599 := by
  have hx0 : (0 : ℝ) ≤ (1 / 2 : ℝ) ^ (0.6 : ℝ) := Real.rpow_nonneg (by norm_num) _
  have h5 : ((1 / 2 : ℝ) ^ (0.6 : ℝ)) ^ 5 = 1 / 8 := by
    rw [← Real.rpow_natCast, ← Real.rpow_mul (by norm_num)]
    have : (0.6 : ℝ) * ((5 : ℕ) : ℝ) = ((3 : ℕ) : ℝ) := by norm_num
    rw [this, Real.rpow_natCast]
    norm_num
  constructor
  · by_contra hle
    have := pow_le_pow_left₀ hx0 (not_lt.1 hle) 5
    rw [h5] at this
    norm_num at this
  · by_contra hle
    have := pow_le_pow_left₀ (by norm_num : (0 : ℝ) ≤ 0.6599) (not_lt.1 hle) 5
    rw [h5] at this
    norm_num at this

/-- A store that holds one slider binding, on an event of its axis: the binding is returned
with the curve applied to the linear percent. -/
theorem FindMatchingBindings_single_percent_real (b : JoypadBinding ℝ) (m : AxisActive)
    (e : JoypadEvent ℝ) (hen : b.enabled = true) (hty : b.input_type = JoypadInputType.Axis)
    (hact : b.action = JoypadActionType.SetSourceVolumePercent)
    (hax : e.is_axis = true) (hidx : b.axis_index = e.axis_index)
    (hdev : b.device_id = "" ∨ b.device_id = e.device_id)
    (h : b.axis_min_value < b.axis_max_value) :
    (FindMatchingBindings (fun x y : ℝ => x ^ y) [b] m e).1 =
      [{ b with volume_value :=
          100 * (linearPercent b e.axis_raw_value / 100) ^ effectiveGamma b }] := by
  simp only [FindMatchingBindings, matchBinding_percent_some _ e m b hen hty hact hax hidx hdev,
    (percentAxisVolume_real b e.axis_raw_value h).1, Option.toList_some, List.append_nil]

omit [LinearOrderedField α] in
/-- Copies of one binding with different volumes are different. -/
theorem volume_ne_of_ne (b : JoypadBinding α) (v w : α) (h : v ≠ w) :
    [{ b with volume_value := v }] ≠ [{ b with volume_value := w }] := by
  intro heq
  exact h (congrArg JoypadBinding.volume_value (List.head_eq_of_cons_eq heq))

/-- At or below the lower end of the range the linear percent is 0, unless the direction is
`Negative`. -/
theorem linearPercent_of_le_min (b : JoypadBinding α) (raw : α)
    (h : b.axis_min_value < b.axis_max_value)
    (hdir : b.axis_direction ≠ JoypadAxisDirection.Negative) (hraw : raw ≤ b.axis_min_value) :
    linearPercent b raw = 0 := by
  have hq : (raw - b.axis_min_value) / (b.axis_max_value - b.axis_min_value) * 100 ≤ 0 :=
    mul_nonpos_of_nonpos_of_nonneg
      (div_nonpos_of_nonpos_of_nonneg (by linarith) (by linarith)) (by norm_num)
  unfold linearPercent clamp
  simp only [if_neg hdir]
  split_ifs with h1 h2
  · rfl
  · exfalso; linarith
  · exact le_antisymm hq (not_lt.1 h1)

/-- At or above the upper end of the range the linear percent is 100, unless the direction
is `Negative`. -/
theorem linearPercent_of_ge_max (b : JoypadBinding α) (raw : α)
    (h : b.axis_min_value < b.axis_max_value)
    (hdir : b.axis_direction ≠ JoypadAxisDirection.Negative) (hraw : b.axis_max_value ≤ raw) :
    linearPercent b raw = 100 := by
  have hq : 100 ≤ (raw - b.axis_min_value) / (b.axis_max_value - b.axis_min_value) * 100 := by
    have h1 : 1 ≤ (raw - b.axis_min_value) / (b.axis_max_value - b.axis_min_value) :=
      (one_le_div (by linarith)).2 (by linarith)
    linarith
  unfold linearPercent clamp
  simp only [if_neg hdir]
  split_ifs with h1 h2
  · exfalso; linarith
  · rfl
  · exact le_antisymm (not_lt.1 h2) hq

/-! ### The relative adjustment -/

/-- Lines 392-396 in terms of the sign function: at the value 0, where the code takes the
sign to be 1, the intensity is 0. -/
theorem adjustVolume_eq_sign (b : JoypadBinding α) (value : α) :
    adjustVolume b value =
      |b.volume_value| * clamp |value| 0 1 * ((SignType.sign value : SignType) : α) := by
  unfold adjustVolume
  rcases lt_trichotomy value 0 with h | h | h
  · simp [sign_neg h, not_le.2 h]
  · subst h
    simp [clamp]
  · simp [sign_pos h, le_of_lt h]

/-! ### The order of the result -/

theorem matchedBindings_sublist (pow : α → α → α) (e : JoypadEvent α)
    (bs : List (JoypadBinding α)) (m : AxisActive) :
    (matchedBindings pow bs m e).Sublist bs := by
  induction bs generalizing m with
  | nil => exact List.Sublist.refl _
  | cons b rest ih =>
    simp only [matchedBindings]
    split_ifs
    · exact (ih _).cons₂ b
    · exact (ih _).cons b

theorem FindMatchingBindings_eq_map (pow : α → α → α) (e : JoypadEvent α)
    (bs : List (JoypadBinding α)) (m : AxisActive) :
    (FindMatchingBindings pow bs m e).1 = (matchedBindings pow bs m e).map (pushed pow e) := by
  induction bs generalizing m with
  | nil => rfl
  | cons b rest ih =>
    simp only [FindMatchingBindings, matchedBindings, List.map_append, ih]
    cases h : (matchBinding pow e m b).1 with
    | none => simp
    | some r => simp [matchBinding_some_eq pow e m b r h]

theorem matchedBindings_count (pow : α → α → α) (e : JoypadEvent α)
    (bs : List (JoypadBinding α)) (m : AxisActive) (b : JoypadBinding α)
    (h : ∀ m0, (matchBinding pow e m0 b).1.isSome = true) :
    (matchedBindings pow bs m e).count b = bs.count b := by
  induction bs generalizing m with
  | nil => rfl
  | cons b' rest ih =>
    rw [matchedBindings, List.count_append, ih, List.count_cons]
    by_cases hb : b' = b
    · subst hb
      rw [if_pos (h m)]
      simp [Nat.add_comm]
    · have h0 : List.count b
          (if (matchBinding pow e m b').1.isSome = true then [b'] else []) = 0 := by
        split_ifs <;> simp [List.count_cons, hb]
      rw [h0]
      simp [hb]

/-- The scene button is matched by a press of button 3 whatever the latch table. -/
theorem sceneButton_always_matched (m0 : AxisActive) :
    (matchBinding (fun x _ => x) (buttonEvent 3) m0 sceneButton).1.isSome = true := by
  have hm : buttonMatch (buttonEvent 3) sceneButton = true := by decide!
  rw [matchBinding_of_button_event _ _ _ _ rfl, if_pos hm]
  rfl

/-! ### The Action Executor over the reals -/

/-- The multiplier of -60 dB is 0.001. -/
theorem db_to_mul_kMinDb :
    db_to_mul (fun x y : ℝ => x ^ y) (kMinDb : ℝ) = 0.001 := by
  have h : (kMinDb : ℝ) / 20 = -((3 : ℕ) : ℝ) := by norm_num [kMinDb]
  unfold db_to_mul
  simp only [h]
  rw [Real.rpow_neg (by norm_num), Real.rpow_natCast]
  norm_num

/-- The multiplier of +50 dB is above 1. -/
theorem one_lt_db_to_mul_kMaxDb :
    1 < db_to_mul (fun x y : ℝ => x ^ y) (kMaxDb : ℝ) := by
  unfold db_to_mul
  exact Real.one_lt_rpow (by norm_num) (by norm_num [kMaxDb])

/-- Lines 214-228 over the reals: a clamp between the multipliers of -60 dB and of the
ceiling. -/
theorem AdjustSourceVolume_next_mul_real (b : JoypadBinding ℝ) (c : ℝ) :
    AdjustSourceVolume_next_mul (fun x y : ℝ => x ^ y) b c =
      clamp (c + b.volume_value) ((10 : ℝ) ^ ((-60 : ℝ) / 20))
        (if b.allow_above_unity = true then (10 : ℝ) ^ ((50 : ℝ) / 20) else 1) := by
  have hmin := db_to_mul_kMinDb
  have hmax := one_lt_db_to_mul_kMaxDb
  have hmin' : (10 : ℝ) ^ ((-60 : ℝ) / 20) = 0.001 := hmin
  have hmax' : 1 < (10 : ℝ) ^ ((50 : ℝ) / 20) := hmax
  have hM : db_to_mul (fun x y : ℝ => x ^ y) (kMaxDb : ℝ) = (10 : ℝ) ^ ((50 : ℝ) / 20) := rfl
  unfold AdjustSourceVolume_next_mul clamp
  simp only [hmin, hmin', hM]
  generalize (10 : ℝ) ^ ((50 : ℝ) / 20) = M at hmax'
  generalize c + b.volume_value = x
  cases b.allow_above_unity <;>
    simp only [Bool.not_false, Bool.not_true, Bool.true_and, Bool.false_and, decide_eq_true_eq,
      if_true, if_false, Bool.false_eq_true] <;>
    split_ifs <;> first | rfl | linarith

/-- Lines 163-172: the two tests against `kMinDb` and `kMaxDb` are a clamp. -/
theorem SetSourceVolume_target_db_eq (b : JoypadBinding α) :
    SetSourceVolume_target_db b =
      clamp (if b.allow_above_unity = false ∧ b.volume_value > 0 then 0 else b.volume_value)
        (-60) 50 := by
  unfold SetSourceVolume_target_db clamp kMinDb kMaxDb
  cases hf : b.allow_above_unity <;> by_cases hv : b.volume_value > 0 <;>
    simp [hv] <;> split_ifs <;> first | rfl | linarith

/-- A clamp stays below a bound that is above the clamped value and the lower end. -/
theorem clamp_le_of_le (v lo hi u : α) (h1 : v ≤ u) (h2 : lo ≤ u) : clamp v lo hi ≤ u := by
  unfold clamp
  split_ifs with h3 h4
  · exact h2
  · exact le_trans (le_of_lt h4) h1
  · exact h1

/-- The value 0.000001 of `mul_to_db` is `10 ^ (-6)`. -/
theorem ten_rpow_neg_six : (10 : ℝ) ^ (-((6 : ℕ) : ℝ)) = 0.000001 := by
  rw [Real.rpow_neg (by norm_num), Real.rpow_natCast]
  norm_num

/-! ### Loading and editing the store -/

section Loader

variable {α : Type} [LinearOrderedField α]

/-- The conversion to `int` gives a value of the range of `int`. -/
theorem to_int_mem (v : Int) : -2 ^ 31 ≤ to_int v ∧ to_int v < 2 ^ 31 := by
  unfold to_int
  omega

theorem JoypadInputType.input_code_toInt (t : JoypadInputType) :
    JoypadInputType.ofInt t.toInt = some t := by
  cases t <;> rfl

theorem JoypadActionType.action_code_toInt (a : JoypadActionType) :
    JoypadActionType.ofInt a.toInt = some a := by
  cases a <;> rfl

end Loader

omit [LinearOrderedField α] in
/-- Erasing position `i` keeps what is before and what is after it. -/
theorem eraseIdx_eq_take_append_drop (l : List (JoypadBinding α)) (i : Nat) :
    l.eraseIdx i = l.take i ++ l.drop (i + 1) := by
  induction l generalizing i with
  | nil => simp
  | cons a rest ih =>
    cases i with
    | zero => simp
    | succ n => simp [ih]

omit [LinearOrderedField α] in
/-- Assigning position `i` keeps what is before and what is after it. -/
theorem set_eq_take_append_cons_drop (l : List (JoypadBinding α)) (i : Nat)
    (b : JoypadBinding α) (h : i < l.length) :
    l.set i b = l.take i ++ b :: l.drop (i + 1) := by
  induction l generalizing i with
  | nil => simp at h
  | cons a rest ih =>
    cases i with
    | zero => simp
    | succ n =>
      have hn : n < rest.length := by simpa using h
      simp [ih n hn]

/-! ### Listener registration and dispatch -/

section Listeners

open JoypadInputManager

variable {H : Type} {β : Type}

/-- A dispatch on a state without learn callback invokes no learn callback and leaves the
state as it is. -/
theorem dispatchOne_of_learn_none (s : Handlers H) (d : Dispatch β)
    (hs : s.learn_handler = none) :
    (dispatchOne s d).2 = s ∧ (dispatchOne s d).1.filter Call.isLearn = [] := by
  cases d with
  | event e =>
    simp only [dispatchOne, DispatchEvent, hs, Option.isSome_none, Bool.false_eq_true,
      if_false, List.nil_append, List.filter_append, true_and]
    cases e.is_axis <;> cases s.on_button_pressed <;>
      simp [List.filter_filterMap, Call.isLearn, Option.map]
    all_goals
      intro a ha
      cases a.handler <;> simp [Call.isLearn]
  | axisAbsolute e =>
    simp only [dispatchOne, DispatchAxisAbsolute, hs, Option.isSome_none, Bool.false_eq_true,
      if_false, List.nil_append, true_and]
    simp [List.filter_filterMap, Call.isLearn, Option.map]
    intro a ha
    cases a.handler <;> simp [Call.isLearn]

/-- A sequence of dispatches on a state without learn callback invokes no learn callback
and leaves the state as it is. -/
theorem dispatchAll_of_learn_none (s : Handlers H) (ds : List (Dispatch β))
    (hs : s.learn_handler = none) :
    (dispatchAll s ds).2 = s ∧ (dispatchAll s ds).1.filter Call.isLearn = [] := by
  induction ds with
  | nil => exact ⟨rfl, rfl⟩
  | cons d rest ih =>
    obtain ⟨h1, h2⟩ := dispatchOne_of_learn_none s d hs
    simp only [dispatchAll, h1, List.filter_append, h2, ih.1, ih.2, List.append_nil, and_self]

/-- A dispatch on a state with the learn callback `h` invokes it first, once, with the
event of the dispatch, and clears it. -/
theorem dispatchOne_of_learn_some (s : Handlers H) (d : Dispatch β) (h : H)
    (hs : s.learn_handler = some h) :
    (dispatchOne s d).2.learn_handler = none ∧
      (dispatchOne s d).1.filter Call.isLearn = [Call.learn h d.payload] ∧
      (dispatchOne s d).1.head? = some (Call.learn h d.payload) := by
  cases d with
  | event e =>
    simp only [dispatchOne, DispatchEvent, hs, Option.isSome_some, if_true, Dispatch.payload,
      List.filter_append, true_and]
    cases e.is_axis <;> cases s.on_button_pressed <;>
      simp [List.filter_filterMap, Call.isLearn, Option.map]
    all_goals
      intro a ha
      cases a.handler <;> simp [Call.isLearn]
  | axisAbsolute e =>
    simp only [dispatchOne, DispatchAxisAbsolute, hs, Option.isSome_some, if_true,
      Dispatch.payload, List.filter_append, true_and]
    simp [List.filter_filterMap, Call.isLearn, Option.map]
    intro a ha
    cases a.handler <;> simp [Call.isLearn]

end Listeners

section Handles

open JoypadInputManager

variable {H : Type}

/-- The initial state is well formed. -/
theorem wellFormed_initial : (Handlers.initial : Handlers H).WellFormed := by
  refine ⟨show (0 : Int) < 1 by decide, ?_, ?_⟩
  · intro entry hentry
    simp [Handlers.initial] at hentry
  · simp [Handlers.initial]

/-- Registering an axis listener keeps the state well formed. -/
theorem wellFormed_add (s : Handlers H) (handler : Option H) (hs : s.WellFormed) :
    (AddOnAxisChanged s handler).2.WellFormed := by
  obtain ⟨h1, h2, h3⟩ := hs
  cases handler with
  | none => exact ⟨h1, h2, h3⟩
  | some h =>
    refine ⟨by simp only [AddOnAxisChanged]; omega, ?_, ?_⟩
    · intro entry hentry
      simp only [AddOnAxisChanged, List.mem_append, List.mem_singleton] at hentry ⊢
      rcases hentry with hentry | hentry
      · have := h2 entry hentry
        omega
      · rw [hentry]
        simp
    · simp only [AddOnAxisChanged, List.map_append, List.map_cons, List.map_nil]
      refine List.Nodup.append h3 (List.nodup_singleton _) ?_
      intro x hx hx'
      rw [List.mem_singleton] at hx'
      obtain ⟨entry, hentry, rfl⟩ := List.mem_map.1 hx
      have := h2 entry hentry
      omega

/-- Every call of the registration interface keeps the state well formed and does not
lower the counter. -/
theorem wellFormed_apply (s : Handlers H) (op : Op H) (hs : s.WellFormed) :
    (Op.apply s op).WellFormed ∧
      s.next_axis_handler_id ≤ (Op.apply s op).next_axis_handler_id := by
  cases op with
  | setOnButtonPressed handler => exact ⟨hs, le_refl _⟩
  | setOnAxisChanged handler =>
    refine ⟨?_, by cases handler <;> exact le_refl _⟩
    cases handler with
    | none => exact ⟨hs.1, by intro entry hentry; simp [Op.apply, SetOnAxisChanged] at hentry,
        by simp [Op.apply, SetOnAxisChanged]⟩
    | some h =>
      refine ⟨hs.1, ?_, by simp [Op.apply, SetOnAxisChanged]⟩
      intro entry hentry
      have he : entry = { id := 0, handler := some h } := by
        simpa [Op.apply, SetOnAxisChanged] using hentry
      rw [he]
      exact hs.1
  | addOnAxisChanged handler =>
    refine ⟨wellFormed_add s handler hs, ?_⟩
    cases handler with
    | none => exact le_refl _
    | some h => simp [Op.apply, AddOnAxisChanged]
  | removeOnAxisChanged handler_id =>
    refine ⟨?_, ?_⟩
    · simp only [Op.apply, RemoveOnAxisChanged]
      split_ifs with hid
      · exact hs
      · refine ⟨hs.1, ?_, ?_⟩
        · intro entry hentry
          exact hs.2.1 entry (List.mem_of_mem_filter hentry)
        · exact List.Nodup.sublist (List.Sublist.map _ (List.filter_sublist _)) hs.2.2
    · simp only [Op.apply, RemoveOnAxisChanged]
      split_ifs <;> exact le_refl _
  | beginLearn handler =>
    simp only [Op.apply, BeginLearn]
    split_ifs
    · exact ⟨hs, le_refl _⟩
    · exact ⟨hs, le_refl _⟩
  | cancelLearn => exact ⟨hs, le_refl _⟩

/-- Along a sequence of calls from a well-formed state the handles returned are at or above
the counter and strictly increasing. -/
theorem handlesReturned_increasing (s : Handlers H) (ops : List (Op H))
    (hs : s.WellFormed) :
    (∀ x ∈ handlesReturned s ops, s.next_axis_handler_id ≤ x) ∧
      (handlesReturned s ops).Pairwise (fun x y => x < y) := by
  induction ops generalizing s with
  | nil => exact ⟨by intro x hx; simp [handlesReturned] at hx, List.Pairwise.nil⟩
  | cons op rest ih =>
    have hstep := wellFormed_apply s op hs
    have hother : handlesReturned (Op.apply s op) rest = handlesReturned s (op :: rest) ∨
        ∃ h, op = Op.addOnAxisChanged (some h) := by
      cases op with
      | addOnAxisChanged handler =>
        cases handler with
        | none => exact Or.inl rfl
        | some h => exact Or.inr ⟨h, rfl⟩
      | setOnButtonPressed handler => exact Or.inl rfl
      | setOnAxisChanged handler => exact Or.inl rfl
      | removeOnAxisChanged handler_id => exact Or.inl rfl
      | beginLearn handler => exact Or.inl rfl
      | cancelLearn => exact Or.inl rfl
    rcases hother with hsame | ⟨h, rfl⟩
    · rw [← hsame]
      obtain ⟨ih1, ih2⟩ := ih (Op.apply s op) hstep.1
      exact ⟨fun x hx => le_trans hstep.2 (ih1 x hx), ih2⟩
    · obtain ⟨ih1, ih2⟩ := ih (AddOnAxisChanged s (some h)).2 (wellFormed_add s (some h) hs)
      have hnext : (AddOnAxisChanged s (some h)).2.next_axis_handler_id =
          s.next_axis_handler_id + 1 := rfl
      have hid : (AddOnAxisChanged s (some h)).1 = s.next_axis_handler_id := rfl
      simp only [handlesReturned, List.mem_cons, List.pairwise_cons]
      refine ⟨?_, ?_, ih2⟩
      · intro x hx
        rcases hx with hx | hx
        · rw [hx, hid]
        · have := ih1 x hx
          omega
      · intro x hx
        have := ih1 x hx
        omega

end Handles

/-! ### The button block of the poll loop -/

section Buttons

open JoypadInputManager

variable {α : Type} [LinearOrderedField α]

end Buttons

/-! ### One axis sample -/

section AxisSamples

open JoypadInputManager

variable {α : Type} [LinearOrderedField α]

omit [LinearOrderedField α] in
/-- Writing to a slot that exists makes it hold the value written. -/
theorem get?_set_of_get? {β : Type} (l : List β) (i : Nat) (a b : β)
    (h : l.get? i = some b) : (l.set i a).get? i = some a := by
  induction l generalizing i with
  | nil => simp at h
  | cons x rest ih =>
    cases i with
    | zero => simp
    | succ n => simpa using ih n (by simpa using h)

omit [LinearOrderedField α] in
/-- Writing to a slot the value it holds changes nothing. -/
theorem set_eq_self_of_get? {β : Type} (l : List β) (i : Nat) (a : β)
    (h : l.get? i = some a) : l.set i a = l := by
  induction l generalizing i with
  | nil => simp
  | cons x rest ih =>
    cases i with
    | zero =>
      have hx : x = a := by simpa using h
      simp [hx]
    | succ n =>
      have := ih n (by simpa using h)
      simp [this]

theorem AxisLastTrigger.find_set (tr : AxisLastTrigger) (key other : String) (now : Int) :
    (tr.set key now).find other = if other = key then some now else tr.find other := by
  induction tr with
  | nil =>
    by_cases h : other = key
    · simp [AxisLastTrigger.set, AxisLastTrigger.find, h]
    · simp [AxisLastTrigger.set, AxisLastTrigger.find, h, Ne.symm h]
  | cons p rest ih =>
    obtain ⟨k, t⟩ := p
    by_cases hk : k = key
    · subst hk
      by_cases h : other = k
      · simp [AxisLastTrigger.set, AxisLastTrigger.find, h]
      · simp [AxisLastTrigger.set, AxisLastTrigger.find, h, Ne.symm h]
    · by_cases h : other = key
      · subst h
        simp [AxisLastTrigger.set, AxisLastTrigger.find, hk, ih]
      · by_cases hk2 : k = other
        · subst hk2
          simp [AxisLastTrigger.set, AxisLastTrigger.find, hk]
        · simp [AxisLastTrigger.set, AxisLastTrigger.find, hk, hk2, ih, h]

/-- Recording a trigger at `now` keeps all trigger times at or before every later clock
reading. -/
theorem AxisLastTrigger.allLE_set (tr : AxisLastTrigger) (key : String) (now later : Int)
    (h : tr.AllLE now) (hle : now ≤ later) : (tr.set key now).AllLE later := by
  intro k t hk
  rw [AxisLastTrigger.find_set] at hk
  split_ifs at hk with hkk
  · have : now = t := by simpa using hk
    omega
  · exact le_trans (h k t hk) hle

/-- One axis sample with the poll-level interval of 0 ms and a clock that has not run
backwards: an event is produced exactly when the axis has been seen before and the raw
value differs from the stored one; the slot then holds the sample. -/
theorem axisSample_zero (state : DeviceState α) (tr : AxisLastTrigger) (now : Int)
    (key : String) (idx : Nat) (value raw prev : α) (init : Bool)
    (hinit : state.axis_initialized.get? idx = some init)
    (hprev : state.last_axes.get? idx = some prev)
    (htime : ∀ t, tr.find key = some t → t ≤ now) :
    axisSample 0 state tr now key idx value raw =
      some (if init = true ∧ raw ≠ prev then some (axisEventOf state idx value raw) else none,
        { state with
          last_axes := state.last_axes.set idx raw
          axis_initialized := state.axis_initialized.set idx true },
        if init = true ∧ raw ≠ prev then tr.set key now else tr) := by
  unfold axisSample
  simp only [hinit, hprev]
  cases init with
  | false => simp
  | true =>
    have hsame : state.axis_initialized.set idx true = state.axis_initialized :=
      set_eq_self_of_get? _ _ _ hinit
    by_cases hraw : raw = prev
    · subst hraw
      have hl : state.last_axes.set idx raw = state.last_axes :=
        set_eq_self_of_get? _ _ _ hprev
      simp [hsame, hl]
    · have hdeb : (match tr.find key with
          | some last => decide (now < last)
          | none => false) = false := by
        cases hf : tr.find key with
        | none => rfl
        | some last =>
          have := htime last hf
          simp only [decide_eq_false_iff_not, not_lt]
          omega
      simp [hraw, hdeb, hsame]

end AxisSamples

section AxisSequences

open JoypadInputManager

variable {α : Type} [LinearOrderedField α]

/-- The axis event depends on the state through its id and name only. -/
theorem axisEventOf_congr (s s' : DeviceState α) (idx : Nat) (value raw : α)
    (hid : s'.id = s.id) (hname : s'.name = s.name) :
    axisEventOf s' idx value raw = axisEventOf s idx value raw := by
  unfold axisEventOf
  rw [hid, hname]

theorem expectedAxisEvents_congr (s s' : DeviceState α) (idx : Nat) (prev : Option α)
    (samples : List (Int × α × α)) (hid : s'.id = s.id) (hname : s'.name = s.name) :
    expectedAxisEvents s' idx prev samples = expectedAxisEvents s idx prev samples := by
  induction samples generalizing prev with
  | nil => rfl
  | cons x rest ih =>
    obtain ⟨now, norm, raw⟩ := x
    simp only [expectedAxisEvents, ih, axisEventOf_congr s s' idx norm raw hid hname]

/-- An event that an axis sample produces carries the normalized and the raw value of the
sample, whatever the interval and the clock. -/
theorem axisSample_event (interval : Int) (state : DeviceState α) (tr : AxisLastTrigger)
    (now : Int) (key : String) (idx : Nat) (value raw : α) (e : JoypadEvent α)
    (s' : DeviceState α) (tr' : AxisLastTrigger)
    (h : axisSample interval state tr now key idx value raw = some (some e, s', tr')) :
    e = axisEventOf state idx value raw := by
  unfold axisSample at h
  cases h1 : state.axis_initialized.get? idx with
  | none =>
    simp only [h1] at h
    simp at h
  | some init =>
    cases h2 : state.last_axes.get? idx with
    | none =>
      simp only [h1, h2] at h
      simp at h
    | some prev =>
      simp only [h1, h2] at h
      split_ifs at h <;> simp at h
      exact h.1.symm

omit [LinearOrderedField α] in
/-- The expected state after one sample and then a sequence whose last raw value is `last`
is the expected state after the whole sequence. -/
theorem expectedAxisState_step (state : DeviceState α) (idx : Nat) (raw : α)
    (last : Option α) :
    expectedAxisState
        { state with
          last_axes := state.last_axes.set idx raw
          axis_initialized := state.axis_initialized.set idx true } idx last =
      expectedAxisState state idx (some (last.getD raw)) := by
  cases last with
  | none => rfl
  | some r => simp [expectedAxisState, List.set_set]

omit [LinearOrderedField α] in
/-- The last value of a sequence that starts with the value `raw`. -/
theorem getLast?_cons_map_getD {β : Type} (f : β → α) (x : β) (rest : List β) :
    ((x :: rest).getLast?.map f) = some ((rest.getLast?.map f).getD (f x)) := by
  cases rest with
  | nil => rfl
  | cons y more =>
    rw [List.getLast?_cons_cons, List.getLast?_eq_getLast _ (List.cons_ne_nil y more)]
    rfl

/-- A run of samples of one axis through `push_axis_raw` with the poll-level interval of
0 ms and a non-decreasing clock, from any state of the slot: the events and the state
afterwards are the expected ones. -/
theorem pushAxisSamples_zero (idx : Nat) (samples : List (Int × α × α)) :
    ∀ (state : DeviceState α) (tr : AxisLastTrigger) (init : Bool) (prev : α),
      state.axis_initialized.get? idx = some init →
      state.last_axes.get? idx = some prev →
      samples.Pairwise (fun a b => a.1 ≤ b.1) →
      (∀ s ∈ samples, tr.AllLE s.1) →
      ∃ tr',
        pushAxisSamples 0 idx state tr samples =
          some (expectedAxisEvents state idx (if init = true then some prev else none)
            samples, expectedAxisState state idx (samples.getLast?.map fun s => s.2.2),
            tr') := by
  induction samples with
  | nil =>
    intro state tr init prev _ _ _ _
    exact ⟨tr, rfl⟩
  | cons x rest ih =>
    obtain ⟨now, norm, raw⟩ := x
    intro state tr init prev hinit hprev hclock htr
    obtain ⟨key, hkey⟩ : ∃ key : String,
        key = state.id ++ ":" ++ toString idx ++ (if raw ≥ 0 then "+" else "-") := ⟨_, rfl⟩
    have hstep := axisSample_zero state tr now key idx norm raw prev
      init hinit hprev (fun t ht => htr _ (List.mem_cons_self _ _) _ t ht)
    obtain ⟨hhead, htail⟩ := List.pairwise_cons.1 hclock
    have htr1 : ∀ s ∈ rest,
        (if init = true ∧ raw ≠ prev then tr.set key now else tr).AllLE s.1 := by
      intro s hs
      by_cases hc : init = true ∧ raw ≠ prev
      · rw [if_pos hc]
        exact AxisLastTrigger.allLE_set tr _ now s.1 (htr _ (List.mem_cons_self _ _))
          (hhead s hs)
      · rw [if_neg hc]
        exact htr s (List.mem_cons_of_mem _ hs)
    obtain ⟨tr', hrun⟩ := ih
      { state with
        last_axes := state.last_axes.set idx raw
        axis_initialized := state.axis_initialized.set idx true }
      _ true raw (get?_set_of_get? _ _ _ _ hinit) (get?_set_of_get? _ _ _ _ hprev) htail htr1
    refine ⟨tr', ?_⟩
    rw [expectedAxisEvents_congr state
      { state with
        last_axes := state.last_axes.set idx raw
        axis_initialized := state.axis_initialized.set idx true } idx _ rest rfl rfl,
      if_pos rfl, expectedAxisState_step] at hrun
    have hexp : expectedAxisEvents state idx (if init = true then some prev else none)
        ((now, norm, raw) :: rest) =
        (if init = true ∧ raw ≠ prev then some (axisEventOf state idx norm raw) else none) ::
          expectedAxisEvents state idx (some raw) rest := by
      cases init <;> by_cases hraw : raw = prev <;> simp [expectedAxisEvents, hraw]
    rw [hexp, getLast?_cons_map_getD (fun s : Int × α × α => s.2.2), pushAxisSamples]
    simp only [push_axis_raw, ← hkey, hstep, hrun]

/-- The handling of one axis sample leaves the ranges of the axes alone. -/
theorem axisSample_ranges (interval : Int) (state : DeviceState α) (tr : AxisLastTrigger)
    (now : Int) (key : String) (idx : Nat) (value raw : α) (ev : Option (JoypadEvent α))
    (s' : DeviceState α) (tr' : AxisLastTrigger)
    (h : axisSample interval state tr now key idx value raw = some (ev, s', tr')) :
    s'.axis_min = state.axis_min ∧ s'.axis_max = state.axis_max := by
  unfold axisSample at h
  cases h1 : state.axis_initialized.get? idx with
  | none =>
    simp only [h1] at h
    simp at h
  | some init =>
    cases h2 : state.last_axes.get? idx with
    | none =>
      simp only [h1, h2] at h
      simp at h
    | some prev =>
      simp only [h1, h2] at h
      split_ifs at h <;> simp only [Option.some.injEq, Prod.mk.injEq] at h <;>
        obtain ⟨_, hs, _⟩ := h <;> subst hs <;> exact ⟨rfl, rfl⟩

/-- The min/max map depends on the state through the ranges of the axes only. -/
theorem norm_axis_congr (s s' : DeviceState α) (idx val : Nat)
    (hmin : s'.axis_min = s.axis_min) (hmax : s'.axis_max = s.axis_max) :
    norm_axis s' idx val = norm_axis s idx val := by
  unfold norm_axis
  rw [hmin, hmax]

/-- A run of the WinMM loop body over the positions of one axis is the run of
`push_axis_raw` over the same positions with the values of the min/max map. -/
theorem winmmAxisSamples_eq (interval : Int) (idx : Nat) (state : DeviceState α)
    (samples : List (Int × Nat)) :
    ∀ (s0 : DeviceState α) (tr : AxisLastTrigger),
      s0.axis_min = state.axis_min → s0.axis_max = state.axis_max →
      winmmAxisSamples interval idx s0 tr samples =
        pushAxisSamples interval idx s0 tr
          (samples.map fun s => (s.1, norm_axis state idx s.2, (s.2 : α))) := by
  induction samples with
  | nil =>
    intro s0 tr _ _
    rfl
  | cons x rest ih =>
    obtain ⟨now, raw⟩ := x
    intro s0 tr hmin hmax
    have hstep : winmmAxis interval s0 tr now idx raw =
        push_axis_raw interval s0 tr now idx (norm_axis state idx raw) (raw : α) := by
      unfold winmmAxis push_axis_raw
      rw [norm_axis_congr state s0 idx raw hmin hmax]
    simp only [winmmAxisSamples, List.map_cons, pushAxisSamples, hstep]
    cases h1 : push_axis_raw interval s0 tr now idx (norm_axis state idx raw) (raw : α) with
    | none => rfl
    | some r1 =>
      obtain ⟨ev, s1, t1⟩ := r1
      obtain ⟨hmin1, hmax1⟩ := axisSample_ranges interval s0 tr now _ idx _ _ ev s1 t1 h1
      simp only [ih s1 t1 (hmin1.trans hmin) (hmax1.trans hmax)]

/-- The body of the device-file loop for an axis record is the handling of one axis
sample, with the value of the map of lines 791-799 and the key built from its sign. -/
theorem linuxRecord_axis (interval : Int) (state : DeviceState α) (tr : AxisLastTrigger)
    (now : Int) (value : Int) (number : Nat) :
    linuxRecord interval state tr now
        { value := value, type := JS_EVENT_AXIS, number := number } =
      (axisSample interval state tr now
        (state.id ++ ":" ++ toString number ++
          (if (linux_axis_value value : α) ≥ 0 then "+" else "-"))
        number (linux_axis_value value) (value : α)).map
        fun r => (r.1.toList.map Dispatch.axisAbsolute, r.2.1, r.2.2) := by
  have h1 : ¬ (JS_EVENT_AXIS &&& JS_EVENT_INIT ≠ 0) := by decide
  have h2 : ¬ (JS_EVENT_AXIS &&& JS_EVENT_BUTTON ≠ 0 ∧ value ≠ 0) := fun h =>
    absurd h.1 (by decide)
  have h3 : JS_EVENT_AXIS &&& JS_EVENT_AXIS ≠ 0 := by decide
  unfold linuxRecord
  simp only [if_neg h1, if_neg h2, if_pos h3, List.nil_append]
  cases axisSample interval state tr now
    (state.id ++ ":" ++ toString number ++
      (if (linux_axis_value value : α) ≥ 0 then "+" else "-"))
    number (linux_axis_value value) (value : α) with
  | none => rfl
  | some r => rfl

/-- A run of axis records of one axis through the device-file loop body with the
poll-level interval of 0 ms and a non-decreasing clock, from any state of the slot. -/
theorem linuxAxisSamples_zero (idx : Nat) (samples : List (Int × Int)) :
    ∀ (state : DeviceState α) (tr : AxisLastTrigger) (init : Bool) (prev : α),
      state.axis_initialized.get? idx = some init →
      state.last_axes.get? idx = some prev →
      samples.Pairwise (fun a b => a.1 ≤ b.1) →
      (∀ s ∈ samples, tr.AllLE s.1) →
      ∃ tr',
        linuxAxisSamples 0 idx state tr samples =
          some ((expectedAxisEvents state idx (if init = true then some prev else none)
              (samples.map fun s => (s.1, (linux_axis_value s.2 : α), (s.2 : α)))).map
              (fun o => o.toList.map Dispatch.axisAbsolute),
            expectedAxisState state idx (samples.getLast?.map fun s => (s.2 : α)), tr') := by
  induction samples with
  | nil =>
    intro state tr init prev _ _ _ _
    exact ⟨tr, rfl⟩
  | cons x rest ih =>
    obtain ⟨now, value⟩ := x
    intro state tr init prev hinit hprev hclock htr
    obtain ⟨key, hkey⟩ : ∃ key : String,
        key = state.id ++ ":" ++ toString idx ++
          (if (linux_axis_value value : α) ≥ 0 then "+" else "-") := ⟨_, rfl⟩
    have hstep := axisSample_zero state tr now key idx (linux_axis_value value) (value : α)
      prev init hinit hprev (fun t ht => htr _ (List.mem_cons_self _ _) _ t ht)
    obtain ⟨hhead, htail⟩ := List.pairwise_cons.1 hclock
    have htr1 : ∀ s ∈ rest,
        (if init = true ∧ (value : α) ≠ prev then tr.set key now else tr).AllLE s.1 := by
      intro s hs
      by_cases hc : init = true ∧ (value : α) ≠ prev
      · rw [if_pos hc]
        exact AxisLastTrigger.allLE_set tr _ now s.1 (htr _ (List.mem_cons_self _ _))
          (hhead s hs)
      · rw [if_neg hc]
        exact htr s (List.mem_cons_of_mem _ hs)
    obtain ⟨tr', hrun⟩ := ih
      { state with
        last_axes := state.last_axes.set idx (value : α)
        axis_initialized := state.axis_initialized.set idx true }
      _ true (value : α) (get?_set_of_get? _ _ _ _ hinit) (get?_set_of_get? _ _ _ _ hprev)
      htail htr1
    refine ⟨tr', ?_⟩
    rw [expectedAxisEvents_congr state
      { state with
        last_axes := state.last_axes.set idx (value : α)
        axis_initialized := state.axis_initialized.set idx true } idx _ _ rfl rfl,
      if_pos rfl, expectedAxisState_step] at hrun
    have hexp : expectedAxisEvents state idx (if init = true then some prev else none)
        ((now, (linux_axis_value value : α), (value : α)) ::
          rest.map fun s => (s.1, (linux_axis_value s.2 : α), (s.2 : α))) =
        (if init = true ∧ (value : α) ≠ prev then
            some (axisEventOf state idx (linux_axis_value value) (value : α))
          else none) ::
          expectedAxisEvents state idx (some (value : α))
            (rest.map fun s => (s.1, (linux_axis_value s.2 : α), (s.2 : α))) := by
      cases init <;> by_cases hraw : (value : α) = prev <;>
        simp [expectedAxisEvents, hraw]
    rw [List.map_cons, hexp, getLast?_cons_map_getD (fun s : Int × Int => (s.2 : α)),
      linuxAxisSamples, linuxRecord_axis]
    simp only [← hkey, hstep, hrun, Option.map_some', List.map_cons]

end AxisSequences


section AxisExpected

open JoypadInputManager

variable {α : Type} [LinearOrderedField α]

/-- An expected event at position `i` carries the values of the sample at position `i`. -/
theorem expectedAxisEvents_get? (state : DeviceState α) (idx : Nat)
    (samples : List (Int × α × α)) :
    ∀ (prev : Option α) (i : Nat) (e : JoypadEvent α),
      (expectedAxisEvents state idx prev samples).get? i = some (some e) →
      ∃ s, samples.get? i = some s ∧ e.axis_raw_value = s.2.2 ∧ e.axis_value = s.2.1 ∧
        e.is_axis = true ∧ e.axis_index = (idx : Int) ∧ e.device_id = state.id := by
  induction samples with
  | nil =>
    intro prev i e h
    simp [expectedAxisEvents] at h
  | cons x rest ih =>
    obtain ⟨now, norm, raw⟩ := x
    intro prev i e h
    cases i with
    | zero =>
      refine ⟨(now, norm, raw), rfl, ?_⟩
      cases prev with
      | none => simp [expectedAxisEvents] at h
      | some p =>
        simp only [expectedAxisEvents, List.get?_cons_zero, Option.some.injEq] at h
        split_ifs at h
        cases h
        exact ⟨rfl, rfl, rfl, rfl, rfl⟩
    | succ j =>
      simp only [expectedAxisEvents, List.get?_cons_succ] at h
      simpa using ih (some raw) j e h

end AxisExpected

section WinmmSequences

open JoypadInputManager

variable {α : Type} [LinearOrderedField α]

/-- A run of positions of one axis through the WinMM loop body with the poll-level
interval of 0 ms and a non-decreasing clock, from any state of the slot. -/
theorem winmmAxisSamples_zero (idx : Nat) (samples : List (Int × Nat))
    (state : DeviceState α) (tr : AxisLastTrigger) (init : Bool) (prev : α)
    (hinit : state.axis_initialized.get? idx = some init)
    (hprev : state.last_axes.get? idx = some prev)
    (hclock : samples.Pairwise (fun a b => a.1 ≤ b.1))
    (htr : ∀ s ∈ samples, tr.AllLE s.1) :
    ∃ tr',
      winmmAxisSamples 0 idx state tr samples =
        some (expectedAxisEvents state idx (if init = true then some prev else none)
            (samples.map fun s => (s.1, norm_axis state idx s.2, (s.2 : α))),
          expectedAxisState state idx (samples.getLast?.map fun s => (s.2 : α)), tr') := by
  obtain ⟨tr', hrun⟩ := pushAxisSamples_zero idx
    (samples.map fun s => (s.1, norm_axis state idx s.2, (s.2 : α))) state tr init prev
    hinit hprev (List.pairwise_map.2 hclock)
    (fun s hs => by
      obtain ⟨s0, hs0, rfl⟩ := List.mem_map.1 hs
      exact htr s0 hs0)
  refine ⟨tr', ?_⟩
  rw [winmmAxisSamples_eq 0 idx state samples state tr rfl rfl, hrun, List.getLast?_map,
    Option.map_map]
  rfl

end WinmmSequences

/-! ### The normalized axis values -/

section Normalized

open JoypadInputManager

variable {α : Type} [LinearOrderedField α]

theorem norm_thumb_mem (v : Int) : -1 ≤ (norm_thumb v : α) ∧ (norm_thumb v : α) ≤ 1 :=
  clamp_mem _ (-1) 1 (by norm_num)

theorem norm_trigger_mem (v : Nat) : 0 ≤ (norm_trigger v : α) ∧ (norm_trigger v : α) ≤ 1 :=
  clamp_mem _ 0 1 (by norm_num)

theorem norm_axis_mem (state : DeviceState α) (idx val : Nat) :
    -1 ≤ norm_axis state idx val ∧ norm_axis state idx val ≤ 1 := by
  unfold norm_axis
  simp only []
  split_ifs with h
  · constructor <;> norm_num
  · exact clamp_mem _ (-1) 1 (by norm_num)

/-- The two tests of lines 793-798 are a clamp to `[-1, 1]`. -/
theorem linux_axis_value_eq (value : Int) :
    (linux_axis_value value : α) = clamp ((value : α) / 32767) (-1) 1 := by
  unfold linux_axis_value clamp
  simp only []
  split_ifs <;> first | rfl | (exfalso; linarith)

theorem linux_axis_value_mem (value : Int) :
    -1 ≤ (linux_axis_value value : α) ∧ (linux_axis_value value : α) ≤ 1 := by
  rw [linux_axis_value_eq]
  exact clamp_mem _ (-1) 1 (by norm_num)

theorem hid_norm_mem (scaled : α) (min max : Int) :
    -1 ≤ hid_norm scaled min max ∧ hid_norm scaled min max ≤ 1 :=
  clamp_mem _ (-1) 1 (by norm_num)

/-- The events of consecutive calls of `push_axis_raw` carry the normalized values handed
to it. -/
theorem pushAxes_values (interval now : Int) (samples : List (Nat × α × α))
    (hs : ∀ s ∈ samples, -1 ≤ s.2.1 ∧ s.2.1 ≤ 1) :
    ∀ (state : DeviceState α) (tr : AxisLastTrigger) (events : List (JoypadEvent α))
      (state' : DeviceState α) (tr' : AxisLastTrigger),
      pushAxes interval now state tr samples = some (events, state', tr') →
      ∀ e ∈ events, -1 ≤ e.axis_value ∧ e.axis_value ≤ 1 := by
  induction samples with
  | nil =>
    intro state tr events state' tr' h e he
    simp only [pushAxes, Option.some.injEq, Prod.mk.injEq] at h
    rw [← h.1] at he
    cases he
  | cons x rest ih =>
    obtain ⟨i, norm, raw⟩ := x
    intro state tr events state' tr' h e he
    simp only [pushAxes] at h
    cases h1 : push_axis_raw interval state tr now i norm raw with
    | none => simp [h1] at h
    | some r1 =>
      obtain ⟨ev, s1, t1⟩ := r1
      simp only [h1] at h
      cases h2 : pushAxes interval now s1 t1 rest with
      | none => simp [h2] at h
      | some r2 =>
        obtain ⟨evs, s2, t2⟩ := r2
        simp only [h2, Option.some.injEq, Prod.mk.injEq] at h
        rw [← h.1, List.mem_append] at he
        cases he with
        | inl hhead =>
          cases ev with
          | none => simp at hhead
          | some e1 =>
            have he1 : e = e1 := by simpa using hhead
            subst he1
            have := axisSample_event interval state tr now _ i norm raw e s1 t1 h1
            rw [this]
            exact hs _ (List.mem_cons_self _ _)
        | inr htail =>
          exact ih (fun s hs' => hs s (List.mem_cons_of_mem _ hs')) s1 t1 evs s2 t2 h2 e htail

/-- The events of the WinMM axis loop carry values of `norm_axis`. -/
theorem winmmAxes_values (interval now : Int) (raws : List Nat) :
    ∀ (state : DeviceState α) (tr : AxisLastTrigger) (i : Nat)
      (events : List (JoypadEvent α)) (state' : DeviceState α) (tr' : AxisLastTrigger),
      winmmAxes interval now state tr i raws = some (events, state', tr') →
      ∀ e ∈ events, -1 ≤ e.axis_value ∧ e.axis_value ≤ 1 := by
  induction raws with
  | nil =>
    intro state tr i events state' tr' h e he
    simp only [winmmAxes, Option.some.injEq, Prod.mk.injEq] at h
    rw [← h.1] at he
    cases he
  | cons raw rest ih =>
    intro state tr i events state' tr' h e he
    simp only [winmmAxes] at h
    cases h1 : winmmAxis interval state tr now i raw with
    | none => simp [h1] at h
    | some r1 =>
      obtain ⟨ev, s1, t1⟩ := r1
      simp only [h1] at h
      cases h2 : winmmAxes interval now s1 t1 (i + 1) rest with
      | none => simp [h2] at h
      | some r2 =>
        obtain ⟨evs, s2, t2⟩ := r2
        simp only [h2, Option.some.injEq, Prod.mk.injEq] at h
        rw [← h.1, List.mem_append] at he
        cases he with
        | inl hhead =>
          cases ev with
          | none => simp at hhead
          | some e1 =>
            have he1 : e = e1 := by simpa using hhead
            subst he1
            have := axisSample_event interval state tr now _ i _ _ e s1 t1 h1
            rw [this]
            exact norm_axis_mem state i raw
        | inr htail => exact ih s1 t1 (i + 1) evs s2 t2 h2 e htail

/-- The axis dispatch of one record of the device file carries a value of the map of lines
791-799. -/
theorem linuxRecord_values (interval : Int) (state : DeviceState α) (tr : AxisLastTrigger)
    (now : Int) (r : js_event) (calls : List (Dispatch α)) (state' : DeviceState α)
    (tr' : AxisLastTrigger)
    (h : linuxRecord interval state tr now r = some (calls, state', tr')) :
    ∀ e, Dispatch.axisAbsolute e ∈ calls → -1 ≤ e.axis_value ∧ e.axis_value ≤ 1 := by
  intro e he
  unfold linuxRecord at h
  by_cases hi : r.type &&& JS_EVENT_INIT ≠ 0
  · rw [if_pos hi] at h
    simp only [Option.some.injEq, Prod.mk.injEq] at h
    rw [← h.1] at he
    cases he
  · rw [if_neg hi] at h
    simp only [] at h
    obtain ⟨bc, hbc, hbcev⟩ : ∃ bc : List (Dispatch α),
        bc = (if r.type &&& JS_EVENT_BUTTON ≠ 0 ∧ r.value ≠ 0 then
            [Dispatch.event (buttonEventOf state ((r.number : Int) + 1))]
          else []) ∧ Dispatch.axisAbsolute e ∉ bc := by
      refine ⟨_, rfl, ?_⟩
      split_ifs <;> simp
    rw [← hbc] at h
    by_cases ha : r.type &&& JS_EVENT_AXIS ≠ 0
    · rw [if_pos ha] at h
      obtain ⟨key, hkey⟩ : ∃ key : String,
          key = state.id ++ ":" ++ toString r.number ++
            (if (linux_axis_value r.value : α) ≥ 0 then "+" else "-") := ⟨_, rfl⟩
      rw [← hkey] at h
      cases h1 : axisSample interval state tr now key r.number (linux_axis_value r.value)
          (r.value : α) with
      | none => simp [h1] at h
      | some r1 =>
        obtain ⟨ev, s1, t1⟩ := r1
        simp only [h1, Option.some.injEq, Prod.mk.injEq] at h
        rw [← h.1, List.mem_append] at he
        cases he with
        | inl hl => exact absurd hl hbcev
        | inr hr =>
          cases ev with
          | none => simp at hr
          | some e1 =>
            have he1 : e = e1 := by simpa using hr
            subst he1
            rw [axisSample_event interval state tr now key r.number _ _ e s1 t1 h1]
            exact linux_axis_value_mem r.value
    · rw [if_neg ha] at h
      simp only [Option.some.injEq, Prod.mk.injEq] at h
      rw [← h.1] at he
      exact absurd he hbcev

end Normalized

section NormalizedPass

open JoypadInputManager

variable {α : Type} [LinearOrderedField α]

theorem norm_thumb_values :
    (norm_thumb 32767 : α) = 1 ∧ (norm_thumb (-32768) : α) = -1 ∧ (norm_thumb 0 : α) = 0 := by
  refine ⟨?_, ?_, ?_⟩
  · have h : (norm_thumb 32767 : α) = clamp 1 (-1) 1 := by
      unfold norm_thumb
      norm_num
    rw [h]
    exact clamp_of_mem _ _ _ (by norm_num) (by norm_num)
  · have h : (norm_thumb (-32768) : α) = clamp (-1) (-1) 1 := by
      unfold norm_thumb
      norm_num
    rw [h]
    exact clamp_of_mem _ _ _ (by norm_num) (by norm_num)
  · have h : (norm_thumb 0 : α) = clamp 0 (-1) 1 := by
      unfold norm_thumb
      norm_num
    rw [h]
    exact clamp_of_mem _ _ _ (by norm_num) (by norm_num)

/-- The min/max map of the WinMM loop at the ends of the reported range. -/
theorem norm_axis_ends (state : DeviceState α) (idx val : Nat)
    (h : state.axis_min.getD idx 0 < state.axis_max.getD idx 0) :
    ((val : Int) = state.axis_min.getD idx 0 → norm_axis state idx val = -1) ∧
      ((val : Int) = state.axis_max.getD idx 0 → norm_axis state idx val = 1) := by
  have hpos : (0 : α) < ((state.axis_max.getD idx 0 - state.axis_min.getD idx 0 : Int) : α) := by
    exact_mod_cast sub_pos.2 h
  have hcast : ((val : Nat) : α) = (((val : Nat) : Int) : α) := by push_cast; rfl
  constructor
  · intro hv
    unfold norm_axis
    simp only [if_neg (not_le.2 h)]
    rw [hcast, hv, sub_self, zero_div, zero_mul, zero_sub]
    exact clamp_of_mem _ _ _ (by norm_num) (by norm_num)
  · intro hv
    unfold norm_axis
    simp only [if_neg (not_le.2 h)]
    rw [hcast, hv]
    have : ((state.axis_max.getD idx 0 : Int) : α) - ((state.axis_min.getD idx 0 : Int) : α) =
        ((state.axis_max.getD idx 0 - state.axis_min.getD idx 0 : Int) : α) := by push_cast; rfl
    rw [this, div_self (ne_of_gt hpos)]
    norm_num
    exact clamp_of_mem _ _ _ (by norm_num) (by norm_num)

theorem norm_axis_degenerate (state : DeviceState α) (idx val : Nat)
    (h : state.axis_max.getD idx 0 ≤ state.axis_min.getD idx 0) :
    norm_axis state idx val = 0 := by
  unfold norm_axis
  simp only [if_pos h]

theorem pollXInput_values (interval : Int) (state : DeviceState α) (tr : AxisLastTrigger)
    (now : Int) (reading : Option XINPUT_GAMEPAD) (calls : List (Dispatch α))
    (state' : DeviceState α) (tr' : AxisLastTrigger)
    (h : pollXInput interval state tr now reading = some (calls, state', tr')) :
    ∀ e, Dispatch.axisAbsolute e ∈ calls → -1 ≤ e.axis_value ∧ e.axis_value ≤ 1 := by
  intro e he
  cases reading with
  | none =>
    simp only [pollXInput, Option.some.injEq, Prod.mk.injEq] at h
    rw [← h.1] at he
    cases he
  | some pad =>
    simp only [pollXInput] at h
    cases h1 : pollXInputAxes interval
        (pollButtons 16 { state with connected := true } pad.wButtons).2 tr now pad with
    | none => simp [h1] at h
    | some r1 =>
      obtain ⟨evs, s1, t1⟩ := r1
      simp only [h1, Option.some.injEq, Prod.mk.injEq] at h
      rw [← h.1, List.mem_append] at he
      cases he with
      | inl hl => simp at hl
      | inr hr =>
        obtain ⟨e1, he1, heq⟩ := List.mem_map.1 hr
        cases heq
        refine pushAxes_values interval now _ ?_ _ _ _ _ _ h1 e he1
        intro s hs
        have ht := fun v : Nat => (norm_trigger_mem v : _ ∧ (norm_trigger v : α) ≤ 1)
        have ht0 : ∀ v : Nat, -1 ≤ (norm_trigger v : α) := fun v =>
          le_trans (by norm_num) (ht v).1
        simp only [List.mem_cons, List.mem_singleton, List.not_mem_nil, or_false] at hs
        rcases hs with rfl | rfl | rfl | rfl | rfl | rfl
        · exact norm_thumb_mem _
        · exact norm_thumb_mem _
        · exact norm_thumb_mem _
        · exact norm_thumb_mem _
        · exact ⟨ht0 _, (ht _).2⟩
        · exact ⟨ht0 _, (ht _).2⟩

theorem pollWinMM_values (interval : Int) (state : DeviceState α) (tr : AxisLastTrigger)
    (now : Int) (reading : Option JOYINFOEX) (calls : List (Dispatch α))
    (state' : DeviceState α) (tr' : AxisLastTrigger)
    (h : pollWinMM interval state tr now reading = some (calls, state', tr')) :
    ∀ e, Dispatch.axisAbsolute e ∈ calls → -1 ≤ e.axis_value ∧ e.axis_value ≤ 1 := by
  intro e he
  cases reading with
  | none =>
    simp only [pollWinMM, Option.some.injEq, Prod.mk.injEq] at h
    rw [← h.1] at he
    cases he
  | some info =>
    simp only [pollWinMM] at h
    cases h1 : winmmAxes interval now
        (pollButtons 32 { state with connected := true } info.dwButtons).2 tr 0
        [info.dwXpos, info.dwYpos, info.dwZpos, info.dwRpos, info.dwUpos, info.dwVpos] with
    | none => simp [h1] at h
    | some r1 =>
      obtain ⟨evs, s1, t1⟩ := r1
      simp only [h1, Option.some.injEq, Prod.mk.injEq] at h
      rw [← h.1, List.mem_append] at he
      cases he with
      | inl hl => simp at hl
      | inr hr =>
        obtain ⟨e1, he1, heq⟩ := List.mem_map.1 hr
        cases heq
        exact winmmAxes_values interval now _ _ _ _ _ _ _ h1 e he1

end NormalizedPass

/-! ### The percent value is monotone in the raw value -/

section Monotone

variable {α : Type} [LinearOrderedField α]

theorem clamp_mono (v w lo hi : α) (h : v ≤ w) (hlh : lo ≤ hi) :
    clamp v lo hi ≤ clamp w lo hi := by
  unfold clamp
  split_ifs <;> linarith

theorem effectiveMin_lt_effectiveMax (b : JoypadBinding α) :
    effectiveMin b < effectiveMax b := by
  unfold effectiveMin effectiveMax
  split_ifs with h
  · norm_num
  · exact not_le.1 h

/-- Lines 330-356 for every range: the curve applied to the clamped linear percent over the
range that the code works with. -/
theorem percentAxisVolume_shape (pow : α → α → α) (b : JoypadBinding α) (raw : α) :
    percentAxisVolume pow b raw =
      clamp (pow (clamp (clamp
        (if b.axis_direction = JoypadAxisDirection.Negative then
          100 - (raw - effectiveMin b) / (effectiveMax b - effectiveMin b) * 100
        else (raw - effectiveMin b) / (effectiveMax b - effectiveMin b) * 100) 0 100 / 100)
        0 1) (effectiveGamma b) * 100) 0 100 := by
  unfold percentAxisVolume effectiveMin effectiveMax
  simp only [percent_tests_eq_clamp, effectiveGamma_eq]

/-- With a power that is monotone in a nonnegative base, the percent value is monotone in
the raw value: non-decreasing unless the direction is `Negative`, non-increasing when it
is. -/
theorem percentAxisVolume_mono (pow : α → α → α)
    (hpow : ∀ x y g : α, 0 ≤ x → x ≤ y → 0 < g → pow x g ≤ pow y g)
    (b : JoypadBinding α) (r1 r2 : α) (h : r1 ≤ r2) :
    (b.axis_direction ≠ JoypadAxisDirection.Negative →
        percentAxisVolume pow b r1 ≤ percentAxisVolume pow b r2) ∧
      (b.axis_direction = JoypadAxisDirection.Negative →
        percentAxisVolume pow b r2 ≤ percentAxisVolume pow b r1) := by
  have hD : 0 < effectiveMax b - effectiveMin b := sub_pos.2 (effectiveMin_lt_effectiveMax b)
  have hq : (r1 - effectiveMin b) / (effectiveMax b - effectiveMin b) * 100 ≤
      (r2 - effectiveMin b) / (effectiveMax b - effectiveMin b) * 100 := by
    apply mul_le_mul_of_nonneg_right _ (by norm_num)
    exact div_le_div_of_nonneg_right (by linarith) (le_of_lt hD)
  have hcurve : ∀ p1 p2 : α, p1 ≤ p2 →
      clamp (pow (clamp (clamp p1 0 100 / 100) 0 1) (effectiveGamma b) * 100) 0 100 ≤
        clamp (pow (clamp (clamp p2 0 100 / 100) 0 1) (effectiveGamma b) * 100) 0 100 := by
    intro p1 p2 hp
    apply clamp_mono _ _ _ _ _ (by norm_num)
    apply mul_le_mul_of_nonneg_right _ (by norm_num)
    apply hpow _ _ _ (clamp_mem _ 0 1 (by norm_num)).1 _ (effectiveGamma_pos b)
    apply clamp_mono _ _ _ _ _ (by norm_num)
    apply div_le_div_of_nonneg_right _ (by norm_num)
    exact clamp_mono _ _ _ _ hp (by norm_num)
  constructor
  · intro hdir
    rw [percentAxisVolume_shape, percentAxisVolume_shape, if_neg hdir, if_neg hdir]
    exact hcurve _ _ hq
  · intro hdir
    rw [percentAxisVolume_shape, percentAxisVolume_shape, if_pos hdir, if_pos hdir]
    exact hcurve _ _ (by linarith)

theorem MapRawToPercentWithGamma_eq (pow : α → α → α) (b : JoypadBinding α) (r : α) :
    MapRawToPercentWithGamma pow b r = percentAxisVolume pow b r := by
  unfold MapRawToPercentWithGamma percentAxisVolume
  simp only [percent_tests_eq_clamp]

theorem rpow_mono_base (x y g : ℝ) (hx : 0 ≤ x) (hxy : x ≤ y) (hg : 0 < g) :
    x ^ g ≤ y ^ g :=
  Real.rpow_le_rpow hx hxy (le_of_lt hg)

end Monotone

/-! ### The enumeration of the devices -/

section EnumerationLemmas

open JoypadInputManager

variable {α : Type} [LinearOrderedField α]

omit [LinearOrderedField α] in
theorem find_existing_some (ds : List (DeviceState α)) (id : String) (s : DeviceState α)
    (h : find_existing ds id = some s) : s ∈ ds ∧ s.id = id := by
  unfold find_existing at h
  exact ⟨List.mem_of_find?_eq_some h, by simpa using List.find?_some h⟩

omit [LinearOrderedField α] in
/-- In a table without two states of the same id, `find_existing` finds each state under
its id. -/
theorem find_existing_of_mem (ds : List (DeviceState α))
    (hnd : (ds.map fun s => s.id).Nodup) (s : DeviceState α) (hs : s ∈ ds) :
    find_existing ds s.id = some s := by
  induction ds with
  | nil => cases hs
  | cons d rest ih =>
    rw [List.map_cons, List.nodup_cons] at hnd
    unfold find_existing
    rw [List.find?_cons]
    by_cases hd : d.id = s.id
    · simp only [hd, decide_True]
      rcases List.mem_cons.1 hs with h | h
      · rw [h]
      · exact absurd (List.mem_map.2 ⟨s, h, hd.symm⟩) hnd.1
    · simp only [hd, decide_False]
      rcases List.mem_cons.1 hs with h | h
      · exact absurd (h ▸ rfl) hd
      · exact ih hnd.2 h

omit [LinearOrderedField α] in
theorem Preserved.refl (s : DeviceState α) : Preserved s s :=
  ⟨rfl, rfl, rfl, rfl, rfl⟩

omit [LinearOrderedField α] in
/-- A loop of `RefreshDevices` appends the states that its body pushes, and their infos. -/
theorem enumerateLoop_eq {β : Type} (body : β → Option (DeviceState α)) (items : List β)
    (next : List JoypadDeviceInfo × List (DeviceState α)) :
    enumerateLoop body items next =
      (next.1 ++ (items.filterMap body).map DeviceState.info,
        next.2 ++ items.filterMap body) := by
  unfold enumerateLoop
  induction items generalizing next with
  | nil => simp
  | cons x rest ih =>
    rw [List.foldl_cons, ih]
    cases hx : body x with
    | none => simp [List.filterMap_cons, hx]
    | some s => simp [List.filterMap_cons, hx, pushDevice, DeviceState.info]

/-- What the body of the `readdir` loop pushes: the state found under the id of the entry,
or a new state on the descriptor that `open` gives. -/
theorem Linux.enumerateEntry_some (ds : List (DeviceState α)) (ent : DirEntry)
    (s : DeviceState α) (h : Linux.enumerateEntry ds ent = some s) :
    ent.d_name.data.take 2 = "js".data ∧ s.id = "js:" ++ ent.d_name ∧
      (find_existing ds ("js:" ++ ent.d_name) = some s ∨
        (find_existing ds ("js:" ++ ent.d_name) = none ∧ 0 ≤ ent.open_fd ∧
          s.fd = ent.open_fd)) := by
  unfold Linux.enumerateEntry at h
  by_cases hp : ent.d_name.data.take 2 ≠ "js".data
  · rw [if_pos hp] at h
    cases h
  · rw [if_neg hp] at h
    refine ⟨not_not.1 hp, ?_⟩
    cases hf : find_existing ds ("js:" ++ ent.d_name) with
    | some e =>
      simp only [hf, Option.some.injEq] at h
      subst h
      exact ⟨(find_existing_some ds _ _ hf).2, Or.inl rfl⟩
    | none =>
      simp only [hf] at h
      by_cases hfd : ent.open_fd < 0
      · rw [if_pos hfd] at h
        cases h
      · rw [if_neg hfd, Option.some.injEq] at h
        subst h
        exact ⟨rfl, Or.inr ⟨rfl, not_lt.1 hfd, rfl⟩⟩

theorem Linux.RefreshDevices_some (m : Devices α) (entries : List DirEntry) :
    (Linux.RefreshDevices m (some entries)).device_states =
        entries.filterMap (Linux.enumerateEntry m.device_states) ∧
      (Linux.RefreshDevices m (some entries)).devices =
        (entries.filterMap (Linux.enumerateEntry m.device_states)).map DeviceState.info ∧
      (Linux.RefreshDevices m (some entries)).running = m.running := by
  unfold Linux.RefreshDevices
  simp only [enumerateLoop_eq, List.nil_append, and_self]

/-- What the body of the XInput loop pushes. -/
theorem Win32.xinputEntry_some (ds : List (DeviceState α)) (xinput_ok : Nat → Bool) (i : Nat)
    (s : DeviceState α) (h : Win32.xinputEntry ds xinput_ok i = some s) :
    xinput_ok i = true ∧ s.id = "xinput:" ++ toString i ∧
      (find_existing ds ("xinput:" ++ toString i) = some s ∨
        find_existing ds ("xinput:" ++ toString i) = none) := by
  unfold Win32.xinputEntry at h
  cases hok : xinput_ok i with
  | false => simp [hok] at h
  | true =>
    simp only [hok, Bool.not_true, Bool.false_eq_true, if_false] at h
    refine ⟨rfl, ?_⟩
    cases hf : find_existing ds ("xinput:" ++ toString i) with
    | some e =>
      simp only [hf, Option.some.injEq] at h
      subst h
      exact ⟨(find_existing_some ds _ _ hf).2, Or.inl rfl⟩
    | none =>
      simp only [hf, Option.some.injEq] at h
      subst h
      exact ⟨rfl, Or.inr rfl⟩

/-- What the body of the WinMM loop pushes. -/
theorem Win32.winmmEntry_some (ds : List (DeviceState α)) (xinput_present : Bool)
    (joy : Nat → Option JoyDevice) (id : Nat) (s : DeviceState α)
    (h : Win32.winmmEntry ds xinput_present joy id = some s) :
    (joy id).isSome = true ∧ s.id = "winmm:" ++ toString id ∧
      ((∃ e, find_existing ds ("winmm:" ++ toString id) = some e ∧ Preserved e s) ∨
        find_existing ds ("winmm:" ++ toString id) = none) := by
  unfold Win32.winmmEntry at h
  cases hj : joy id with
  | none => simp [hj] at h
  | some dev =>
    simp only [hj] at h
    refine ⟨rfl, ?_⟩
    cases hf : find_existing ds ("winmm:" ++ toString id) with
    | some e =>
      simp only [hf] at h
      split_ifs at h
      simp only [Option.some.injEq] at h
      subst h
      exact ⟨(find_existing_some ds _ _ hf).2, Or.inl ⟨e, rfl, rfl, rfl, rfl, rfl, rfl⟩⟩
    | none =>
      simp only [hf] at h
      split_ifs at h <;>
      · simp only [Option.some.injEq] at h
        subst h
        exact ⟨rfl, Or.inr rfl⟩

theorem Win32.RefreshDevices_eq (m : Devices α) (xinput_ok : Nat → Bool) (count : Nat)
    (joy : Nat → Option JoyDevice) :
    (Win32.RefreshDevices m xinput_ok count joy).device_states =
        (List.range Win32.XUSER_MAX_COUNT).filterMap (Win32.xinputEntry m.device_states xinput_ok) ++
          (List.range count).filterMap
            (Win32.winmmEntry m.device_states ((List.range Win32.XUSER_MAX_COUNT).any xinput_ok)
              joy) ∧
      (Win32.RefreshDevices m xinput_ok count joy).devices =
        (Win32.RefreshDevices m xinput_ok count joy).device_states.map DeviceState.info := by
  unfold Win32.RefreshDevices
  simp only [enumerateLoop_eq, List.nil_append, List.map_append, and_self]

omit [LinearOrderedField α] in
theorem find_existing_none (ds : List (DeviceState α)) (id : String)
    (h : find_existing ds id = none) : ∀ s ∈ ds, s.id ≠ id := by
  unfold find_existing at h
  intro s hs
  simpa using List.find?_eq_none.1 h s hs

omit [LinearOrderedField α] in
/-- After `Stop` on a running manager no state holds an open descriptor, and the ids are
as before. -/
theorem Linux.Stop_states (m : Devices α) (h : m.running = true) :
    (Linux.Stop m).running = false ∧
      (∀ s ∈ (Linux.Stop m).device_states, s.fd < 0) ∧
      ∀ s ∈ m.device_states, ∃ s' ∈ (Linux.Stop m).device_states, s'.id = s.id := by
  unfold Linux.Stop
  simp only [h, Bool.not_true, Bool.false_eq_true, if_false, true_and]
  constructor
  · intro s hs
    obtain ⟨s0, _, rfl⟩ := List.mem_map.1 hs
    split_ifs with hfd
    · show (-1 : Int) < 0
      decide
    · exact not_le.1 hfd
  · intro s hs
    refine ⟨_, List.mem_map.2 ⟨s, hs, rfl⟩, ?_⟩
    split_ifs <;> rfl

/-- The poll loop skips a state whose descriptor is negative, whatever the device file
holds. -/
theorem linuxPollDevice_closed (interval : Int) (state : DeviceState α)
    (tr : AxisLastTrigger) (now : Int) (records : List js_event) (h : state.fd < 0) :
    linuxPollDevice interval state tr now records = some ([], state, tr) := by
  unfold linuxPollDevice
  rw [if_pos h]

/-- A state that `Stop` and `Start` carry over has a closed descriptor. -/
theorem Linux.Start_Stop_fd (m : Devices α) (entries : List DirEntry)
    (h : m.running = true) (s' : DeviceState α)
    (hs' : s' ∈ (Linux.Start (Linux.Stop m) (some entries)).device_states)
    (hold : ∃ s ∈ m.device_states, s.id = s'.id) : s'.fd < 0 := by
  obtain ⟨hrun, hfd, hids⟩ := Linux.Stop_states m h
  unfold Linux.Start at hs'
  rw [hrun] at hs'
  simp only [Bool.false_eq_true, if_false] at hs'
  rw [(Linux.RefreshDevices_some _ entries).1] at hs'
  obtain ⟨ent, _, hent⟩ := List.mem_filterMap.1 hs'
  obtain ⟨_, hid, hcase⟩ := Linux.enumerateEntry_some _ ent s' hent
  rcases hcase with hex | ⟨hnone, _, _⟩
  · exact hfd s' (find_existing_some _ _ _ hex).1
  · obtain ⟨s, hs, hsid⟩ := hold
    obtain ⟨s1, hs1, hs1id⟩ := hids s hs
    exact absurd (hs1id.trans (hsid.trans hid)) (find_existing_none _ _ hnone s1 hs1)

end EnumerationLemmas

section EnumerationKept

open JoypadInputManager

variable {α : Type} [LinearOrderedField α]

omit [LinearOrderedField α] in
/-- From the states found by `find_existing` to the states of a table without two states
of the same id. -/
theorem preserved_of_nodup (ds new : List (DeviceState α))
    (h : ∀ s' ∈ new, ∀ s, find_existing ds s'.id = some s → Preserved s s')
    (hnd : (ds.map fun s => s.id).Nodup) :
    ∀ s ∈ ds, ∀ s' ∈ new, s'.id = s.id → Preserved s s' := by
  intro s hs s' hs' hid
  apply h s' hs' s
  rw [hid]
  exact find_existing_of_mem ds hnd s hs

theorem Linux.RefreshDevices_kept (m : Devices α) (entries : List DirEntry) :
    ∀ s' ∈ (Linux.RefreshDevices m (some entries)).device_states,
      ∀ s, find_existing m.device_states s'.id = some s → s' = s := by
  intro s' hs' s hf
  rw [(Linux.RefreshDevices_some m entries).1] at hs'
  obtain ⟨ent, _, hent⟩ := List.mem_filterMap.1 hs'
  obtain ⟨_, hid, hcase⟩ := Linux.enumerateEntry_some _ ent s' hent
  rw [hid] at hf
  rcases hcase with hex | ⟨hnone, _, _⟩
  · rw [hex] at hf
    exact Option.some.inj hf
  · rw [hnone] at hf
    cases hf

theorem Win32.RefreshDevices_keeps_members (m : Devices α) (xinput_ok : Nat → Bool) (count : Nat)
    (joy : Nat → Option JoyDevice) :
    ∀ s' ∈ (Win32.RefreshDevices m xinput_ok count joy).device_states,
      ∀ s, find_existing m.device_states s'.id = some s → Preserved s s' := by
  intro s' hs' s hf
  rw [(Win32.RefreshDevices_eq m xinput_ok count joy).1, List.mem_append] at hs'
  rcases hs' with hx | hw
  · obtain ⟨i, _, hent⟩ := List.mem_filterMap.1 hx
    obtain ⟨_, hid, hcase⟩ := Win32.xinputEntry_some _ _ i s' hent
    rw [hid] at hf
    rcases hcase with hex | hnone
    · rw [hex] at hf
      cases hf
      exact Preserved.refl s'
    · rw [hnone] at hf
      cases hf
  · obtain ⟨id, _, hent⟩ := List.mem_filterMap.1 hw
    obtain ⟨_, hid, hcase⟩ := Win32.winmmEntry_some _ _ _ id s' hent
    rw [hid] at hf
    rcases hcase with ⟨e, hex, hp⟩ | hnone
    · rw [hex] at hf
      cases hf
      exact hp
    · rw [hnone] at hf
      cases hf

theorem Win32.RefreshDevices_ids (m : Devices α) (xinput_ok : Nat → Bool) (count : Nat)
    (joy : Nat → Option JoyDevice) :
    ∀ s' ∈ (Win32.RefreshDevices m xinput_ok count joy).device_states,
      (∃ i, i < Win32.XUSER_MAX_COUNT ∧ xinput_ok i = true ∧
          s'.id = "xinput:" ++ toString i) ∨
        ∃ id, id < count ∧ (joy id).isSome = true ∧ s'.id = "winmm:" ++ toString id := by
  intro s' hs'
  rw [(Win32.RefreshDevices_eq m xinput_ok count joy).1, List.mem_append] at hs'
  rcases hs' with hx | hw
  · obtain ⟨i, hi, hent⟩ := List.mem_filterMap.1 hx
    obtain ⟨hok, hid, _⟩ := Win32.xinputEntry_some _ _ i s' hent
    exact Or.inl ⟨i, List.mem_range.1 hi, hok, hid⟩
  · obtain ⟨id, hi, hent⟩ := List.mem_filterMap.1 hw
    obtain ⟨hj, hid, _⟩ := Win32.winmmEntry_some _ _ _ id s' hent
    exact Or.inr ⟨id, List.mem_range.1 hi, hj, hid⟩

end EnumerationKept
end Lemmas

/-! ## Claims -/

section Claims

variable {α : Type} [LinearOrderedField α]

/-- C1. Soundness of `FindMatchingBindings`: for every binding list, latch table and event,
every returned binding is enabled, has a device filter that is empty or equal to the event's
`device_id`, and matches the input kind of the event: a returned button binding means a
non-axis event with the same button number, a returned axis binding means an axis event with
the same `axis_index`. -/
theorem FindMatchingBindings_sound (pow : α → α → α) (bindings : List (JoypadBinding α))
    (axis_active : AxisActive) (event : JoypadEvent α) :
    ∀ r ∈ (FindMatchingBindings pow bindings axis_active event).1,
      r.enabled = true ∧ (r.device_id = "" ∨ r.device_id = event.device_id) ∧
      (r.input_type = JoypadInputType.Button →
        event.is_axis = false ∧ r.button = event.button) ∧
      (r.input_type = JoypadInputType.Axis →
        event.is_axis = true ∧ r.axis_index = event.axis_index) := by
  intro r hr
  obtain ⟨b, -, m0, hm0⟩ := FindMatchingBindings_mem pow event bindings axis_active r hr
  obtain ⟨h1, h2, h3, h4, h5⟩ := matchBinding_some pow event m0 b r hm0
  unfold SameButVolume at h5
  rw [h5]
  exact ⟨h1, h2, fun hb => ⟨(h3 hb).1, (h3 hb).2.1⟩, h4⟩

/-- C1, at a concrete input: the scene button is returned for a press of button 3 and has
the promised properties. -/
theorem FindMatchingBindings_sound_witness :
    sceneButton.enabled = true ∧
      (sceneButton.device_id = "" ∨ sceneButton.device_id = (buttonEvent 3).device_id) ∧
      (sceneButton.input_type = JoypadInputType.Button →
        (buttonEvent 3).is_axis = false ∧ sceneButton.button = (buttonEvent 3).button) ∧
      (sceneButton.input_type = JoypadInputType.Axis →
        (buttonEvent 3).is_axis = true ∧
          sceneButton.axis_index = (buttonEvent 3).axis_index) :=
  FindMatchingBindings_sound (fun x _ => x) [stickBinding, sceneButton] [] (buttonEvent 3)
    sceneButton (by decide!)

/-- C2. Button bindings are matched exactly and passed through unchanged: for every binding
list and non-axis event the result is the stored list filtered by "enabled, button binding,
same button number, device filter empty or equal to the event's device", so every returned
binding is a stored one, equal in every field (`volume_value` included), and a stored button
binding is returned if and only if it is enabled, its button number is the event's and its
device filter is empty or the event's device.  The latch table is left as it was. -/
theorem button_bindings_exact (pow : α → α → α) (bindings : List (JoypadBinding α))
    (axis_active : AxisActive) (event : JoypadEvent α) (hev : event.is_axis = false) :
    FindMatchingBindings pow bindings axis_active event =
        (bindings.filter (buttonMatch event), axis_active) ∧
      ∀ b : JoypadBinding α, b.input_type = JoypadInputType.Button →
        (b ∈ (FindMatchingBindings pow bindings axis_active event).1 ↔
          b ∈ bindings ∧ b.enabled = true ∧ b.button = event.button ∧
            (b.device_id = "" ∨ b.device_id = event.device_id)) := by
  have h := FindMatchingBindings_of_button_event pow event bindings axis_active hev
  refine ⟨h, fun b hb => ?_⟩
  rw [h]
  simp [buttonMatch, deviceOk, hb, and_assoc]

/-- C2, at a concrete input: of a stick binding and the scene button, a press of button 3
returns the scene button, as stored. -/
theorem button_bindings_exact_witness :
    FindMatchingBindings (fun x _ => x) [stickBinding, sceneButton] [] (buttonEvent 3) =
        ([stickBinding, sceneButton].filter (buttonMatch (buttonEvent 3)), []) ∧
      ∀ b : JoypadBinding ℚ, b.input_type = JoypadInputType.Button →
        (b ∈ (FindMatchingBindings (fun x _ => x) [stickBinding, sceneButton] []
            (buttonEvent 3)).1 ↔
          b ∈ [stickBinding, sceneButton] ∧ b.enabled = true ∧
            b.button = (buttonEvent 3).button ∧
            (b.device_id = "" ∨ b.device_id = (buttonEvent 3).device_id)) :=
  button_bindings_exact (fun x _ => x) [stickBinding, sceneButton] [] (buttonEvent 3) rfl

/-- C3. Hysteresis gate of a single binding.  For a store holding one enabled non-percent
axis binding with direction Both, empty device filter and threshold `t > 0`, and any sequence
of axis events on its axis from one device, starting with the latch inactive: the binding is
returned for an event exactly when the specified latch (`latchNext`: on at `|value| >= t`
while inactive, off at `|value| < 0.4 * t` while active) is active after that event.  With
`t = 0.5` the sequence 0.3, 0.45, 0.5, 0.3, 0.2, 0.19, 0.45, 0.5 returns the binding exactly
on the samples 0.5, 0.3, 0.2 and the final 0.5. -/
theorem hysteresis_single_binding :
    (∀ (α : Type) [LinearOrderedField α] (pow : α → α → α) (b : JoypadBinding α)
        (dev : String) (axis_active : AxisActive) (events : List (JoypadEvent α)),
        b.enabled = true → b.input_type = JoypadInputType.Axis →
        b.action ≠ JoypadActionType.SetSourceVolumePercent →
        b.axis_direction = JoypadAxisDirection.Both → b.device_id = "" →
        0 < b.axis_threshold →
        (∀ e ∈ events,
          e.is_axis = true ∧ e.axis_index = b.axis_index ∧ e.device_id = dev) →
        axis_active.get (dev ++ ":" ++ toString b.axis_index ++ ":" ++ toString (0 : Int)) =
          false →
        (processEvents pow [b] axis_active events).1 =
          List.zipWith
            (fun e latch => if latch = true then [adjusted b e.axis_value] else [])
            events
            (latchTrace b.axis_threshold false (events.map fun e => e.axis_value))) ∧
      (processEvents (fun x _ => x) [stickBinding] [] (hysteresisSamples.map stickEvent)).1 =
        [[], [], [stickBinding], [stickBinding], [stickBinding], [], [], [stickBinding]] := by
  refine ⟨?_, by decide!⟩
  intro α _ pow b dev m events hen hty hact hdir hdev _ hev hm
  have h := processEvents_single_gated pow b dev hen hty hact hdir hdev events m hev
  rw [hdir] at h
  rw [h]
  have h0 : JoypadAxisDirection.Both.toInt = 0 := rfl
  rw [h0, hm]

/-- C3, at a concrete input: the hysteresis scenario as an instance of the general
statement. -/
theorem hysteresis_single_binding_witness :
    (processEvents (fun x _ => x) [stickBinding] [] (hysteresisSamples.map stickEvent)).1 =
      List.zipWith
        (fun e latch => if latch = true then [adjusted stickBinding e.axis_value] else [])
        (hysteresisSamples.map stickEvent)
        (latchTrace stickBinding.axis_threshold false
          ((hysteresisSamples.map stickEvent).map fun e => e.axis_value)) :=
  hysteresis_single_binding.1 ℚ (fun x _ => x) stickBinding "pad" []
    (hysteresisSamples.map stickEvent) rfl rfl (by decide) rfl rfl (by decide!)
    (by decide!) rfl

/-- C4. A binding should only activate at its own trigger threshold, whatever else is in
the store.  The code does not keep to this: the latch is stored under device, axis and
direction, so bindings that differ only in threshold share it.  With the "Any" binding
(threshold 0.0) stored before the "Strong" binding (threshold 0.5) on the same axis, the very
first event, of value 0.3, returns both bindings from an empty latch table, although no
event has reached 0.5; a store holding the "Strong" binding alone returns nothing for the
same event. -/
theorem shared_latch_fires_below_threshold :
    (processEvents (fun x _ => x) [anyPushBinding, stickBinding] [] [stickEvent 0.3]).1 =
        [[anyPushBinding, stickBinding]] ∧
      |(stickEvent 0.3).axis_value| < stickBinding.axis_threshold ∧
      (processEvents (fun x _ => x) [stickBinding] [] [stickEvent 0.3]).1 = [[]] ∧
      axisKey (stickEvent 0.3) anyPushBinding = axisKey (stickEvent 0.3) stickBinding := by
  decide!

/-- C5. Direction filter: a returned non-percent axis binding with direction Positive means
that the event's `axis_value` is not negative, one with direction Negative means that it is
negative (zero counts as positive); and a binding with direction Both is not filtered by
sign: the loop body takes the same decision, and leaves the same latch table, for a sample
and for its negation. -/
theorem direction_filter (pow : α → α → α) (bindings : List (JoypadBinding α))
    (axis_active : AxisActive) (event : JoypadEvent α) :
    (∀ r ∈ (FindMatchingBindings pow bindings axis_active event).1,
      r.input_type = JoypadInputType.Axis →
      r.action ≠ JoypadActionType.SetSourceVolumePercent →
        (r.axis_direction = JoypadAxisDirection.Positive → ¬ event.axis_value < 0) ∧
        (r.axis_direction = JoypadAxisDirection.Negative → ¬ 0 ≤ event.axis_value)) ∧
      ∀ b : JoypadBinding α, b.axis_direction = JoypadAxisDirection.Both →
        ∀ m0 : AxisActive,
          (matchBinding pow { event with axis_value := -event.axis_value } m0 b).1.isSome =
              (matchBinding pow event m0 b).1.isSome ∧
            (matchBinding pow { event with axis_value := -event.axis_value } m0 b).2 =
              (matchBinding pow event m0 b).2 := by
  refine ⟨?_, fun b hb m0 => matchBinding_neg_of_both pow event m0 b hb⟩
  intro r hr hty hact
  obtain ⟨b, -, m0, hm0⟩ := FindMatchingBindings_mem pow event bindings axis_active r hr
  obtain ⟨-, -, -, -, hsame⟩ := matchBinding_some pow event m0 b r hm0
  unfold SameButVolume at hsame
  have hty' : b.input_type = JoypadInputType.Axis := by rw [hsame] at hty; exact hty
  have hact' : b.action ≠ JoypadActionType.SetSourceVolumePercent := by
    rw [hsame] at hact; exact hact
  have hdir' : r.axis_direction = b.axis_direction := by rw [hsame]
  constructor
  · intro hpos hneg
    have hd := matchBinding_some_dir pow event m0 b r hm0 hty' hact'
      (by rw [← hdir', hpos]; decide)
    rw [← hdir', hpos] at hd
    simp [axisDir, not_le.2 hneg, JoypadAxisDirection.toInt] at hd
  · intro hneg hpos
    have hd := matchBinding_some_dir pow event m0 b r hm0 hty' hact'
      (by rw [← hdir', hneg]; decide)
    rw [← hdir', hneg] at hd
    simp [axisDir, hpos, JoypadAxisDirection.toInt] at hd

/-- C5, at a concrete input: the positive-only binding is returned for the sample 0.7, from
which the theorem concludes that 0.7 is not negative. -/
theorem direction_filter_witness :
    pushUpBinding ∈
        (FindMatchingBindings (fun x _ => x) [pushUpBinding] [] (stickEvent 0.7)).1 ∧
      (FindMatchingBindings (fun x _ => x) [pushUpBinding] [] (stickEvent (-0.7))).1 = [] ∧
      ¬ (stickEvent 0.7).axis_value < 0 :=
  ⟨by decide!, by decide!,
    ((direction_filter (fun x _ => x) [pushUpBinding] [] (stickEvent 0.7)).1 pushUpBinding
      (by decide!) rfl (by decide)).1 rfl⟩

/-- C6. Percent-axis bindings are always live: an enabled stored axis binding whose action
is `SetSourceVolumePercent` is returned (with its percent value as `volume_value`) for every
axis event with its `axis_index` that passes its device filter, whatever the event's
`axis_value`, the binding's direction and threshold, and the latch table; and a store that
holds only such bindings leaves the latch table unchanged. -/
theorem percent_bindings_always_live (pow : α → α → α) (bindings : List (JoypadBinding α))
    (axis_active : AxisActive) (event : JoypadEvent α) :
    (∀ b ∈ bindings, b.enabled = true → b.input_type = JoypadInputType.Axis →
      b.action = JoypadActionType.SetSourceVolumePercent →
      event.is_axis = true → b.axis_index = event.axis_index →
      (b.device_id = "" ∨ b.device_id = event.device_id) →
      { b with volume_value := percentAxisVolume pow b event.axis_raw_value } ∈
        (FindMatchingBindings pow bindings axis_active event).1) ∧
      ((∀ b ∈ bindings, b.enabled = true ∧ b.input_type = JoypadInputType.Axis ∧
          b.action = JoypadActionType.SetSourceVolumePercent) →
        (FindMatchingBindings pow bindings axis_active event).2 = axis_active) := by
  constructor
  · intro b hb hen hty hact hax hidx hdev
    exact FindMatchingBindings_mem_of_forall pow event bindings axis_active b _ hb
      (fun m0 => matchBinding_percent_some pow event m0 b hen hty hact hax hidx hdev)
  · intro hall
    exact FindMatchingBindings_snd_of_forall pow event bindings axis_active
      (fun b hb m0 => matchBinding_snd_of_percent pow event m0 b (hall b hb).2.2)

/-- C6, at a concrete input: a slider with direction Negative and threshold 0.5 is returned
for a sample of value 0 while the latch table holds an inactive entry, and that table is
left as it was. -/
theorem percent_bindings_always_live_witness :
    { ({ faderBinding 1 with axis_direction := .Negative } : JoypadBinding ℚ) with
        volume_value :=
          percentAxisVolume (fun x _ => x)
            ({ faderBinding 1 with axis_direction := .Negative } : JoypadBinding ℚ)
            (faderEvent 256 0 : JoypadEvent ℚ).axis_raw_value } ∈
        (FindMatchingBindings (fun x _ => x)
          [({ faderBinding 1 with axis_direction := .Negative } : JoypadBinding ℚ)]
          [("pad:0:-1", false)] (faderEvent 256 0)).1 ∧
      (FindMatchingBindings (fun x _ => x)
          [({ faderBinding 1 with axis_direction := .Negative } : JoypadBinding ℚ)]
          [("pad:0:-1", false)] (faderEvent 256 0)).2 = [("pad:0:-1", false)] :=
  ⟨(percent_bindings_always_live (fun x _ => x) _ [("pad:0:-1", false)]
      (faderEvent 256 0)).1 _ (List.mem_singleton.2 rfl) rfl rfl rfl rfl rfl (Or.inl rfl),
    (percent_bindings_always_live (fun x _ => x) _ [("pad:0:-1", false)]
      (faderEvent 256 0)).2 (by decide!)⟩

/-- C7, as stated, fails for a `slider_gamma` that is not positive: with `slider_gamma = 0`,
range 0..1024 and raw value 512 the code returns `100 * 0.5 ^ 0.6`, not the
`100 * 0.5 ^ clamp(0, 0.1, 50) = 100 * 0.5 ^ 0.1` of the claim. -/
theorem percent_formula_counterexample :
    (FindMatchingBindings (fun x y : ℝ => x ^ y) [faderBinding 0] [] (faderEvent 512 0)).1 =
        [{ (faderBinding 0 : JoypadBinding ℝ) with
            volume_value := 100 * (1 / 2 : ℝ) ^ (0.6 : ℝ) }] ∧
      (FindMatchingBindings (fun x y : ℝ => x ^ y) [faderBinding 0] [] (faderEvent 512 0)).1 ≠
        [{ (faderBinding 0 : JoypadBinding ℝ) with
            volume_value :=
              100 * (linearPercent (faderBinding (0 : ℝ)) 512 / 100) ^
                clamp (faderBinding (0 : ℝ)).slider_gamma 0.1 50 }] := by
  have hrun := FindMatchingBindings_single_percent_real (faderBinding 0) [] (faderEvent 512 0)
    rfl rfl rfl rfl rfl (Or.inl rfl)
    (by show (0 : ℝ) < 1024; norm_num)
  have hraw : (faderEvent (512 : ℝ) 0).axis_raw_value = 512 := rfl
  have hg : effectiveGamma (faderBinding (0 : ℝ)) = 0.6 := by
    simp [effectiveGamma, faderBinding]
  have hc : clamp (faderBinding (0 : ℝ)).slider_gamma 0.1 50 = 0.1 := by
    norm_num [clamp, faderBinding]
  rw [hraw, linearPercent_fader_half, hg] at hrun
  have h50 : (50 : ℝ) / 100 = 1 / 2 := by norm_num
  rw [h50] at hrun
  refine ⟨hrun, ?_⟩
  rw [hrun, linearPercent_fader_half, hc, h50]
  apply volume_ne_of_ne
  have hlt : (1 / 2 : ℝ) ^ (0.6 : ℝ) < (1 / 2 : ℝ) ^ (0.1 : ℝ) :=
    Real.rpow_lt_rpow_of_exponent_gt (by norm_num) (by norm_num) (by norm_num)
  intro heq
  linarith

/-- C7, amended.  Over the reals, with the real power for `std::pow`: a stored enabled
`SetSourceVolumePercent` axis binding with `axis_max_value > axis_min_value` is returned, for
an axis event on its axis that passes its device filter, with `volume_value` equal to
`100 * (p / 100) ^ g`, where `p` is the linear percent `linearPercent` of the raw value and
`g` is `clamp(slider_gamma, 0.1, 50)` when `slider_gamma > 0` and 0.6 otherwise; the value
lies in `[0, 100]` and does not depend on the configured `volume_value`.  For range 0..1024,
gamma 0.6 and raw 512 the value is `100 * 0.5 ^ 0.6`, between 65.97 and 65.99; for gamma 2
and raw 512 (percent 50) it is 25. -/
theorem percent_formula :
    (∀ (bindings : List (JoypadBinding ℝ)) (axis_active : AxisActive) (event : JoypadEvent ℝ)
        (b : JoypadBinding ℝ),
        b ∈ bindings → b.enabled = true → b.input_type = JoypadInputType.Axis →
        b.action = JoypadActionType.SetSourceVolumePercent →
        event.is_axis = true → b.axis_index = event.axis_index →
        (b.device_id = "" ∨ b.device_id = event.device_id) →
        b.axis_min_value < b.axis_max_value →
        { b with volume_value :=
            100 * (linearPercent b event.axis_raw_value / 100) ^
              (if b.slider_gamma > 0 then clamp b.slider_gamma 0.1 50 else 0.6) } ∈
            (FindMatchingBindings (fun x y : ℝ => x ^ y) bindings axis_active event).1 ∧
          0 ≤ 100 * (linearPercent b event.axis_raw_value / 100) ^
              (if b.slider_gamma > 0 then clamp b.slider_gamma 0.1 50 else 0.6) ∧
          100 * (linearPercent b event.axis_raw_value / 100) ^
              (if b.slider_gamma > 0 then clamp b.slider_gamma 0.1 50 else 0.6) ≤ 100) ∧
      ((FindMatchingBindings (fun x y : ℝ => x ^ y) [faderBinding 0.6] []
            (faderEvent 512 0)).1 =
          [{ (faderBinding 0.6 : JoypadBinding ℝ) with
              volume_value := 100 * (0.5 : ℝ) ^ (0.6 : ℝ) }] ∧
        (65.97 : ℝ) < 100 * (0.5 : ℝ) ^ (0.6 : ℝ) ∧
        100 * (0.5 : ℝ) ^ (0.6 : ℝ) < 65.99) ∧
      (FindMatchingBindings (fun x y : ℝ => x ^ y) [faderBinding 2] []
          (faderEvent 512 0)).1 =
        [{ (faderBinding 2 : JoypadBinding ℝ) with volume_value := 25 }] := by
  have h50 : (50 : ℝ) / 100 = 0.5 := by norm_num
  have hhalf : (0.5 : ℝ) = 1 / 2 := by norm_num
  refine ⟨?_, ⟨?_, ?_, ?_⟩, ?_⟩
  · intro bindings axis_active event b hb hen hty hact hax hidx hdev hrange
    obtain ⟨hv, h0, h1⟩ := percentAxisVolume_real b event.axis_raw_value hrange
    refine ⟨?_, h0, h1⟩
    have hmem := FindMatchingBindings_mem_of_forall (fun x y : ℝ => x ^ y) event bindings
      axis_active b _ hb
      (fun m0 => matchBinding_percent_some _ event m0 b hen hty hact hax hidx hdev)
    rw [hv] at hmem
    exact hmem
  · have hrun := FindMatchingBindings_single_percent_real (faderBinding 0.6) []
      (faderEvent 512 0) rfl rfl rfl rfl rfl (Or.inl rfl)
      (by show (0 : ℝ) < 1024; norm_num)
    have hraw : (faderEvent (512 : ℝ) 0).axis_raw_value = 512 := rfl
    have hg : effectiveGamma (faderBinding (0.6 : ℝ)) = 0.6 := by
      norm_num [effectiveGamma, faderBinding, clamp]
    rw [hraw, linearPercent_fader_half, hg, h50] at hrun
    exact hrun
  · rw [hhalf]
    linarith [half_rpow_bounds.1]
  · rw [hhalf]
    linarith [half_rpow_bounds.2]
  · have hrun := FindMatchingBindings_single_percent_real (faderBinding 2) []
      (faderEvent 512 0) rfl rfl rfl rfl rfl (Or.inl rfl)
      (by show (0 : ℝ) < 1024; norm_num)
    have hraw : (faderEvent (512 : ℝ) 0).axis_raw_value = 512 := rfl
    have hg : effectiveGamma (faderBinding (2 : ℝ)) = 2 := by
      norm_num [effectiveGamma, faderBinding, clamp]
    rw [hraw, linearPercent_fader_half, hg, Real.rpow_two] at hrun
    rw [hrun]
    norm_num

/-- C7, at a concrete input: the slider with gamma 0.6 at the raw value 512. -/
theorem percent_formula_witness :
    { (faderBinding 0.6 : JoypadBinding ℝ) with
        volume_value :=
          100 * (linearPercent (faderBinding (0.6 : ℝ)) (faderEvent (512 : ℝ) 0).axis_raw_value
              / 100) ^
            (if (faderBinding (0.6 : ℝ)).slider_gamma > 0 then
              clamp (faderBinding (0.6 : ℝ)).slider_gamma 0.1 50 else 0.6) } ∈
        (FindMatchingBindings (fun x y : ℝ => x ^ y) [faderBinding 0.6] []
          (faderEvent 512 0)).1 ∧
      0 ≤ 100 * (linearPercent (faderBinding (0.6 : ℝ)) (faderEvent (512 : ℝ) 0).axis_raw_value
              / 100) ^
            (if (faderBinding (0.6 : ℝ)).slider_gamma > 0 then
              clamp (faderBinding (0.6 : ℝ)).slider_gamma 0.1 50 else 0.6) ∧
      100 * (linearPercent (faderBinding (0.6 : ℝ)) (faderEvent (512 : ℝ) 0).axis_raw_value
              / 100) ^
            (if (faderBinding (0.6 : ℝ)).slider_gamma > 0 then
              clamp (faderBinding (0.6 : ℝ)).slider_gamma 0.1 50 else 0.6) ≤ 100 :=
  percent_formula.1 [faderBinding 0.6] [] (faderEvent 512 0) (faderBinding 0.6)
    (List.mem_singleton.2 rfl) rfl rfl rfl rfl rfl (Or.inl rfl)
    (by show (0 : ℝ) < 1024; norm_num)

/-- C8. Gamma-mapping endpoints.  Over the reals, with the real power for `std::pow`: a
stored enabled `SetSourceVolumePercent` axis binding with `axis_max_value > axis_min_value`
and direction Positive or Both, whatever its `slider_gamma`, is returned with output 0 for an
event on its axis whose raw value is at or below `axis_min_value`, and with output 100 for
one whose raw value is at or above `axis_max_value`. -/
theorem gamma_endpoints (bindings : List (JoypadBinding ℝ)) (axis_active : AxisActive)
    (event : JoypadEvent ℝ) (b : JoypadBinding ℝ) (hb : b ∈ bindings)
    (hen : b.enabled = true) (hty : b.input_type = JoypadInputType.Axis)
    (hact : b.action = JoypadActionType.SetSourceVolumePercent)
    (hax : event.is_axis = true) (hidx : b.axis_index = event.axis_index)
    (hdev : b.device_id = "" ∨ b.device_id = event.device_id)
    (hrange : b.axis_min_value < b.axis_max_value)
    (hdir : b.axis_direction = JoypadAxisDirection.Positive ∨
      b.axis_direction = JoypadAxisDirection.Both) :
    (event.axis_raw_value ≤ b.axis_min_value →
        { b with volume_value := 0 } ∈
          (FindMatchingBindings (fun x y : ℝ => x ^ y) bindings axis_active event).1) ∧
      (b.axis_max_value ≤ event.axis_raw_value →
        { b with volume_value := 100 } ∈
          (FindMatchingBindings (fun x y : ℝ => x ^ y) bindings axis_active event).1) := by
  have hmem := FindMatchingBindings_mem_of_forall (fun x y : ℝ => x ^ y) event bindings
    axis_active b _ hb
    (fun m0 => matchBinding_percent_some _ event m0 b hen hty hact hax hidx hdev)
  rw [(percentAxisVolume_real b event.axis_raw_value hrange).1] at hmem
  have hneg : b.axis_direction ≠ JoypadAxisDirection.Negative := by
    rcases hdir with h | h <;> rw [h] <;> decide
  constructor
  · intro hraw
    rw [linearPercent_of_le_min b _ hrange hneg hraw, zero_div,
      Real.zero_rpow (ne_of_gt (effectiveGamma_pos b)), mul_zero] at hmem
    exact hmem
  · intro hraw
    rw [linearPercent_of_ge_max b _ hrange hneg hraw, div_self (by norm_num),
      Real.one_rpow, mul_one] at hmem
    exact hmem

/-- C8, at a concrete input: the slider with gamma 0.6 at the two ends of its range. -/
theorem gamma_endpoints_witness :
    ((faderEvent (0 : ℝ) 0).axis_raw_value ≤ (faderBinding (0.6 : ℝ)).axis_min_value →
        { (faderBinding 0.6 : JoypadBinding ℝ) with volume_value := 0 } ∈
          (FindMatchingBindings (fun x y : ℝ => x ^ y) [faderBinding 0.6] []
            (faderEvent 0 0)).1) ∧
      ((faderBinding (0.6 : ℝ)).axis_max_value ≤ (faderEvent (0 : ℝ) 0).axis_raw_value →
        { (faderBinding 0.6 : JoypadBinding ℝ) with volume_value := 100 } ∈
          (FindMatchingBindings (fun x y : ℝ => x ^ y) [faderBinding 0.6] []
            (faderEvent 0 0)).1) :=
  gamma_endpoints [faderBinding 0.6] [] (faderEvent 0 0) (faderBinding 0.6)
    (List.mem_singleton.2 rfl) rfl rfl rfl rfl rfl (Or.inl rfl)
    (by show (0 : ℝ) < 1024; norm_num) (Or.inl rfl)

/-- C9. Gamma 1 is the identity curve.  Over the reals, with the real power for `std::pow`:
a stored enabled `SetSourceVolumePercent` axis binding with `slider_gamma = 1` and
`axis_max_value > axis_min_value` is returned, for every raw value, with `volume_value` equal
to the linear percent: `(raw - min) / (max - min) * 100` (100 minus it when the direction is
Negative), clamped to `[0, 100]`. -/
theorem gamma_one_identity (bindings : List (JoypadBinding ℝ)) (axis_active : AxisActive)
    (event : JoypadEvent ℝ) (b : JoypadBinding ℝ) (hb : b ∈ bindings)
    (hen : b.enabled = true) (hty : b.input_type = JoypadInputType.Axis)
    (hact : b.action = JoypadActionType.SetSourceVolumePercent)
    (hax : event.is_axis = true) (hidx : b.axis_index = event.axis_index)
    (hdev : b.device_id = "" ∨ b.device_id = event.device_id)
    (hrange : b.axis_min_value < b.axis_max_value) (hgamma : b.slider_gamma = 1) :
    { b with volume_value :=
        clamp (if b.axis_direction = JoypadAxisDirection.Negative then
            100 - (event.axis_raw_value - b.axis_min_value) /
              (b.axis_max_value - b.axis_min_value) * 100
          else (event.axis_raw_value - b.axis_min_value) /
              (b.axis_max_value - b.axis_min_value) * 100) 0 100 } ∈
      (FindMatchingBindings (fun x y : ℝ => x ^ y) bindings axis_active event).1 := by
  have hmem := FindMatchingBindings_mem_of_forall (fun x y : ℝ => x ^ y) event bindings
    axis_active b _ hb
    (fun m0 => matchBinding_percent_some _ event m0 b hen hty hact hax hidx hdev)
  have hg : effectiveGamma b = 1 := by
    unfold effectiveGamma
    rw [hgamma, if_pos (by norm_num)]
    exact clamp_of_mem _ _ _ (by norm_num) (by norm_num)
  rw [(percentAxisVolume_real b event.axis_raw_value hrange).1, hg, Real.rpow_one,
    mul_div_cancel₀ _ (by norm_num : (100 : ℝ) ≠ 0)] at hmem
  exact hmem

/-- C9, at a concrete input: the slider with gamma 1 at the raw value 256. -/
theorem gamma_one_identity_witness :
    { (faderBinding 1 : JoypadBinding ℝ) with
        volume_value :=
          clamp (if (faderBinding (1 : ℝ)).axis_direction = JoypadAxisDirection.Negative then
              100 - ((faderEvent (256 : ℝ) 0).axis_raw_value -
                  (faderBinding (1 : ℝ)).axis_min_value) /
                ((faderBinding (1 : ℝ)).axis_max_value -
                  (faderBinding (1 : ℝ)).axis_min_value) * 100
            else ((faderEvent (256 : ℝ) 0).axis_raw_value -
                  (faderBinding (1 : ℝ)).axis_min_value) /
                ((faderBinding (1 : ℝ)).axis_max_value -
                  (faderBinding (1 : ℝ)).axis_min_value) * 100) 0 100 } ∈
      (FindMatchingBindings (fun x y : ℝ => x ^ y) [faderBinding 1] []
        (faderEvent 256 0)).1 :=
  gamma_one_identity [faderBinding 1] [] (faderEvent 256 0) (faderBinding 1)
    (List.mem_singleton.2 rfl) rfl rfl rfl rfl rfl (Or.inl rfl)
    (by show (0 : ℝ) < 1024; norm_num) rfl

/-- C10, as stated, fails for a negative configured `volume_value`: with the configured
amount -0.1 and the axis value 0.7 the code returns 0.07, not the
`-0.1 * clamp(|0.7|, 0, 1) * sign(0.7) = -0.07` of the claim. -/
theorem relative_adjust_counterexample :
    (FindMatchingBindings (fun x _ => x) [nudgeBinding (-0.1)] [] (stickEvent 0.7)).1 =
        [{ nudgeBinding (-0.1) with volume_value := 0.07 }] ∧
      (0.07 : ℚ) ≠
        (nudgeBinding (-0.1)).volume_value * clamp |(stickEvent 0.7).axis_value| 0 1 *
          ((SignType.sign (stickEvent 0.7).axis_value : SignType) : ℚ) := by
  decide!

/-- C10, amended.  Every axis binding with action `AdjustSourceVolume` that
`FindMatchingBindings` returns for an event with axis value `v` is the copy of a stored
binding whose `volume_value` has been replaced by
`|configured volume_value| * clamp(|v|, 0, 1) * sign(v)`: the sign of the result follows the
axis, not the configured value.  With the configured amount 0.1 the value 0.7 gives 0.07 and
the value -0.7 gives -0.07. -/
theorem relative_adjust :
    (∀ (α : Type) [LinearOrderedField α] (pow : α → α → α)
        (bindings : List (JoypadBinding α)) (axis_active : AxisActive)
        (event : JoypadEvent α),
        ∀ r ∈ (FindMatchingBindings pow bindings axis_active event).1,
          r.input_type = JoypadInputType.Axis →
          r.action = JoypadActionType.AdjustSourceVolume →
          ∃ b ∈ bindings, SameButVolume r b ∧
            r.volume_value =
              |b.volume_value| * clamp |event.axis_value| 0 1 *
                ((SignType.sign event.axis_value : SignType) : α)) ∧
      (FindMatchingBindings (fun x _ => x) [nudgeBinding 0.1] [] (stickEvent 0.7)).1 =
        [{ nudgeBinding 0.1 with volume_value := 0.07 }] ∧
      (FindMatchingBindings (fun x _ => x) [nudgeBinding 0.1] [] (stickEvent (-0.7))).1 =
        [{ nudgeBinding 0.1 with volume_value := -0.07 }] := by
  refine ⟨?_, by decide!, by decide!⟩
  intro α _ pow bindings axis_active event r hr hty hact
  obtain ⟨b, hb, m0, hm0⟩ := FindMatchingBindings_mem pow event bindings axis_active r hr
  obtain ⟨-, -, -, -, hsame⟩ := matchBinding_some pow event m0 b r hm0
  have heq := matchBinding_some_eq pow event m0 b r hm0
  refine ⟨b, hb, hsame, ?_⟩
  unfold SameButVolume at hsame
  have hty' : b.input_type = JoypadInputType.Axis := by rw [hsame] at hty; exact hty
  have hact' : b.action = JoypadActionType.AdjustSourceVolume := by
    rw [hsame] at hact; exact hact
  have hnp : b.action ≠ JoypadActionType.SetSourceVolumePercent := by
    rw [hact']; decide
  unfold pushed adjusted at heq
  rw [if_pos hty', if_neg hnp, if_pos hact'] at heq
  rw [heq]
  exact adjustVolume_eq_sign b event.axis_value

/-- C10, at a concrete input: the amount 0.1 at the axis value 0.7. -/
theorem relative_adjust_witness :
    ∃ b ∈ [nudgeBinding 0.1],
      SameButVolume ({ nudgeBinding 0.1 with volume_value := 0.07 } : JoypadBinding ℚ) b ∧
        ({ nudgeBinding 0.1 with volume_value := 0.07 } : JoypadBinding ℚ).volume_value =
          |b.volume_value| * clamp |(stickEvent 0.7).axis_value| 0 1 *
            ((SignType.sign (stickEvent 0.7).axis_value : SignType) : ℚ) :=
  relative_adjust.1 ℚ (fun x _ => x) [nudgeBinding 0.1] [] (stickEvent 0.7)
    { nudgeBinding 0.1 with volume_value := 0.07 } (by decide!) rfl rfl

/-- C11. Result order: the result of `FindMatchingBindings` is made of the copies
(`pushed`: the stored binding, up to the event-computed `volume_value`) of the stored
bindings that the loop matches (`matchedBindings`), which form a subsequence of the stored
list, in store order: returned bindings keep the relative order of the store, and each
stored occurrence gives at most one returned binding.  A stored binding that the loop body
matches whatever the latch table is kept once per stored occurrence. -/
theorem result_order (pow : α → α → α) (bindings : List (JoypadBinding α))
    (axis_active : AxisActive) (event : JoypadEvent α) :
    (matchedBindings pow bindings axis_active event).Sublist bindings ∧
      (FindMatchingBindings pow bindings axis_active event).1 =
        (matchedBindings pow bindings axis_active event).map (pushed pow event) ∧
      ∀ b : JoypadBinding α, (∀ m0, (matchBinding pow event m0 b).1.isSome = true) →
        (matchedBindings pow bindings axis_active event).count b = bindings.count b :=
  ⟨matchedBindings_sublist pow event bindings axis_active,
    FindMatchingBindings_eq_map pow event bindings axis_active,
    fun b h => matchedBindings_count pow event bindings axis_active b h⟩

/-- C11, at a concrete input: of the scene button stored before and after a stick binding,
a press of button 3 returns the two copies of the scene button, in that order. -/
theorem result_order_witness :
    (FindMatchingBindings (fun x _ => x) [sceneButton, stickBinding, sceneButton] []
        (buttonEvent 3)).1 = [sceneButton, sceneButton] ∧
      (matchedBindings (fun x _ => x) [sceneButton, stickBinding, sceneButton] []
        (buttonEvent 3)).count sceneButton =
        [sceneButton, stickBinding, sceneButton].count sceneButton :=
  ⟨by decide!,
    (result_order (fun x _ => x) [sceneButton, stickBinding, sceneButton] []
      (buttonEvent 3)).2.2 sceneButton sceneButton_always_matched⟩

/-- C12, as stated, fails near silence: for the current multiplier 0.05 and the delta -0.05
(flag off) the code applies 0.001, the multiplier of -60 dB, not the
`clamp(0.05 - 0.05, 0, 1) = 0` of the claim. -/
theorem adjust_clamp_counterexample :
    Execute_set_volume (fun x y : ℝ => x ^ y) (volumeStep (-0.05) false) true 0.05 =
        some 0.001 ∧
      AdjustSourceVolume_next_mul (fun x y : ℝ => x ^ y) (volumeStep (-0.05) false) 0.05 ≠
        clamp ((0.05 : ℝ) + (volumeStep (-0.05 : ℝ) false).volume_value) 0 1 := by
  have hv : (volumeStep (-0.05 : ℝ) false).volume_value = -0.05 := rfl
  have hrun : AdjustSourceVolume_next_mul (fun x y : ℝ => x ^ y)
      (volumeStep (-0.05) false) 0.05 = 0.001 := by
    have hf : (volumeStep (-0.05 : ℝ) false).allow_above_unity = false := rfl
    have hmin : (10 : ℝ) ^ ((-60 : ℝ) / 20) = 0.001 := db_to_mul_kMinDb
    rw [AdjustSourceVolume_next_mul_real, hv, hf, hmin]
    norm_num [clamp]
  constructor
  · have hx : Execute_set_volume (fun x y : ℝ => x ^ y) (volumeStep (-0.05) false) true 0.05 =
        some (AdjustSourceVolume_next_mul (fun x y : ℝ => x ^ y)
          (volumeStep (-0.05) false) 0.05) := rfl
    rw [hx, hrun]
  · rw [hrun, hv]
    norm_num [clamp]

/-- C12, amended.  Over the reals, with the real power for `std::pow`: for every current
multiplier `c` and delta `d` (the binding's `volume_value`) the multiplier that
`AdjustSourceVolume` applies equals `clamp(c + d, L, U)`, where `L = 10 ^ (-60 / 20) = 0.001`
is the multiplier of -60 dB, `U = 1` when `allow_above_unity` is false and
`U = 10 ^ (50 / 20)`, the multiplier of +50 dB, when it is true; this is the value that
`Execute` passes to `obs_source_set_volume` when the source is named and found. -/
theorem adjust_clamp (b : JoypadBinding ℝ) (c : ℝ) :
    AdjustSourceVolume_next_mul (fun x y : ℝ => x ^ y) b c =
        clamp (c + b.volume_value) ((10 : ℝ) ^ ((-60 : ℝ) / 20))
          (if b.allow_above_unity = true then (10 : ℝ) ^ ((50 : ℝ) / 20) else 1) ∧
      (10 : ℝ) ^ ((-60 : ℝ) / 20) = 0.001 ∧
      (b.action = JoypadActionType.AdjustSourceVolume → b.source_name ≠ "" →
        Execute_set_volume (fun x y : ℝ => x ^ y) b true c =
          some (clamp (c + b.volume_value) ((10 : ℝ) ^ ((-60 : ℝ) / 20))
            (if b.allow_above_unity = true then (10 : ℝ) ^ ((50 : ℝ) / 20) else 1))) := by
  refine ⟨AdjustSourceVolume_next_mul_real b c, db_to_mul_kMinDb, fun hact hsrc => ?_⟩
  unfold Execute_set_volume
  rw [hact]
  simp only [if_neg hsrc, Bool.not_true, Bool.false_eq_true, if_false]
  rw [AdjustSourceVolume_next_mul_real]

/-- C12, at a concrete input: a step of 0.05 up from the multiplier 0.5, flag off. -/
theorem adjust_clamp_witness :
    Execute_set_volume (fun x y : ℝ => x ^ y) (volumeStep 0.05 false) true 0.5 =
      some (clamp ((0.5 : ℝ) + (volumeStep (0.05 : ℝ) false).volume_value)
        ((10 : ℝ) ^ ((-60 : ℝ) / 20))
        (if (volumeStep (0.05 : ℝ) false).allow_above_unity = true then
          (10 : ℝ) ^ ((50 : ℝ) / 20) else 1)) :=
  (adjust_clamp (volumeStep 0.05 false) 0.5).2.2 rfl (by decide)

/-- C13. Absolute volume clamp: for every configured `volume_value` `v` and
`allow_above_unity` flag, the decibel value that `SetSourceVolume` applies equals
`clamp(v', -60, 50)`, where `v' = 0` when the flag is false and `v > 0`, and `v' = v`
otherwise; it lies in `[-60, 50]` and is at most 0 when the flag is false; its multiplier is
what `Execute` passes to `obs_source_set_volume` when the source is named and found. -/
theorem set_volume_clamp (b : JoypadBinding α) :
    SetSourceVolume_target_db b =
        clamp (if b.allow_above_unity = false ∧ b.volume_value > 0 then 0
          else b.volume_value) (-60) 50 ∧
      -60 ≤ SetSourceVolume_target_db b ∧ SetSourceVolume_target_db b ≤ 50 ∧
      (b.allow_above_unity = false → SetSourceVolume_target_db b ≤ 0) ∧
      ∀ (pow : α → α → α) (current_mul : α),
        b.action = JoypadActionType.SetSourceVolume → b.source_name ≠ "" →
        Execute_set_volume pow b true current_mul =
          some (db_to_mul pow (SetSourceVolume_target_db b)) := by
  have heq := SetSourceVolume_target_db_eq b
  have hmem := clamp_mem
    (if b.allow_above_unity = false ∧ b.volume_value > 0 then 0 else b.volume_value)
    (-60) 50 (by norm_num)
  refine ⟨heq, by rw [heq]; exact hmem.1, by rw [heq]; exact hmem.2, fun hflag => ?_,
    fun pow c hact hsrc => ?_⟩
  · have hw : (if b.allow_above_unity = false ∧ b.volume_value > 0 then 0
        else b.volume_value) ≤ 0 := by
      split_ifs with h
      · exact le_refl _
      · by_contra hpos
        exact h ⟨hflag, not_le.1 hpos⟩
    rw [heq]
    exact clamp_le_of_le _ _ _ _ hw (by norm_num)
  · unfold Execute_set_volume
    rw [hact]
    simp only [if_neg hsrc, Bool.not_true, Bool.false_eq_true, if_false]

/-- C13, at a concrete input: +6 dB with the flag off is applied as 0 dB. -/
theorem set_volume_clamp_witness :
    SetSourceVolume_target_db (volumeSet (6 : ℚ) false) = 0 ∧
      SetSourceVolume_target_db (volumeSet (6 : ℚ) false) ≤ 0 :=
  ⟨by decide!, (set_volume_clamp (volumeSet (6 : ℚ) false)).2.2.2.1 rfl⟩

/-- C14. Decibel round trip over the reals, with `db_to_mul(db) = 10 ^ (db / 20)` and the
logarithm to base 10 for `std::log10`: `mul_to_db(db_to_mul(x)) = x` for every `x` in
`[-60, 50]`, and `db_to_mul(-100) <= 0.00001`. -/
theorem db_round_trip :
    (∀ x : ℝ, -60 ≤ x → x ≤ 50 →
        mul_to_db (Real.logb 10) (db_to_mul (fun x y : ℝ => x ^ y) x) = x) ∧
      db_to_mul (fun x y : ℝ => x ^ y) (-100) ≤ 0.00001 := by
  constructor
  · intro x hlo _
    have hgt : (0.000001 : ℝ) < (10 : ℝ) ^ (x / 20) := by
      rw [← ten_rpow_neg_six]
      exact Real.rpow_lt_rpow_of_exponent_lt (by norm_num) (by norm_num; linarith)
    unfold mul_to_db db_to_mul
    rw [if_neg (not_le.2 hgt), Real.logb_rpow (by norm_num) (by norm_num)]
    ring
  · have h : (-100 : ℝ) / 20 = -((5 : ℕ) : ℝ) := by norm_num
    unfold db_to_mul
    simp only [h]
    rw [Real.rpow_neg (by norm_num), Real.rpow_natCast]
    norm_num

/-- C14, at a concrete input: the round trip at -20 dB. -/
theorem db_round_trip_witness :
    mul_to_db (Real.logb 10) (db_to_mul (fun x y : ℝ => x ^ y) (-20)) = -20 :=
  db_round_trip.1 (-20) (by norm_num) (by norm_num)

omit [LinearOrderedField α] in
/-- C16. Update and remove by index: when `i >= |L|`, `RemoveBinding(i)` and
`UpdateBinding(i, b)` leave the list as it is and do not call `Save()`; when `i < |L|`,
`RemoveBinding(i)` yields `L` without its `i`-th element, the others kept in order, and
`UpdateBinding(i, b)` yields `L` with position `i` alone replaced by `b` (both call
`Save()`). -/
theorem remove_update_by_index (bindings : List (JoypadBinding α)) (i : Nat)
    (b : JoypadBinding α) :
    (bindings.length ≤ i →
        RemoveBinding bindings i = (bindings, false) ∧
          UpdateBinding bindings i b = (bindings, false)) ∧
      (i < bindings.length →
        RemoveBinding bindings i = (bindings.take i ++ bindings.drop (i + 1), true) ∧
          UpdateBinding bindings i b =
            (bindings.take i ++ b :: bindings.drop (i + 1), true)) := by
  constructor
  · intro h
    exact ⟨if_pos h, if_pos h⟩
  · intro h
    unfold RemoveBinding UpdateBinding
    rw [if_neg (not_le.2 h), if_neg (not_le.2 h), eraseIdx_eq_take_append_drop,
      set_eq_take_append_cons_drop _ _ _ h]
    exact ⟨rfl, rfl⟩

/-- C16, at a concrete input: on the store of the stick binding and the scene button, index
2 is ignored and index 0 removes, or replaces, the stick binding. -/
theorem remove_update_by_index_witness :
    (RemoveBinding [stickBinding, sceneButton] 2 = ([stickBinding, sceneButton], false) ∧
        UpdateBinding [stickBinding, sceneButton] 2 pushUpBinding =
          ([stickBinding, sceneButton], false)) ∧
      RemoveBinding [stickBinding, sceneButton] 0 = ([sceneButton], true) ∧
      UpdateBinding [stickBinding, sceneButton] 0 pushUpBinding =
        ([pushUpBinding, sceneButton], true) :=
  ⟨(remove_update_by_index [stickBinding, sceneButton] 2 pushUpBinding).1 (by decide),
    ((remove_update_by_index [stickBinding, sceneButton] 0 pushUpBinding).2 (by decide)).1,
    ((remove_update_by_index [stickBinding, sceneButton] 0 pushUpBinding).2 (by decide)).2⟩

section ListenerClaims

open JoypadInputManager

variable {H : Type} {β : Type}

/-- C17. `BeginLearn` exclusivity: in every listener state, `BeginLearn(h)` with a non-empty
handler `h` returns false and leaves the state, the registered learn callback included, as it
is when a learn callback is registered, and returns true and registers `h` when none is;
after `CancelLearn` no learn callback is registered and the next `BeginLearn` succeeds and
registers its handler. -/
theorem begin_learn_exclusive (s : Handlers H) (h : H) :
    (s.learn_handler.isSome = true → BeginLearn s (some h) = (false, s)) ∧
      (s.learn_handler = none →
        BeginLearn s (some h) = (true, { s with learn_handler := some h })) ∧
      (CancelLearn s).learn_handler = none ∧
      BeginLearn (CancelLearn s) (some h) = (true, { s with learn_handler := some h }) := by
  refine ⟨fun hs => ?_, fun hs => ?_, rfl, rfl⟩
  · simp [BeginLearn, hs]
  · simp [BeginLearn, hs]

/-- C17, at a concrete input: a second `BeginLearn` while the first callback is registered
is rejected and changes nothing. -/
theorem begin_learn_exclusive_witness :
    BeginLearn (BeginLearn (Handlers.initial : Handlers String) (some "first")).2
        (some "second") =
      (false, (BeginLearn (Handlers.initial : Handlers String) (some "first")).2) :=
  (begin_learn_exclusive (BeginLearn (Handlers.initial : Handlers String) (some "first")).2
    "second").1 rfl

/-- C18. Learn is one-shot: after a successful `BeginLearn(h)`, along every non-empty
sequence of dispatches (through `DispatchEvent` or `DispatchAxisAbsolute`) with no
`BeginLearn` or `CancelLearn` in between, the learn callback is invoked exactly once, it is
`h`, it receives the first event of the sequence, button or axis, and it is the first
invocation of all; after the first dispatch, and at the end, no learn callback is
registered. -/
theorem learn_one_shot (s : Handlers H) (h : H) (d : Dispatch β) (ds : List (Dispatch β))
    (hok : (BeginLearn s (some h)).1 = true) :
    (dispatchAll (BeginLearn s (some h)).2 (d :: ds)).1.filter Call.isLearn =
        [Call.learn h d.payload] ∧
      (dispatchAll (BeginLearn s (some h)).2 (d :: ds)).1.head? =
        some (Call.learn h d.payload) ∧
      (dispatchOne (BeginLearn s (some h)).2 d).2.learn_handler = none ∧
      (dispatchAll (BeginLearn s (some h)).2 (d :: ds)).2.learn_handler = none := by
  have hnone : s.learn_handler.isSome = false := by
    cases hs : s.learn_handler.isSome
    · rfl
    · simp [BeginLearn, hs] at hok
  have hreg : (BeginLearn s (some h)).2.learn_handler = some h := by
    simp [BeginLearn, hnone]
  obtain ⟨h1, h2, h3⟩ := dispatchOne_of_learn_some (BeginLearn s (some h)).2 d h hreg
  obtain ⟨h4, h5⟩ := dispatchAll_of_learn_none (dispatchOne (BeginLearn s (some h)).2 d).2 ds h1
  refine ⟨?_, ?_, h1, ?_⟩
  · simp only [dispatchAll, List.filter_append, h2, h5, List.append_nil]
  · simp only [dispatchAll]
    cases hc : (dispatchOne (BeginLearn s (some h)).2 d).1 with
    | nil => rw [hc] at h3; simp at h3
    | cons c rest =>
      rw [hc] at h3
      simpa using h3
  · simp only [dispatchAll, h4, h1]

/-- C18, at a concrete input: a button press and then an axis event after `BeginLearn`; the
callback gets the button press only. -/
theorem learn_one_shot_witness :
    (dispatchAll (BeginLearn (Handlers.initial : Handlers String) (some "capture")).2
        [Dispatch.event (buttonEvent 3), Dispatch.axisAbsolute (stickEvent 0.7)]).1.filter
        Call.isLearn =
        [Call.learn "capture" (Dispatch.event (buttonEvent 3)).payload] ∧
      (dispatchAll (BeginLearn (Handlers.initial : Handlers String) (some "capture")).2
        [Dispatch.event (buttonEvent 3), Dispatch.axisAbsolute (stickEvent 0.7)]).1.head? =
        some (Call.learn "capture" (Dispatch.event (buttonEvent 3)).payload) ∧
      (dispatchOne (BeginLearn (Handlers.initial : Handlers String) (some "capture")).2
        (Dispatch.event (buttonEvent 3))).2.learn_handler = none ∧
      (dispatchAll (BeginLearn (Handlers.initial : Handlers String) (some "capture")).2
        [Dispatch.event (buttonEvent 3),
          Dispatch.axisAbsolute (stickEvent 0.7)]).2.learn_handler = none :=
  learn_one_shot (Handlers.initial : Handlers String) "capture"
    (Dispatch.event (buttonEvent 3)) [Dispatch.axisAbsolute (stickEvent 0.7)] rfl

/-- C19. Dispatch order: for every listener state and event, `DispatchEvent` invokes the
learn callback first (if one is registered), then, for an axis event, the registered axis
listeners in the order of registration and not the button listener, and, for a button
event, the button listener (if one is registered) and no axis listener; no event invokes
both kinds of listener. -/
theorem dispatch_order (s : Handlers H) (event : JoypadEvent β) :
    (DispatchEvent s event).1 =
        (s.learn_handler.toList.map fun h => Call.learn h event) ++
          (if event.is_axis = true then
            (s.axis_handlers.filterMap fun entry => entry.handler).map
              fun h => Call.axis h event
          else s.on_button_pressed.toList.map fun h => Call.button h event) ∧
      (event.is_axis = true → ∀ c ∈ (DispatchEvent s event).1, c.isButton = false) ∧
      (event.is_axis = false → ∀ c ∈ (DispatchEvent s event).1, c.isAxis = false) := by
  have hshape : (DispatchEvent s event).1 =
      (s.learn_handler.toList.map fun h => Call.learn h event) ++
        (if event.is_axis = true then
          (s.axis_handlers.filterMap fun entry => entry.handler).map
            fun h => Call.axis h event
        else s.on_button_pressed.toList.map fun h => Call.button h event) := by
    simp only [DispatchEvent]
    cases event.is_axis <;> cases s.learn_handler <;> cases s.on_button_pressed <;>
      simp [List.filterMap_map, List.map_filterMap, Function.comp_def]
  refine ⟨hshape, fun hax c hc => ?_, fun hax c hc => ?_⟩
  · rw [hshape, hax] at hc
    simp only [if_true, List.mem_append, List.mem_map] at hc
    rcases hc with ⟨h, -, rfl⟩ | ⟨h, -, rfl⟩ <;> rfl
  · rw [hshape, hax] at hc
    simp only [Bool.false_eq_true, if_false, List.mem_append, List.mem_map] at hc
    rcases hc with ⟨h, -, rfl⟩ | ⟨h, -, rfl⟩ <;> rfl

/-- C19, at a concrete input: with a learn callback, a button listener and two axis
listeners, an axis event goes to the learn callback and then to the axis listeners in the
order of registration; a button press goes to the button listener only. -/
theorem dispatch_order_witness :
    (DispatchEvent
        ({ on_button_pressed := some "button", learn_handler := some "capture",
            next_axis_handler_id := 3,
            axis_handlers := [{ id := 1, handler := some "first" },
              { id := 2, handler := some "second" }] } : Handlers String)
        (stickEvent 0.7)).1 =
        [Call.learn "capture" (stickEvent 0.7), Call.axis "first" (stickEvent 0.7),
          Call.axis "second" (stickEvent 0.7)] ∧
      ∀ c ∈ (DispatchEvent
        ({ on_button_pressed := some "button", learn_handler := none,
            next_axis_handler_id := 3,
            axis_handlers := [{ id := 1, handler := some "first" },
              { id := 2, handler := some "second" }] } : Handlers String)
        (buttonEvent 3)).1, c.isAxis = false :=
  ⟨by decide!, (dispatch_order _ (buttonEvent 3)).2.2 rfl⟩

/-- C20. Axis-listener handles.  In a well-formed state (every state reached from the
initial one is well formed) `AddOnAxisChanged` with a non-empty handler returns a handle
`> 0` under which no listener is registered, appends the listener after the existing ones
and keeps the state well formed; along every sequence of calls of the registration
interface from the initial state the handles returned are positive and strictly
increasing, so each differs from every handle returned before.  `RemoveOnAxisChanged(id)`
with `id > 0` removes the listeners registered under `id`, of which a well-formed state has
at most one, and keeps all the others in their order.  `AddOnAxisChanged` with an empty
handler returns 0 and registers nothing, and `RemoveOnAxisChanged` with `id <= 0` changes
nothing. -/
theorem axis_listener_handles :
    (∀ (s : Handlers H) (h : H), s.WellFormed →
        0 < (AddOnAxisChanged s (some h)).1 ∧
          (∀ entry ∈ s.axis_handlers, entry.id ≠ (AddOnAxisChanged s (some h)).1) ∧
          (AddOnAxisChanged s (some h)).2.axis_handlers =
            s.axis_handlers ++
              [{ id := (AddOnAxisChanged s (some h)).1, handler := some h }] ∧
          (AddOnAxisChanged s (some h)).2.WellFormed) ∧
      (∀ ops : List (Op H),
        (∀ x ∈ handlesReturned (Handlers.initial : Handlers H) ops, 0 < x) ∧
          (handlesReturned (Handlers.initial : Handlers H) ops).Pairwise
            (fun x y => x < y) ∧
          (ops.foldl Op.apply (Handlers.initial : Handlers H)).WellFormed) ∧
      (∀ (s : Handlers H) (handler_id : Int), 0 < handler_id →
        (RemoveOnAxisChanged s handler_id).axis_handlers =
            s.axis_handlers.filter (fun entry => decide (entry.id ≠ handler_id)) ∧
          (∀ entry ∈ (RemoveOnAxisChanged s handler_id).axis_handlers,
            entry.id ≠ handler_id) ∧
          (RemoveOnAxisChanged s handler_id).axis_handlers.Sublist s.axis_handlers ∧
          (s.WellFormed →
            (s.axis_handlers.filter
              (fun entry => decide (entry.id = handler_id))).length ≤ 1)) ∧
      (∀ s : Handlers H, AddOnAxisChanged s none = (0, s)) ∧
      (∀ (s : Handlers H) (handler_id : Int), handler_id ≤ 0 →
        RemoveOnAxisChanged s handler_id = s) := by
  refine ⟨?_, ?_, ?_, fun s => rfl, fun s handler_id hid => if_pos hid⟩
  · intro s h hs
    refine ⟨hs.1, fun entry hentry => ne_of_lt (hs.2.1 entry hentry), rfl,
      wellFormed_add s (some h) hs⟩
  · intro ops
    obtain ⟨h1, h2⟩ := handlesReturned_increasing (Handlers.initial : Handlers H) ops
      wellFormed_initial
    refine ⟨fun x hx => lt_of_lt_of_le (show (0 : Int) < 1 by decide) (h1 x hx), h2, ?_⟩
    have hfold : ∀ (l : List (Op H)) (s : Handlers H), s.WellFormed →
        (l.foldl Op.apply s).WellFormed := by
      intro l
      induction l with
      | nil => exact fun s hs => hs
      | cons op rest ih => exact fun s hs => ih _ (wellFormed_apply s op hs).1
    exact hfold ops _ wellFormed_initial
  · intro s handler_id hid
    have hrem : (RemoveOnAxisChanged s handler_id).axis_handlers =
        s.axis_handlers.filter (fun entry => decide (entry.id ≠ handler_id)) := by
      simp only [RemoveOnAxisChanged, if_neg (not_le.2 hid)]
    refine ⟨hrem, ?_, ?_, ?_⟩
    · intro entry hentry
      rw [hrem] at hentry
      simpa using (List.mem_filter.1 hentry).2
    · rw [hrem]
      exact List.filter_sublist _
    · intro hs
      have hnd : (s.axis_handlers.filter
          (fun entry => decide (entry.id = handler_id))).map (fun entry => entry.id) =
          List.replicate (s.axis_handlers.filter
            (fun entry => decide (entry.id = handler_id))).length handler_id := by
        rw [List.eq_replicate_iff]
        refine ⟨List.length_map _ _, ?_⟩
        intro x hx
        obtain ⟨entry, hentry, rfl⟩ := List.mem_map.1 hx
        simpa using (List.mem_filter.1 hentry).2
      have hsub : ((s.axis_handlers.filter
          (fun entry => decide (entry.id = handler_id))).map (fun entry => entry.id)).Nodup :=
        List.Nodup.sublist (List.Sublist.map _ (List.filter_sublist _)) hs.2.2
      rw [hnd] at hsub
      by_contra hlen
      have h2 : 2 ≤ (s.axis_handlers.filter
          (fun entry => decide (entry.id = handler_id))).length := by omega
      exact absurd hsub (by
        rw [List.nodup_replicate]
        omega)

/-- C20, at a concrete input: two registrations from the initial state return the handles 1
and 2, and removing handle 1 leaves the second listener. -/
theorem axis_listener_handles_witness :
    0 < (AddOnAxisChanged (Handlers.initial : Handlers String) (some "first")).1 ∧
      (∀ entry ∈ (Handlers.initial : Handlers String).axis_handlers,
        entry.id ≠ (AddOnAxisChanged (Handlers.initial : Handlers String) (some "first")).1) ∧
      (AddOnAxisChanged (Handlers.initial : Handlers String) (some "first")).2.axis_handlers =
        (Handlers.initial : Handlers String).axis_handlers ++
          [{ id := (AddOnAxisChanged (Handlers.initial : Handlers String) (some "first")).1,
             handler := some "first" }] ∧
      (AddOnAxisChanged (Handlers.initial : Handlers String)
        (some "first")).2.WellFormed :=
  axis_listener_handles.1 (Handlers.initial : Handlers String) "first" wellFormed_initial

end ListenerClaims


section PollClaims

open JoypadInputManager

end PollClaims

section AxisClaims

open JoypadInputManager

/-- C22. Axis change events: for every sequence of samples of one axis of one device that
the poll step handles with the poll-level interval of 0 ms and a clock that does not run
backwards, starting with the slot of the axis in any state, a sample produces an event
exactly when it is not the first sample of the axis and its raw value differs from the
raw value of the sample before it (`expectedAxisEvents`), and afterwards the slot of the
axis holds the raw value of the last sample and is marked as seen, nothing else of the
state having changed (`expectedAxisState`).  This holds for `push_axis_raw` (XInput), for
the body of the WinMM axis loop, whose normalized value is `norm_axis`, and for the body
of the device-file loop, whose normalized value is `linux_axis_value`.  An event at
position `i` carries the raw and the normalized value of the sample at position `i`. -/
theorem axis_change_events (idx : Nat) (state : DeviceState α) (tr : AxisLastTrigger)
    (init : Bool) (prev : α)
    (hinit : state.axis_initialized.get? idx = some init)
    (hprev : state.last_axes.get? idx = some prev) :
    (∀ samples : List (Int × α × α),
        samples.Pairwise (fun a b => a.1 ≤ b.1) → (∀ s ∈ samples, tr.AllLE s.1) →
        ∃ tr',
          pushAxisSamples 0 idx state tr samples =
            some (expectedAxisEvents state idx (if init = true then some prev else none)
              samples, expectedAxisState state idx (samples.getLast?.map fun s => s.2.2),
              tr')) ∧
      (∀ samples : List (Int × Nat),
        samples.Pairwise (fun a b => a.1 ≤ b.1) → (∀ s ∈ samples, tr.AllLE s.1) →
        ∃ tr',
          winmmAxisSamples 0 idx state tr samples =
            some (expectedAxisEvents state idx (if init = true then some prev else none)
                (samples.map fun s => (s.1, norm_axis state idx s.2, (s.2 : α))),
              expectedAxisState state idx (samples.getLast?.map fun s => (s.2 : α)),
              tr')) ∧
      (∀ samples : List (Int × Int),
        samples.Pairwise (fun a b => a.1 ≤ b.1) → (∀ s ∈ samples, tr.AllLE s.1) →
        ∃ tr',
          linuxAxisSamples 0 idx state tr samples =
            some ((expectedAxisEvents state idx (if init = true then some prev else none)
                (samples.map fun s => (s.1, (linux_axis_value s.2 : α), (s.2 : α)))).map
                (fun o => o.toList.map Dispatch.axisAbsolute),
              expectedAxisState state idx (samples.getLast?.map fun s => (s.2 : α)),
              tr')) ∧
      ∀ (before : Option α) (samples : List (Int × α × α)) (i : Nat) (e : JoypadEvent α),
        (expectedAxisEvents state idx before samples).get? i = some (some e) →
        ∃ s, samples.get? i = some s ∧ e.axis_raw_value = s.2.2 ∧ e.axis_value = s.2.1 ∧
          e.is_axis = true ∧ e.axis_index = (idx : Int) ∧ e.device_id = state.id :=
  ⟨fun samples hclock htr =>
      pushAxisSamples_zero idx samples state tr init prev hinit hprev hclock htr,
    fun samples hclock htr =>
      winmmAxisSamples_zero idx samples state tr init prev hinit hprev hclock htr,
    fun samples hclock htr =>
      linuxAxisSamples_zero idx samples state tr init prev hinit hprev hclock htr,
    fun before samples => expectedAxisEvents_get? state idx samples before⟩

/-- C22, at a concrete input: the raw samples 0, 0, 5, 5, 3 of the left stick of a fresh
controller produce an event for the third and for the fifth sample only, and the slot of
the axis holds 3 afterwards; the positions 0, 0, 65535 of the first axis of a WinMM device
with the range 0..65535 produce an event for the third only, with the value 1; and the
records 100, 100, -32767 of the first axis of a device file produce a dispatch for the
third only, with the value -1. -/
theorem axis_change_events_witness :
    (padState.axis_initialized.get? 0 = some false ∧ padState.last_axes.get? 0 = some 0) ∧
      (∃ tr',
        pushAxisSamples 0 0 padState [] [(10, 0, 0), (20, 0, 0), (30, 1, 5), (30, 1, 5),
            (40, 1/2, 3)] =
          some ([none, none, some (axisEventOf padState 0 1 5), none,
              some (axisEventOf padState 0 (1/2) 3)],
            { padState with
              last_axes := [3, 0, 0, 0, 0, 0, 0, 0]
              axis_initialized := [true, false, false, false, false, false, false, false] },
            tr')) ∧
      (∃ tr',
        winmmAxisSamples 0 0
            ({ padState with axis_max := [65535, 65535, 0, 0, 0, 0] } : DeviceState ℚ) []
            [(10, 0), (20, 0), (30, 65535)] =
          some ([none, none, some (axisEventOf padState 0 1 65535)],
            { padState with
              axis_max := [65535, 65535, 0, 0, 0, 0]
              last_axes := [65535, 0, 0, 0, 0, 0, 0, 0]
              axis_initialized := [true, false, false, false, false, false, false, false] },
            tr')) ∧
      ∃ tr',
        linuxAxisSamples 0 0 (jsState 3) [] [(10, 100), (20, 100), (30, -32767)] =
          some ([[], [], [Dispatch.axisAbsolute (axisEventOf (jsState 3) 0 (-1) (-32767))]],
            { jsState 3 with
              last_axes := [-32767, 0, 0, 0, 0, 0, 0, 0]
              axis_initialized := [true, false, false, false, false, false, false, false] },
            tr') := by
  refine ⟨⟨rfl, rfl⟩, ?_, ?_, ?_⟩
  · obtain ⟨tr', hrun⟩ := (axis_change_events 0 padState [] false 0 rfl rfl).1
      [(10, 0, 0), (20, 0, 0), (30, 1, 5), (30, 1, 5), (40, 1/2, 3)]
      (by decide) (fun s _ key t h => by cases h)
    refine ⟨tr', ?_⟩
    rw [hrun]
    have hexp : expectedAxisEvents padState 0 (if false = true then some 0 else none)
        [(10, 0, 0), (20, 0, 0), (30, 1, 5), (30, 1, 5), (40, 1/2, 3)] =
        [none, none, some (axisEventOf padState 0 1 5), none,
          some (axisEventOf padState 0 (1/2) 3)] := by decide!
    have hstate : expectedAxisState padState 0
        (([(10, 0, 0), (20, 0, 0), (30, 1, 5), (30, 1, 5), (40, 1/2, 3)] :
          List (Int × ℚ × ℚ)).getLast?.map fun s => s.2.2) =
        { padState with
          last_axes := [3, 0, 0, 0, 0, 0, 0, 0]
          axis_initialized := [true, false, false, false, false, false, false, false] } := by
      decide!
    rw [hexp, hstate]
  · obtain ⟨tr', hrun⟩ := (axis_change_events 0
      ({ padState with axis_max := [65535, 65535, 0, 0, 0, 0] } : DeviceState ℚ) [] false 0
      rfl rfl).2.1 [(10, 0), (20, 0), (30, 65535)] (by decide)
      (fun s _ key t h => by cases h)
    refine ⟨tr', ?_⟩
    rw [hrun]
    have hexp : expectedAxisEvents
        ({ padState with axis_max := [65535, 65535, 0, 0, 0, 0] } : DeviceState ℚ) 0
        (if false = true then some 0 else none)
        (([(10, 0), (20, 0), (30, 65535)] : List (Int × Nat)).map fun s =>
          (s.1, norm_axis
            ({ padState with axis_max := [65535, 65535, 0, 0, 0, 0] } : DeviceState ℚ) 0
            s.2, (s.2 : ℚ))) =
        [none, none, some (axisEventOf padState 0 1 65535)] := by decide!
    have hstate : expectedAxisState
        ({ padState with axis_max := [65535, 65535, 0, 0, 0, 0] } : DeviceState ℚ) 0
        (([(10, 0), (20, 0), (30, 65535)] : List (Int × Nat)).getLast?.map
          fun s => (s.2 : ℚ)) =
        { padState with
          axis_max := [65535, 65535, 0, 0, 0, 0]
          last_axes := [65535, 0, 0, 0, 0, 0, 0, 0]
          axis_initialized := [true, false, false, false, false, false, false, false] } := by
      decide!
    rw [hexp, hstate]
  · obtain ⟨tr', hrun⟩ := (axis_change_events 0 (jsState 3) [] false 0 rfl rfl).2.2.1
      [(10, 100), (20, 100), (30, -32767)] (by decide) (fun s _ key t h => by cases h)
    refine ⟨tr', ?_⟩
    rw [hrun]
    have hexp : (expectedAxisEvents (jsState 3) 0 (if false = true then some 0 else none)
        (([(10, 100), (20, 100), (30, -32767)] : List (Int × Int)).map fun s =>
          (s.1, (linux_axis_value s.2 : ℚ), (s.2 : ℚ)))).map
          (fun o => o.toList.map Dispatch.axisAbsolute) =
        [[], [], [Dispatch.axisAbsolute (axisEventOf (jsState 3) 0 (-1) (-32767))]] := by
      decide!
    have hstate : expectedAxisState (jsState 3) 0
        (([(10, 100), (20, 100), (30, -32767)] : List (Int × Int)).getLast?.map
          fun s => (s.2 : ℚ)) =
        { jsState 3 with
          last_axes := [-32767, 0, 0, 0, 0, 0, 0, 0]
          axis_initialized := [true, false, false, false, false, false, false, false] } := by
      decide!
    rw [hexp, hstate]

end AxisClaims

section RangeClaims

open JoypadInputManager

/-- C23. Normalized axis range: the thumbstick map sends 32767 to 1, -32768 to -1 and 0 to
0 and every value into `[-1, 1]`; the trigger map sends every value into `[0, 1]`; the
min/max map sends every value into `[-1, 1]`, the reported minimum to -1 and the reported
maximum to 1, and returns 0 when the maximum is not above the minimum; the device-file map
sends `v` to `clamp(v / 32767, -1, 1)`; the map of the HID callback sends every value into
`[-1, 1]`; and every axis event that a pass of the poll loop over an XInput controller, a
WinMM device or a device-file record dispatches has `axis_value` in `[-1, 1]`. -/
theorem normalized_axis_range :
    ((norm_thumb 32767 : α) = 1 ∧ (norm_thumb (-32768) : α) = -1 ∧ (norm_thumb 0 : α) = 0 ∧
        ∀ v : Int, -1 ≤ (norm_thumb v : α) ∧ (norm_thumb v : α) ≤ 1) ∧
      (∀ v : Nat, 0 ≤ (norm_trigger v : α) ∧ (norm_trigger v : α) ≤ 1) ∧
      (∀ (state : DeviceState α) (idx val : Nat),
        (-1 ≤ norm_axis state idx val ∧ norm_axis state idx val ≤ 1) ∧
          (state.axis_max.getD idx 0 ≤ state.axis_min.getD idx 0 →
            norm_axis state idx val = 0) ∧
          (state.axis_min.getD idx 0 < state.axis_max.getD idx 0 →
            ((val : Int) = state.axis_min.getD idx 0 → norm_axis state idx val = -1) ∧
              ((val : Int) = state.axis_max.getD idx 0 → norm_axis state idx val = 1))) ∧
      (∀ v : Int, (linux_axis_value v : α) = clamp ((v : α) / 32767) (-1) 1) ∧
      (∀ (scaled : α) (min max : Int),
        -1 ≤ hid_norm scaled min max ∧ hid_norm scaled min max ≤ 1) ∧
      (∀ (interval : Int) (state : DeviceState α) (tr : AxisLastTrigger) (now : Int)
          (reading : Option XINPUT_GAMEPAD) (calls : List (Dispatch α))
          (state' : DeviceState α) (tr' : AxisLastTrigger),
        pollXInput interval state tr now reading = some (calls, state', tr') →
        ∀ e, Dispatch.axisAbsolute e ∈ calls → -1 ≤ e.axis_value ∧ e.axis_value ≤ 1) ∧
      (∀ (interval : Int) (state : DeviceState α) (tr : AxisLastTrigger) (now : Int)
          (reading : Option JOYINFOEX) (calls : List (Dispatch α))
          (state' : DeviceState α) (tr' : AxisLastTrigger),
        pollWinMM interval state tr now reading = some (calls, state', tr') →
        ∀ e, Dispatch.axisAbsolute e ∈ calls → -1 ≤ e.axis_value ∧ e.axis_value ≤ 1) ∧
      ∀ (interval : Int) (state : DeviceState α) (tr : AxisLastTrigger) (now : Int)
          (r : js_event) (calls : List (Dispatch α)) (state' : DeviceState α)
          (tr' : AxisLastTrigger),
        linuxRecord interval state tr now r = some (calls, state', tr') →
        ∀ e, Dispatch.axisAbsolute e ∈ calls → -1 ≤ e.axis_value ∧ e.axis_value ≤ 1 :=
  ⟨⟨norm_thumb_values.1, norm_thumb_values.2.1, norm_thumb_values.2.2, norm_thumb_mem⟩,
    norm_trigger_mem,
    fun state idx val => ⟨norm_axis_mem state idx val, norm_axis_degenerate state idx val,
      norm_axis_ends state idx val⟩,
    linux_axis_value_eq, hid_norm_mem, pollXInput_values, pollWinMM_values,
    linuxRecord_values⟩

/-- C23, at a concrete input: the record of axis 0 with the value 40000 (outside the 16-bit
range, to show the clamp) on a device whose axis 0 has been seen dispatches one axis event,
and its `axis_value` is 1. -/
theorem normalized_axis_range_witness :
    linuxRecord 0 { jsState 3 with axis_initialized := List.replicate 8 true } [] 5
        { value := 40000, type := 2, number := 0 } =
      some ([Dispatch.axisAbsolute
          (axisEventOf (jsState 3) 0 1 40000)],
        { jsState 3 with
          axis_initialized := List.replicate 8 true
          last_axes := [40000, 0, 0, 0, 0, 0, 0, 0] },
        [("js:js0:0+", 5)]) ∧
      (-1 : ℚ) ≤ (axisEventOf (jsState 3) 0 1 40000).axis_value ∧
      (axisEventOf (jsState 3) 0 1 40000).axis_value ≤ 1 :=
  have hrun : linuxRecord 0 { jsState 3 with axis_initialized := List.replicate 8 true } [] 5
        { value := 40000, type := 2, number := 0 } =
      some ([Dispatch.axisAbsolute
          (axisEventOf (jsState 3) 0 1 40000)],
        { jsState 3 with
          axis_initialized := List.replicate 8 true
          last_axes := [40000, 0, 0, 0, 0, 0, 0, 0] },
        [("js:js0:0+", 5)]) := by decide!
  ⟨hrun, normalized_axis_range.2.2.2.2.2.2.2 0 _ [] 5 _ _ _ _ hrun _
    (List.mem_singleton_self _)⟩

end RangeClaims

section EnumerationClaims

open JoypadInputManager

/-- C24. Refresh preserves device state.  On the device-file backend, for every table and
every directory listing, each state of the new table whose id is found in the old table is
the state found there (so it keeps id, name, last button mask, last raw axis values and
the flags of the axes seen); every state of the new table has the id of a `js` entry of
the listing, so a device absent from the listing is no longer in the table; a listed
device found in the old table is in the new one; and the public list holds the ids and
names of the state table, in the same order.  When the directory cannot be opened the
table stays as it is.  On Windows the same holds with `Preserved` for the states found,
the ids being those of the XInput indices and WinMM ids that answer.  In a table without
two states of the same id, "found in the old table" is "has the id of a state of the old
table".  On macOS the call changes nothing. -/
theorem refresh_preserves_state :
    (∀ (m : Devices α) (entries : List DirEntry),
        (∀ s' ∈ (Linux.RefreshDevices m (some entries)).device_states,
          ∀ s, find_existing m.device_states s'.id = some s → s' = s ∧ Preserved s s') ∧
        ((m.device_states.map fun s => s.id).Nodup →
          ∀ s ∈ m.device_states,
            ∀ s' ∈ (Linux.RefreshDevices m (some entries)).device_states,
              s'.id = s.id → Preserved s s') ∧
        (∀ s' ∈ (Linux.RefreshDevices m (some entries)).device_states,
          ∃ ent ∈ entries, ent.d_name.data.take 2 = "js".data ∧
            s'.id = "js:" ++ ent.d_name) ∧
        (∀ ent ∈ entries, ent.d_name.data.take 2 = "js".data →
          ∀ s, find_existing m.device_states ("js:" ++ ent.d_name) = some s →
            s ∈ (Linux.RefreshDevices m (some entries)).device_states) ∧
        (Linux.RefreshDevices m (some entries)).devices =
          (Linux.RefreshDevices m (some entries)).device_states.map DeviceState.info) ∧
      (∀ m : Devices α, Linux.RefreshDevices m none = m) ∧
      (∀ (m : Devices α) (xinput_ok : Nat → Bool) (count : Nat)
          (joy : Nat → Option JoyDevice),
        (∀ s' ∈ (Win32.RefreshDevices m xinput_ok count joy).device_states,
          ∀ s, find_existing m.device_states s'.id = some s → Preserved s s') ∧
        ((m.device_states.map fun s => s.id).Nodup →
          ∀ s ∈ m.device_states,
            ∀ s' ∈ (Win32.RefreshDevices m xinput_ok count joy).device_states,
              s'.id = s.id → Preserved s s') ∧
        (∀ s' ∈ (Win32.RefreshDevices m xinput_ok count joy).device_states,
          (∃ i, i < Win32.XUSER_MAX_COUNT ∧ xinput_ok i = true ∧
              s'.id = "xinput:" ++ toString i) ∨
            ∃ id, id < count ∧ (joy id).isSome = true ∧
              s'.id = "winmm:" ++ toString id) ∧
        (Win32.RefreshDevices m xinput_ok count joy).devices =
          (Win32.RefreshDevices m xinput_ok count joy).device_states.map
            DeviceState.info) ∧
      ∀ m : Devices α, Apple.RefreshDevices m = m := by
  refine ⟨?_, fun m => rfl, ?_, fun m => rfl⟩
  · intro m entries
    have hkept : ∀ s' ∈ (Linux.RefreshDevices m (some entries)).device_states,
        ∀ s, find_existing m.device_states s'.id = some s → s' = s ∧ Preserved s s' := by
      intro s' hs' s hf
      have := Linux.RefreshDevices_kept m entries s' hs' s hf
      subst this
      exact ⟨rfl, Preserved.refl _⟩
    refine ⟨hkept, ?_, ?_, ?_, ?_⟩
    · exact preserved_of_nodup _ _ (fun s' hs' s hf => (hkept s' hs' s hf).2)
    · intro s' hs'
      rw [(Linux.RefreshDevices_some m entries).1] at hs'
      obtain ⟨ent, hmem, hent⟩ := List.mem_filterMap.1 hs'
      obtain ⟨hp, hid, _⟩ := Linux.enumerateEntry_some _ ent s' hent
      exact ⟨ent, hmem, hp, hid⟩
    · intro ent hmem hp s hf
      rw [(Linux.RefreshDevices_some m entries).1]
      refine List.mem_filterMap.2 ⟨ent, hmem, ?_⟩
      unfold Linux.enumerateEntry
      rw [if_neg (not_not.2 hp)]
      simp only [hf]
    · rw [(Linux.RefreshDevices_some m entries).2.1, (Linux.RefreshDevices_some m entries).1]
  · intro m xinput_ok count joy
    exact ⟨Win32.RefreshDevices_keeps_members m xinput_ok count joy,
      preserved_of_nodup _ _ (Win32.RefreshDevices_keeps_members m xinput_ok count joy),
      Win32.RefreshDevices_ids m xinput_ok count joy,
      (Win32.RefreshDevices_eq m xinput_ok count joy).2⟩

/-- C24, at a concrete input: the table with the device file `js0`, whose first axis has
been seen at the raw value 7, refreshed against a directory that lists `event0`, `js0` and
a new file `js1`: the state of `js0` is kept as it is, a state for `js1` is added behind
it, and the public list names both. -/
theorem refresh_preserves_state_witness :
    Linux.RefreshDevices
        ({ jsTable with
          device_states := [({ jsState 3 with
            last_axes := [7, 0, 0, 0, 0, 0, 0, 0]
            axis_initialized := [true, false, false, false, false, false, false, false] } :
              DeviceState ℚ)] } : Devices ℚ)
        (some ({ d_name := "event0", open_fd := 9, ioctl_name := none } :: jsDir ++
          [{ d_name := "js1", open_fd := 5, ioctl_name := none }])) =
      ({ jsTable with
        devices := [(jsState 3).info, DeviceState.info
          ({ jsState 5 with id := "js:js1", name := "Joystick js1" } : DeviceState ℚ)]
        device_states := [({ jsState 3 with
            last_axes := [7, 0, 0, 0, 0, 0, 0, 0]
            axis_initialized := [true, false, false, false, false, false, false, false] } :
              DeviceState ℚ),
          ({ jsState 5 with id := "js:js1", name := "Joystick js1" } : DeviceState ℚ)] } :
        Devices ℚ) ∧
      (Linux.RefreshDevices jsTable (some jsDir)).devices =
        (Linux.RefreshDevices jsTable (some jsDir)).device_states.map DeviceState.info :=
  ⟨by decide!, ((@refresh_preserves_state ℚ _).1 jsTable jsDir).2.2.2.2⟩

/-- C25, counterexample: with the device `js0` in the table, a call of `RefreshDevices`
that cannot open the directory leaves `GetDevices()` with that device, not empty. -/
theorem refresh_failure_keeps_devices_counterexample :
    GetDevices (Linux.RefreshDevices jsTable none) = [(jsState 3).info] ∧
      GetDevices (Linux.RefreshDevices jsTable none) ≠ [] := by
  constructor <;> decide!

/-- C25, amended.  On the device-file backend, when the directory cannot be opened, the
call of `RefreshDevices` returns at once and changes nothing: the state table stays as it
was and `GetDevices()` returns the list it returned before the call; it is empty exactly
when it was empty before. -/
theorem refresh_failure_keeps_devices (m : Devices α) :
    Linux.RefreshDevices m none = m ∧
      GetDevices (Linux.RefreshDevices m none) = GetDevices m ∧
      (GetDevices (Linux.RefreshDevices m none) = [] ↔ GetDevices m = []) :=
  ⟨rfl, rfl, Iff.rfl⟩

/-- C25, at a concrete input: the table with the device `js0`. -/
theorem refresh_failure_keeps_devices_witness :
    Linux.RefreshDevices jsTable none = jsTable :=
  (refresh_failure_keeps_devices jsTable).1

/-- C26. `Stop` followed by `Start` on the device-file backend: `Stop` closes every
descriptor and sets it to -1 but keeps the states, and the `RefreshDevices` of `Start`
copies a state that it finds under the id of a listed file without opening the file; the
poll loop skips a state with a negative descriptor.  With the one device `js0`: after
`Stop` and `Start` its state has the descriptor -1, a press of its first button is not
dispatched (it was before `Stop`), and a further `RefreshDevices` leaves it so.  For every
running table, every state carried over has a negative descriptor and is skipped by the
poll loop. -/
theorem stop_start_leaves_descriptor_closed :
    (Linux.Start (Linux.Stop jsTable) (some jsDir) =
        { jsTable with device_states := [jsState (-1)] } ∧
      linuxPollDevice 0 (jsState 3) [] 5 [pressRecord] =
        some ([Dispatch.event (buttonEventOf (jsState 3) 1)], jsState 3, []) ∧
      linuxPollDevice 0 (jsState (-1)) [] 5 [pressRecord] = some ([], jsState (-1), []) ∧
      Linux.RefreshDevices (Linux.Start (Linux.Stop jsTable) (some jsDir)) (some jsDir) =
        Linux.Start (Linux.Stop jsTable) (some jsDir)) ∧
      ∀ (m : Devices α) (entries : List DirEntry), m.running = true →
        ∀ s' ∈ (Linux.Start (Linux.Stop m) (some entries)).device_states,
          (∃ s ∈ m.device_states, s.id = s'.id) →
          s'.fd < 0 ∧
            ∀ (tr : AxisLastTrigger) (now : Int) (records : List js_event),
              linuxPollDevice 0 s' tr now records = some ([], s', tr) := by
  refine ⟨⟨?_, ?_, ?_, ?_⟩, ?_⟩
  · decide!
  · decide!
  · decide!
  · decide!
  · intro m entries hrun s' hs' hold
    have hfd := Linux.Start_Stop_fd m entries hrun s' hs' hold
    exact ⟨hfd, fun tr now records => linuxPollDevice_closed 0 s' tr now records hfd⟩

end EnumerationClaims

section FloorClaims

end FloorClaims

section SlotClaims

open JoypadInputManager

/-- C28. Axis slots on the device-file backend: the poll step indexes the arrays
`axis_initialized` and `last_axes` (capacity 8) with the axis number of the record as
read, without a test; the record with the axis number 8 makes it leave the arrays (the
model returns `none`), while the same record with the axis number 7 stays inside them. -/
theorem linux_axis_slot_out_of_range :
    linuxRecord 0 (jsState 3) [] 5 { value := 100, type := JS_EVENT_AXIS, number := 8 } =
        none ∧
      (jsState 3).last_axes.length = 8 ∧ (jsState 3).axis_initialized.length = 8 ∧
      linuxRecord 0 (jsState 3) [] 5 { value := 100, type := JS_EVENT_AXIS, number := 7 } =
        some ([], { jsState 3 with
          last_axes := [0, 0, 0, 0, 0, 0, 0, 100]
          axis_initialized := [false, false, false, false, false, false, false, true] },
          []) := by
  refine ⟨?_, ?_, ?_, ?_⟩
  · decide!
  · decide!
  · decide!
  · decide!

end SlotClaims

section RestoreClaims

/-- C29. The startup slider-restore mapping agrees with the matcher: for every binding `b`,
every raw value `r` and every `std::pow`, `MapRawToPercentWithGamma(b, r)` is the percent
value that lines 330-356 of `FindMatchingBindings` compute for `b`, with the same fallbacks
to the range `[0, 1024]` and to the gamma 0.6; so a stored enabled `SetSourceVolumePercent`
axis binding is returned, for an axis event on its axis with `axis_raw_value = r` that
passes its device filter, with `volume_value = MapRawToPercentWithGamma(b, r)`. -/
theorem restore_mapping_agrees (pow : α → α → α) :
    (∀ (b : JoypadBinding α) (r : α),
        MapRawToPercentWithGamma pow b r = percentAxisVolume pow b r) ∧
      ∀ (bindings : List (JoypadBinding α)) (axis_active : AxisActive)
        (event : JoypadEvent α) (b : JoypadBinding α),
        b ∈ bindings → b.enabled = true → b.input_type = JoypadInputType.Axis →
        b.action = JoypadActionType.SetSourceVolumePercent →
        event.is_axis = true → b.axis_index = event.axis_index →
        (b.device_id = "" ∨ b.device_id = event.device_id) →
        { b with volume_value := MapRawToPercentWithGamma pow b event.axis_raw_value } ∈
          (FindMatchingBindings pow bindings axis_active event).1 := by
  have h : ∀ (b : JoypadBinding α) (r : α),
      MapRawToPercentWithGamma pow b r = percentAxisVolume pow b r := by
    intro b r
    unfold MapRawToPercentWithGamma percentAxisVolume
    simp only [percent_tests_eq_clamp]
  refine ⟨h, ?_⟩
  intro bindings axis_active event b hb hen hty hact hax hidx hdev
  rw [h]
  exact FindMatchingBindings_mem_of_forall pow event bindings axis_active b _ hb
    (fun m0 => matchBinding_percent_some pow event m0 b hen hty hact hax hidx hdev)

/-- C29, at a concrete input: the fader over the range 0..1024 with gamma 2 at the raw
value 512, with the square for `std::pow`: both give 25. -/
theorem restore_mapping_agrees_witness :
    MapRawToPercentWithGamma (fun x _ : ℚ => x * x) (faderBinding 2) 512 = 25 ∧
      (FindMatchingBindings (fun x _ : ℚ => x * x) [faderBinding 2] []
        (faderEvent 512 0)).1 = [{ (faderBinding 2 : JoypadBinding ℚ) with volume_value := 25 }] ∧
      { (faderBinding 2 : JoypadBinding ℚ) with
          volume_value :=
            MapRawToPercentWithGamma (fun x _ : ℚ => x * x) (faderBinding 2)
              (faderEvent 512 0 : JoypadEvent ℚ).axis_raw_value } ∈
        (FindMatchingBindings (fun x _ : ℚ => x * x) [faderBinding 2] []
          (faderEvent 512 0)).1 :=
  ⟨by decide!, by decide!,
    (restore_mapping_agrees (fun x _ : ℚ => x * x)).2 [faderBinding 2] [] (faderEvent 512 0)
      (faderBinding 2) (List.mem_singleton_self _) rfl rfl rfl rfl rfl (Or.inl rfl)⟩

end RestoreClaims

section MonotoneClaims

/-- C30. The percent mapping is monotone in the raw value.  Over the reals, with the real
power for `std::pow`: for every binding, whatever its `slider_gamma` and its range (the
range `[0, 1024]` being used when `axis_max_value <= axis_min_value`), and raw values
`r1 <= r2`, the percent value of the matcher and the value of `MapRawToPercentWithGamma`
for `r1` are at most those for `r2` when the direction is `Positive` or `Both`, and at
least those for `r2` when the direction is `Negative`. -/
theorem percent_monotone (b : JoypadBinding ℝ) (r1 r2 : ℝ) (h : r1 ≤ r2) :
    (b.axis_direction ≠ JoypadAxisDirection.Negative →
        percentAxisVolume (fun x y : ℝ => x ^ y) b r1 ≤
            percentAxisVolume (fun x y : ℝ => x ^ y) b r2 ∧
          MapRawToPercentWithGamma (fun x y : ℝ => x ^ y) b r1 ≤
            MapRawToPercentWithGamma (fun x y : ℝ => x ^ y) b r2) ∧
      (b.axis_direction = JoypadAxisDirection.Negative →
        percentAxisVolume (fun x y : ℝ => x ^ y) b r2 ≤
            percentAxisVolume (fun x y : ℝ => x ^ y) b r1 ∧
          MapRawToPercentWithGamma (fun x y : ℝ => x ^ y) b r2 ≤
            MapRawToPercentWithGamma (fun x y : ℝ => x ^ y) b r1) := by
  have hm := percentAxisVolume_mono (fun x y : ℝ => x ^ y) rpow_mono_base b r1 r2 h
  simp only [MapRawToPercentWithGamma_eq]
  exact ⟨fun hd => ⟨hm.1 hd, hm.1 hd⟩, fun hd => ⟨hm.2 hd, hm.2 hd⟩⟩

/-- C30, at a concrete input: the fader with gamma 0.6 at the raw values 100 and 512. -/
theorem percent_monotone_witness :
    (100 : ℝ) ≤ 512 ∧
      percentAxisVolume (fun x y : ℝ => x ^ y) (faderBinding 0.6) 100 ≤
        percentAxisVolume (fun x y : ℝ => x ^ y) (faderBinding 0.6) 512 :=
  ⟨by norm_num,
    ((percent_monotone (faderBinding 0.6) 100 512 (by norm_num)).1
      (fun hd => by cases hd)).1⟩

end MonotoneClaims
end Claims

end Joypad
